import Mathlib

/-! FreeOrion: the ship-part content parser and the info panels.

A shallow embedding of `parse/ShipPartsParser.cpp` and `UI/InfoPanels.cpp`.

Values of the C++ type `double` are carried in an arbitrary type `Dbl`; the
only structure assumed on it is what the code at hand uses (the literals `0.0`
and `1.0` in the parser, `+` in the icon value sums).
-/

set_option autoImplicit false

/-! ## Part 1: `parse/ShipPartsParser.cpp` -/

/-- Modelled from the spec: the enumeration `ShipPartClass` (declared outside this file), the
"class" field of a part; a value is kept by its integer. -/
structure ShipPartClass where
  value : Int
  deriving DecidableEq

/-- Modelled from the spec: the enumeration `ShipSlotType` (declared outside this file), a
"mountable slot type"; a value is kept by its integer. -/
structure ShipSlotType where
  value : Int
  deriving DecidableEq

/-- Modelled from the spec: `MoreCommonParams` (declared in `parse/CommonParams.h`), the
descriptive fields every content item has. The parser reads its member `name`
(`&MoreCommonParams::name`); the other fields are only moved. -/
structure MoreCommonParams where
  name : String
  description : String
  exclusions : List String
  deriving DecidableEq

/-- Modelled from the spec: `CommonParams` (declared in `parse/CommonParams.h`), the "common
descriptive/effect fields". The rules of this file only move the value, so its content is kept
uninterpreted. -/
structure CommonParams where
  content : List String
  deriving DecidableEq

/-- Modelled from the spec: the part record `PartType` (declared in `universe/ShipDesign.h`).
The record keeps the arguments of the eight-argument constructor called by `insert_parttype`,
one field per constructor position, in the order of the call. -/
structure PartType (Dbl : Type) where
  part_class : ShipPartClass
  capacity : Dbl
  stat2 : Dbl
  common_params : CommonParams
  more_common_params : MoreCommonParams
  mountable_slot_types : List ShipSlotType
  icon : String
  add_standard_capacity_effect : Bool
  deriving DecidableEq

/-- Modelled from the spec: `PartType::Name()`; the collection is "uniquely-keyed (by name)" and
the name of a content item is the one given in its descriptive fields. -/
def PartType.Name {Dbl : Type} (p : PartType Dbl) : String :=
  p.more_common_params.name

/-- The collection `std::map<std::string, std::unique_ptr<PartType>>`: a finite partial map
from keys to the record owned under that key. -/
abbrev PartMap (Dbl : Type) := String → Option (PartType Dbl)

/-- The empty `std::map`. -/
def PartMap.empty {Dbl : Type} : PartMap Dbl := fun _ => none

/-- `std::map::insert(std::make_pair(key, value))`: adds the pair when the map has no element
with that key and leaves the map as it is otherwise. -/
def PartMap.insert {Dbl : Type} (m : PartMap Dbl) (key : String) (value : PartType Dbl) :
    PartMap Dbl :=
  match m key with
  | some _ => m
  | none => fun k => if k = key then some value else m k

/-- `std::map::count(key)`. -/
def PartMap.count {Dbl : Type} (m : PartMap Dbl) (key : String) : Nat :=
  match m key with
  | some _ => 1
  | none => 0

/-- `insert_parttype` (ShipPartsParser.cpp:32-44). -/
def insert_parttype {Dbl : Type} (part_types : PartMap Dbl)
    (part_class : ShipPartClass) (capacity : Dbl) (stat2 : Dbl)
    (common_params : CommonParams) (more_common_params : MoreCommonParams)
    (mountable_slot_types : List ShipSlotType)
    (icon : String) (add_standard_capacity_effect : Bool) : PartMap Dbl :=
  let part_type : PartType Dbl :=
    PartType.mk part_class capacity stat2 common_params more_common_params mountable_slot_types
      icon add_standard_capacity_effect
  part_types.insert part_type.Name part_type

/-- Modelled from the spec: `parse::detail::is_unique` (declared in `parse/ParseImpl.h`), the
"explicit uniqueness check at parse time": true when no element of the collection has the key. -/
def is_unique {Dbl : Type} (map : PartMap Dbl) (key : String) : Bool :=
  map.count key == 0

/-- Tokens of the lexer (`parse::lexer`). The rules of this file name the tokens `Part`,
`NoDefaultCapacityEffect`, the brackets and the string token themselves; every other token is
consumed by a sub-grammar. -/
inductive Token where
  | Part_
  | NoDefaultCapacityEffect_
  | lbracket
  | rbracket
  | string (s : String)
  | int_ (n : Int)
  | other (text : String)
  deriving DecidableEq

/-- The label names passed to `labeller.rule`. -/
inductive LabelToken where
  | MountableSlotTypes_token
  | Class_token
  | Capacity_token
  | Damage_token
  | Shots_token
  | Icon_token
  deriving DecidableEq

/-- What a Spirit parser does on an input: it matches (`ok`, with its attribute and the rest of
the input), it does not match (`fail`, the caller may try something else), or an expectation
operator `>` inside it throws `expectation_failure`. `out_of_fuel` stands for a repetition
that has not come to an end within the bound of the model. -/
inductive Outcome (α : Type) where
  | ok (a : α) (rest : List Token)
  | fail
  | expectation_failure
  | out_of_fuel
  deriving DecidableEq

/-- A parser over the token stream. -/
abbrev Parser (α : Type) := List Token → Outcome α

/-- Sequencing: the continuation runs on the attribute and the rest of a match. -/
def Outcome.bind {α β : Type} (o : Outcome α) (f : α → List Token → Outcome β) : Outcome β :=
  match o with
  | .ok a rest => f a rest
  | .fail => .fail
  | .expectation_failure => .expectation_failure
  | .out_of_fuel => .out_of_fuel

/-- The right operand of the expectation operator `a > b`: when `b` does not match, `>`
throws `expectation_failure`. -/
def expect {α : Type} (o : Outcome α) : Outcome α :=
  match o with
  | .fail => .expectation_failure
  | o => o

/-- The grammars the rules are built from and whose definitions lie outside this file:
`labeller.rule`, `common_rules.more_common`, `common_rules.common`, the two enum grammars and
`double_rule`. -/
structure Grammars (Dbl : Type) where
  label : LabelToken → Parser Unit
  more_common : Parser MoreCommonParams
  common : Parser CommonParams
  ship_slot_type_enum : Parser ShipSlotType
  ship_part_class_enum : Parser ShipPartClass
  double_rule : Parser Dbl

section rules

variable {Dbl : Type}

/-- The repetition in `+ship_slot_type_enum [ push_back(_r1, _1) ]` after its first match:
every further match is appended to the vector, the first input that does not match ends the
repetition. -/
def rules.slots_more (G : Grammars Dbl) :
    Nat → List ShipSlotType → List Token → Outcome (List ShipSlotType)
  | 0, _, _ => .out_of_fuel
  | fuel + 1, r1, input =>
    match G.ship_slot_type_enum input with
    | .ok v rest => rules.slots_more G fuel (r1 ++ [v]) rest
    | .fail => .ok r1 input
    | .expectation_failure => .expectation_failure
    | .out_of_fuel => .out_of_fuel

/-- `+ship_slot_type_enum [ push_back(_r1, _1) ]` (line 87): one or more slot types. -/
def rules.slots_plus (G : Grammars Dbl) (r1 : List ShipSlotType) (input : List Token) :
    Outcome (List ShipSlotType) :=
  (G.ship_slot_type_enum input).bind fun v rest =>
    rules.slots_more G (rest.length + 1) (r1 ++ [v]) rest

/-- The alternative of lines 87-88:
`('[' > +ship_slot_type_enum [ push_back(_r1, _1) ] > ']') | ship_slot_type_enum [ push_back(_r1, _1) ]`. -/
def rules.slots_alternative (G : Grammars Dbl) (r1 : List ShipSlotType) (input : List Token) :
    Outcome (List ShipSlotType) :=
  match input with
  | Token.lbracket :: i1 =>
    (expect (rules.slots_plus G r1 i1)).bind fun r1 i2 =>
      match i2 with
      | Token.rbracket :: i3 => .ok r1 i3
      | _ => .expectation_failure
  | _ =>
    (G.ship_slot_type_enum input).bind fun v rest => .ok (r1 ++ [v]) rest

/-- The rule `slots` (lines 83-91), called as `slots(_f)`: the optional
`MountableSlotTypes = ...` field; `r1` is the vector the slot types are pushed onto. -/
def rules.slots (G : Grammars Dbl) (r1 : List ShipSlotType) (input : List Token) :
    Outcome (List ShipSlotType) :=
  match (G.label .MountableSlotTypes_token input).bind fun _ i1 =>
      expect (rules.slots_alternative G r1 i1) with
  | .fail => .ok r1 input
  | o => o

/-- Lines 98-101: `Capacity = d`, or `Damage = d`, or nothing, which gives `0.0`. -/
def rules.capacity [Zero Dbl] (G : Grammars Dbl) (input : List Token) : Outcome Dbl :=
  match (G.label .Capacity_token input).bind fun _ i1 => expect (G.double_rule i1) with
  | .fail =>
    match (G.label .Damage_token input).bind fun _ i1 => expect (G.double_rule i1) with
    | .fail => .ok 0 input
    | o => o
  | o => o

/-- Lines 102-105: `Damage = h`, or `Shots = h`, or nothing, which gives `1.0`. -/
def rules.stat2 [One Dbl] (G : Grammars Dbl) (input : List Token) : Outcome Dbl :=
  match (G.label .Damage_token input).bind fun _ i1 => expect (G.double_rule i1) with
  | .fail =>
    match (G.label .Shots_token input).bind fun _ i1 => expect (G.double_rule i1) with
    | .fail => .ok 1 input
    | o => o
  | o => o

/-- Lines 106-108: `tok.NoDefaultCapacityEffect_ [ _g = false ] | eps [ _g = true ]`. -/
def rules.no_default_capacity_effect (input : List Token) : Outcome Bool :=
  match input with
  | Token.NoDefaultCapacityEffect_ :: rest => .ok false rest
  | _ => .ok true input

/-- The rule `part_type` (lines 93-113), called as `part_type(_r1)` with the collection as
`_r1`. The result is the outcome of the rule and the collection after it. The semantic action
of `more_common` sets `_pass` from `is_unique_`; a false `_pass` makes that component fail,
and since it stands to the right of `>` the rule throws. The action of the whole sequence,
`insert_parttype_(_r1, _c, _d, _h, _e, _a, _f, _b, _g)`, runs once every component has
matched. -/
def rules.part_type [Zero Dbl] [One Dbl] (G : Grammars Dbl) (r1 : PartMap Dbl)
    (input : List Token) : Outcome Unit × PartMap Dbl :=
  match input with
  | Token.Part_ :: i1 =>
    match expect (G.more_common i1) with
    | .ok a i2 =>
      if is_unique r1 a.name then
        match
          (expect (G.label .Class_token i2)).bind fun _ i3 =>
          (expect (G.ship_part_class_enum i3)).bind fun c i4 =>
          (expect (rules.capacity G i4)).bind fun d i5 =>
          (expect (rules.stat2 G i5)).bind fun h i6 =>
          (expect (rules.no_default_capacity_effect i6)).bind fun g i7 =>
          (expect (rules.slots G [] i7)).bind fun f i8 =>
          (expect (G.common i8)).bind fun e i9 =>
          (expect (G.label .Icon_token i9)).bind fun _ i10 =>
            match i10 with
            | Token.string b :: rest => .ok (c, d, h, e, f, b, g) rest
            | _ => .expectation_failure
        with
        | .ok (c, d, h, e, f, b, g) rest =>
          (.ok () rest, insert_parttype r1 c d h e a f b g)
        | .fail => (.fail, r1)
        | .expectation_failure => (.expectation_failure, r1)
        | .out_of_fuel => (.out_of_fuel, r1)
      else (.expectation_failure, r1)
    | .fail => (.fail, r1)
    | .expectation_failure => (.expectation_failure, r1)
    | .out_of_fuel => (.out_of_fuel, r1)
  | _ => (.fail, r1)

/-- The repetition in `+part_type(_r1)` after its first match. -/
def rules.start_more [Zero Dbl] [One Dbl] (G : Grammars Dbl) :
    Nat → PartMap Dbl → List Token → Outcome Unit × PartMap Dbl
  | 0, r1, _ => (.out_of_fuel, r1)
  | fuel + 1, r1, input =>
    match rules.part_type G r1 input with
    | (.ok _ rest, r1) => rules.start_more G fuel r1 rest
    | (.fail, r1) => (.ok () input, r1)
    | (.expectation_failure, r1) => (.expectation_failure, r1)
    | (.out_of_fuel, r1) => (.out_of_fuel, r1)

/-- `qi::on_error<qi::fail>(start, ...)` (line 127): an `expectation_failure` thrown inside
`start` is reported and turned into a failed match of `start`. -/
def on_error_fail {α : Type} (o : Outcome α) : Outcome α :=
  match o with
  | .expectation_failure => .fail
  | o => o

/-- The rule `start = +part_type(_r1)` (lines 115-117) under its error handler. -/
def rules.start [Zero Dbl] [One Dbl] (G : Grammars Dbl) (r1 : PartMap Dbl)
    (input : List Token) : Outcome Unit × PartMap Dbl :=
  match rules.part_type G r1 input with
  | (.ok _ rest, r1) =>
    let r := rules.start_more G (rest.length + 1) r1 rest
    (on_error_fail r.1, r.2)
  | (o, r1) => (on_error_fail o, r1)

/-- Modelled from the spec: `parse::detail::parse_file<rules, Map>(file, parts)` (declared in
`parse/ParseImpl.h`). It runs the `start` rule of the grammar over the tokens of the file, with
the collection passed by reference as the rule's argument, and reports success when the rule
matched and the whole file was consumed: "the content parser fails a whole file's parse on
first grammar violation". The result is the reported success and the collection after the
call. -/
def parse_file [Zero Dbl] [One Dbl] (G : Grammars Dbl) (file : List Token)
    (parts : PartMap Dbl) : Bool × PartMap Dbl :=
  match rules.start G parts file with
  | (.ok _ [], parts) => (true, parts)
  | (_, parts) => (false, parts)

/-- `parse::ship_parts` (lines 167-177). `scripts` are the token streams of the files listed
by `ListScripts("scripting/ship_parts")`, in the order of the listing; the success reported by
`parse_file` is dropped, as in the source. -/
def ship_parts [Zero Dbl] [One Dbl] (G : Grammars Dbl) (scripts : List (List Token)) :
    PartMap Dbl :=
  scripts.foldl (fun parts file => (parse_file G file parts).2) PartMap.empty

end rules

/-! ### Well-formed Part definitions -/

section wellformed

variable {Dbl : Type}

/-- The field read by lines 98-101, with the value it gives: `Capacity = d`, else
`Damage = d`, else nothing and `0.0`. -/
inductive CapacityField [Zero Dbl] (G : Grammars Dbl) : List Token → Dbl → List Token → Prop
  | capacity {i i1 i2 : List Token} {d : Dbl} :
      G.label .Capacity_token i = .ok () i1 → G.double_rule i1 = .ok d i2 →
      CapacityField G i d i2
  | damage {i i1 i2 : List Token} {d : Dbl} :
      G.label .Capacity_token i = .fail →
      G.label .Damage_token i = .ok () i1 → G.double_rule i1 = .ok d i2 →
      CapacityField G i d i2
  | absent {i : List Token} :
      G.label .Capacity_token i = .fail → G.label .Damage_token i = .fail →
      CapacityField G i 0 i

/-- The field read by lines 102-105, with the value it gives: `Damage = h`, else
`Shots = h`, else nothing and `1.0`. -/
inductive Stat2Field [One Dbl] (G : Grammars Dbl) : List Token → Dbl → List Token → Prop
  | damage {i i1 i2 : List Token} {h : Dbl} :
      G.label .Damage_token i = .ok () i1 → G.double_rule i1 = .ok h i2 →
      Stat2Field G i h i2
  | shots {i i1 i2 : List Token} {h : Dbl} :
      G.label .Damage_token i = .fail →
      G.label .Shots_token i = .ok () i1 → G.double_rule i1 = .ok h i2 →
      Stat2Field G i h i2
  | absent {i : List Token} :
      G.label .Damage_token i = .fail → G.label .Shots_token i = .fail →
      Stat2Field G i 1 i

/-- One or more slot types written one after the other, listed in source order; the run ends
where the enum grammar does not match. -/
inductive SlotRun (G : Grammars Dbl) : List Token → List ShipSlotType → List Token → Prop
  | last {i i1 : List Token} {v : ShipSlotType} :
      G.ship_slot_type_enum i = .ok v i1 → i1.length < i.length →
      G.ship_slot_type_enum i1 = .fail →
      SlotRun G i [v] i1
  | more {i i1 i2 : List Token} {v : ShipSlotType} {vs : List ShipSlotType} :
      G.ship_slot_type_enum i = .ok v i1 → i1.length < i.length →
      SlotRun G i1 vs i2 →
      SlotRun G i (v :: vs) i2

/-- The field read by the rule `slots`, with the slot types it gives in source order:
no `MountableSlotTypes` label and no slot type, or the label and a bracketed list, or the label
and one slot type. -/
inductive SlotsField (G : Grammars Dbl) : List Token → List ShipSlotType → List Token → Prop
  | absent {i : List Token} :
      G.label .MountableSlotTypes_token i = .fail →
      SlotsField G i [] i
  | list {i i1 i2 : List Token} {vs : List ShipSlotType} :
      G.label .MountableSlotTypes_token i = .ok () (Token.lbracket :: i1) →
      SlotRun G i1 vs (Token.rbracket :: i2) →
      SlotsField G i vs i2
  | single {i i1 i2 : List Token} {v : ShipSlotType} :
      G.label .MountableSlotTypes_token i = .ok () i1 →
      i1.head? ≠ some Token.lbracket →
      G.ship_slot_type_enum i1 = .ok v i2 →
      SlotsField G i [v] i2

/-- The optional flag of a Part definition, with the value it gives to the eighth constructor
argument, `add_standard_capacity_effect`: the token `NoDefaultCapacityEffect` stands there, is
read, and the value is `false`; or another token (or nothing) stands there, nothing is read,
and the value is `true`. -/
inductive CapacityEffectField : List Token → Bool → List Token → Prop
  | flag {rest : List Token} :
      CapacityEffectField (Token.NoDefaultCapacityEffect_ :: rest) false rest
  | absent {i : List Token} :
      i.head? ≠ some Token.NoDefaultCapacityEffect_ →
      CapacityEffectField i true i

/-- A well-formed Part definition: the token `Part`, then every field in the order of the
grammar, each accepted by its grammar. The record is the one whose fields are the values
read: class, capacity, second stat, common parameters, more-common parameters, slot types, icon
and the capacity-effect flag. -/
inductive WellFormedPart [Zero Dbl] [One Dbl] (G : Grammars Dbl) :
    List Token → PartType Dbl → List Token → Prop
  | mk {i1 i2 i3 i4 i5 i6 i7 i8 i9 rest : List Token}
      {a : MoreCommonParams} {c : ShipPartClass} {d h : Dbl} {g : Bool}
      {f : List ShipSlotType} {e : CommonParams} {b : String} :
      G.more_common i1 = .ok a i2 →
      G.label .Class_token i2 = .ok () i3 →
      G.ship_part_class_enum i3 = .ok c i4 →
      CapacityField G i4 d i5 →
      Stat2Field G i5 h i6 →
      CapacityEffectField i6 g i7 →
      SlotsField G i7 f i8 →
      G.common i8 = .ok e i9 →
      G.label .Icon_token i9 = .ok () (Token.string b :: rest) →
      WellFormedPart G (Token.Part_ :: i1)
        { part_class := c, capacity := d, stat2 := h, common_params := e,
          more_common_params := a, mountable_slot_types := f, icon := b,
          add_standard_capacity_effect := g } rest

/-- A run of Part definitions accepted one after the other by `part_type`, each with a fresh
name and each consuming input: the records they add, the collection after them and the input
left. -/
inductive Definitions [Zero Dbl] [One Dbl] (G : Grammars Dbl) :
    PartMap Dbl → List Token → List (PartType Dbl) → PartMap Dbl → List Token → Prop
  | nil (m : PartMap Dbl) (i : List Token) : Definitions G m i [] m i
  | cons {m m2 : PartMap Dbl} {i i1 i2 : List Token} {p : PartType Dbl}
      {ps : List (PartType Dbl)} :
      rules.part_type G m i = (.ok () i1, m.insert p.Name p) →
      m p.Name = none →
      i1.length < i.length →
      Definitions G (m.insert p.Name p) i1 ps m2 i2 →
      Definitions G m i (p :: ps) m2 i2

/-- A sequence of `insert_parttype` calls starting from an empty collection; a call is given by
its eight arguments after the collection, kept as the fields of a record. -/
def insert_calls (calls : List (PartType Dbl)) : PartMap Dbl :=
  calls.foldl
    (fun part_types p =>
      insert_parttype part_types p.part_class p.capacity p.stat2 p.common_params
        p.more_common_params p.mountable_slot_types p.icon p.add_standard_capacity_effect)
    PartMap.empty

end wellformed

/-- The collection is keyed by name: every key maps to a record whose `Name()` is that key. -/
def KeyedByName {Dbl : Type} (m : PartMap Dbl) : Prop :=
  ∀ (k : String) (v : PartType Dbl), m k = some v → v.Name = k

/-- No two entries of the collection carry the same name. -/
def NamesDistinct {Dbl : Type} (m : PartMap Dbl) : Prop :=
  ∀ (k1 k2 : String) (v1 v2 : PartType Dbl),
    m k1 = some v1 → m k2 = some v2 → v1.Name = v2.Name → k1 = k2

/-- An outcome on the input `i` that is within bounds: the repetition bound was not hit, and a
match leaves no more input than `i`. -/
def Outcome.Within {α : Type} (o : Outcome α) (i : List Token) : Prop :=
  o ≠ .out_of_fuel ∧ ∀ a r, o = .ok a r → r.length ≤ i.length

/-- Grammars that behave as parsers over a token stream do: a match never leaves more input
than it was given, a match of the slot-type enum consumes input, and no grammar runs into the
repetition bound of the model. -/
structure Grammars.Productive {Dbl : Type} (G : Grammars Dbl) : Prop where
  label : ∀ l i, (G.label l i).Within i
  more_common : ∀ i, (G.more_common i).Within i
  common : ∀ i, (G.common i).Within i
  ship_part_class_enum : ∀ i, (G.ship_part_class_enum i).Within i
  double_rule : ∀ i, (G.double_rule i).Within i
  ship_slot_type_enum : ∀ i, (G.ship_slot_type_enum i).Within i
  ship_slot_type_enum_consumes :
    ∀ i v r, G.ship_slot_type_enum i = .ok v r → r.length < i.length

/-! ### A small instance of the outside grammars

Used to run the rules on concrete token streams. -/

/-- The text of a label in the sample grammar. -/
def LabelToken.text : LabelToken → String
  | .MountableSlotTypes_token => "mountableslottypes"
  | .Class_token => "class"
  | .Capacity_token => "capacity"
  | .Damage_token => "damage"
  | .Shots_token => "shots"
  | .Icon_token => "icon"

/-- Sample grammars over `Int`: a label is its text followed by `=`, the more-common parameters
are `name = "..." description = "..."`, the common parameters are `location = word`, a slot
type or part class is one word, a number is one integer token. -/
def sampleGrammars : Grammars Int where
  label := fun l input =>
    match input with
    | Token.other t :: Token.other "=" :: rest => if t = l.text then .ok () rest else .fail
    | _ => .fail
  more_common := fun input =>
    match input with
    | Token.other "name" :: Token.other "=" :: Token.string n ::
        Token.other "description" :: Token.other "=" :: Token.string d :: rest =>
      .ok { name := n, description := d, exclusions := [] } rest
    | _ => .fail
  common := fun input =>
    match input with
    | Token.other "location" :: Token.other "=" :: Token.other w :: rest =>
      .ok { content := [w] } rest
    | _ => .fail
  ship_slot_type_enum := fun input =>
    match input with
    | Token.other "External" :: rest => .ok ⟨0⟩ rest
    | Token.other "Internal" :: rest => .ok ⟨1⟩ rest
    | Token.other "Core" :: rest => .ok ⟨2⟩ rest
    | _ => .fail
  ship_part_class_enum := fun input =>
    match input with
    | Token.other "ShortRange" :: rest => .ok ⟨0⟩ rest
    | Token.other "Armour" :: rest => .ok ⟨1⟩ rest
    | _ => .fail
  double_rule := fun input =>
    match input with
    | Token.int_ n :: rest => .ok n rest
    | _ => .fail

/-- The tokens of
`Part name = "Laser" description = "LASER_DESC" class = ShortRange damage = 15 shots = 3
mountableslottypes = [External Internal] location = All icon = "laser.png"`. -/
def laserTokens : List Token :=
  [Token.Part_, .other "name", .other "=", .string "Laser",
   .other "description", .other "=", .string "LASER_DESC",
   .other "class", .other "=", .other "ShortRange",
   .other "damage", .other "=", .int_ 15,
   .other "shots", .other "=", .int_ 3,
   .other "mountableslottypes", .other "=", .lbracket, .other "External", .other "Internal",
   .rbracket,
   .other "location", .other "=", .other "All",
   .other "icon", .other "=", .string "laser.png"]

/-- The record of the definition `laserTokens`. -/
def laserPart : PartType Int :=
  { part_class := ⟨0⟩, capacity := 15, stat2 := 3, common_params := { content := ["All"] },
    more_common_params := { name := "Laser", description := "LASER_DESC", exclusions := [] },
    mountable_slot_types := [⟨0⟩, ⟨1⟩], icon := "laser.png",
    add_standard_capacity_effect := true }

/-- The tokens of
`Part name = "Plate" description = "PLATE_DESC" class = Armour capacity = 7
NoDefaultCapacityEffect mountableslottypes = External location = All icon = "plate.png"`. -/
def plateTokens : List Token :=
  [Token.Part_, .other "name", .other "=", .string "Plate",
   .other "description", .other "=", .string "PLATE_DESC",
   .other "class", .other "=", .other "Armour",
   .other "capacity", .other "=", .int_ 7,
   .NoDefaultCapacityEffect_,
   .other "mountableslottypes", .other "=", .other "External",
   .other "location", .other "=", .other "All",
   .other "icon", .other "=", .string "plate.png"]

/-- The record of the definition `plateTokens`. -/
def platePart : PartType Int :=
  { part_class := ⟨1⟩, capacity := 7, stat2 := 1, common_params := { content := ["All"] },
    more_common_params := { name := "Plate", description := "PLATE_DESC", exclusions := [] },
    mountable_slot_types := [⟨0⟩], icon := "plate.png",
    add_standard_capacity_effect := false }

/-- A second definition of the name `Laser`, with other field values. -/
def laserAgainTokens : List Token :=
  [Token.Part_, .other "name", .other "=", .string "Laser",
   .other "description", .other "=", .string "OTHER_DESC",
   .other "class", .other "=", .other "Armour",
   .other "capacity", .other "=", .int_ 7,
   .other "location", .other "=", .other "All",
   .other "icon", .other "=", .string "other.png"]

/-- A definition that breaks off after its name: the `class` label is missing. -/
def brokenTokens : List Token :=
  [Token.Part_, .other "name", .other "=", .string "Broken",
   .other "description", .other "=", .string "BROKEN_DESC",
   .other "icon", .other "=", .string "broken.png"]

/-- A script with a well-formed definition followed by a grammar violation. -/
def brokenScript : List Token := laserTokens ++ brokenTokens

/-! ## Part 2: `UI/InfoPanels.cpp`

The panels are views over simulation objects that live outside this file. The model keeps what
the claims below are about: the objects the panels resolve, the exceptions they throw, the
process-wide expanded flags, and the values the indicators show. Textures, tooltips, pixel
positions and the calls into the widget toolkit are left out. -/

/-- Modelled from the spec: the enumeration `MeterType` (declared outside this file), the
"meter type" of the query interface; the enumerators are the ones the file names. -/
inductive MeterType where
  | METER_POPULATION
  | METER_HEALTH
  | METER_FARMING
  | METER_MINING
  | METER_INDUSTRY
  | METER_RESEARCH
  | METER_TRADE
  | METER_CONSTRUCTION
  | METER_SUPPLY
  | METER_SHIELD
  | METER_DEFENSE
  | METER_DETECTION
  | METER_STEALTH
  | METER_FUEL
  deriving DecidableEq

/-- Modelled from the spec: the enumeration `FocusType` (declared outside this file); the
enumerators are the ones the file names, and `FOCUS_UNKNOWN` stands for every other value. -/
inductive FocusType where
  | FOCUS_BALANCED
  | FOCUS_FARMING
  | FOCUS_MINING
  | FOCUS_INDUSTRY
  | FOCUS_RESEARCH
  | FOCUS_TRADE
  | FOCUS_UNKNOWN
  deriving DecidableEq

/-- The exceptions the file throws, with their message. -/
inductive Exception where
  | invalid_argument (what : String)
  | runtime_error (what : String)
  deriving DecidableEq

/-- How a call ends: it returns, it throws, it reads through a null pointer (undefined
behaviour in C++), or one of its `assert`s fails. -/
inductive Result (α : Type) where
  | ok (a : α)
  | threw (e : Exception)
  | null_dereference
  | assertion_failed

/-- Modelled from the spec: colours `GG::Clr` (declared in the widget toolkit): the named
constants `MeterColor` returns and colours given by their components. -/
inductive Clr where
  | CLR_YELLOW
  | CLR_RED
  | CLR_BLUE
  | CLR_GREEN
  | CLR_WHITE
  | rgba (r g b a : Nat)
  deriving DecidableEq

/-- `MeterColor` (lines 54-77). -/
def MeterColor (meter_type : MeterType) : Clr :=
  match meter_type with
  | .METER_FARMING => .CLR_YELLOW
  | .METER_MINING => .CLR_RED
  | .METER_HEALTH => .CLR_RED
  | .METER_INDUSTRY => .CLR_BLUE
  | .METER_RESEARCH => .CLR_GREEN
  | .METER_TRADE => .rgba 255 148 0 255
  | .METER_CONSTRUCTION => .CLR_WHITE
  | .METER_POPULATION => .CLR_WHITE
  | _ => .CLR_WHITE

/-- Modelled from the spec: a `Meter` (declared in `universe/Meter.h`), "a bounded numeric game
statistic with current/max/projected values"; the three values the status bar reads. -/
structure Meter (Dbl : Type) where
  InitialMax : Dbl
  InitialCurrent : Dbl
  Max : Dbl

/-- Modelled from the spec: a simulation object (`UniverseObject` and its subclasses, declared
under `universe/`) as the panels see it through the "query interface on simulation objects:
current/projected meter values per meter type, ownership set, specials set, building set".
The four `is_` fields say whether `dynamic_cast` to that class gives a non-null pointer.
`AllocatedFood` is `PopCenter::AllocatedFood()` and `MaintenanceCost` is
`GetBuildingType()->MaintenanceCost()` of a building. -/
structure UniverseObject (Dbl : Type) where
  ID : Int
  Name : String
  is_PopCenter : Bool
  is_ResourceCenter : Bool
  is_Planet : Bool
  is_Building : Bool
  Owners : List Int
  Buildings : List Int
  BuildingTypeName : String
  PrimaryFocus : FocusType
  SecondaryFocus : FocusType
  GetMeter : MeterType → Option (Meter Dbl)
  ProjectedMeterPoints : MeterType → Dbl
  ProjectedCurrentMeter : MeterType → Dbl
  AllocatedFood : Dbl
  MaintenanceCost : Dbl

/-- Modelled from the spec: the `Universe` (declared in `universe/Universe.h`) as a lookup of
objects by id; `Object id` is the null pointer (`none`) when no object has the id. -/
structure Universe (Dbl : Type) where
  Object : Int → Option (UniverseObject Dbl)

/-- Modelled from the spec: `Universe::Object<Planet>(id)`, the object with the id cast to
`Planet`; null when there is no such object or it is not a planet. -/
def Universe.Object_Planet {Dbl : Type} (u : Universe Dbl) (id : Int) :
    Option (UniverseObject Dbl) :=
  match u.Object id with
  | some obj => if obj.is_Planet then some obj else none
  | none => none

/-- Modelled from the spec: `Universe::Object<Building>(id)`. -/
def Universe.Object_Building {Dbl : Type} (u : Universe Dbl) (id : Int) :
    Option (UniverseObject Dbl) :=
  match u.Object id with
  | some obj => if obj.is_Building then some obj else none
  | none => none

/-- Modelled from the spec: the enumeration `BuildType` (declared outside this file), the kind
of a build item on a production queue. -/
inductive BuildType where
  | BT_BUILDING
  | BT_SHIP
  | INVALID_BUILD_TYPE
  deriving DecidableEq

/-- Modelled from the spec: `ProductionQueue::Element`, an "in-progress build item with
allocated effort per turn". -/
structure ProductionQueueElement (Dbl : Type) where
  build_type : BuildType
  name : String
  location : Int
  allocated_pp : Dbl

/-- Modelled from the spec: an `Empire` as far as the panels query it: its production queue,
"an empire's ordered list of in-progress build items". -/
structure Empire (Dbl : Type) where
  GetProductionQueue : List (ProductionQueueElement Dbl)

/-- The state outside the panels that they query: `GetUniverse()`, the empires of `Empires()`
(the elements of the manager's map, an id and its empire, in the order of iteration),
`HumanClientApp::GetApp()->EmpireID()` and the font size `ClientUI::Pts()`. -/
structure World (Dbl : Type) where
  GetUniverse : Universe Dbl
  Empires : List (Int × Empire Dbl)
  EmpireID : Int
  Pts : Int

/-- Modelled from the spec: `Empires().Lookup(id)`, the empire with the id; null when the
manager has no empire with the id. -/
def World.Empires_Lookup {Dbl : Type} (W : World Dbl) (id : Int) : Option (Empire Dbl) :=
  match W.Empires.find? fun entry => entry.1 = id with
  | some entry => some entry.2
  | none => none

/-- A `std::map<int, bool>` of expanded flags keyed by object id. -/
abbrev ExpandedMap := Int → Option Bool

/-- `s_expanded_map[id] = value`. -/
def ExpandedMap.assign (m : ExpandedMap) (id : Int) (value : Bool) : ExpandedMap :=
  fun k => if k = id then some value else m k

/-- Reading `s_expanded_map[id]`: `operator[]` inserts the default `false` when the map has no
entry for the id. The result is the value read and the map after the read. -/
def ExpandedMap.index (m : ExpandedMap) (id : Int) : Bool × ExpandedMap :=
  match m id with
  | some b => (b, m)
  | none => (false, m.assign id false)

/-- The constructors' "determine if this panel has been created yet":
`if (s_expanded_map.find(id) == s_expanded_map.end()) s_expanded_map[id] = false;`. -/
def ExpandedMap.default_collapsed (m : ExpandedMap) (id : Int) : ExpandedMap :=
  match m id with
  | none => m.assign id false
  | some _ => m

/-- The static members `s_expanded_map` of the four panel classes. -/
structure Statics where
  PopulationPanel_s_expanded_map : ExpandedMap
  ResourcePanel_s_expanded_map : ExpandedMap
  MilitaryPanel_s_expanded_map : ExpandedMap
  BuildingsPanel_s_expanded_map : ExpandedMap

/-- Modelled from the spec: a `StatisticIcon` (declared in `UI/CUIControls.h`), an icon with a
number; the value it shows. -/
structure StatisticIcon (Dbl : Type) where
  value : Dbl

/-- Modelled from the spec: `StatisticIcon::SetValue`, which sets the value shown. -/
def StatisticIcon.SetValue {Dbl : Type} (_icon : StatisticIcon Dbl) (value : Dbl) :
    StatisticIcon Dbl :=
  { value := value }

/-- Sequencing of calls: the continuation runs when the first call returns. -/
def Result.bind {α β : Type} (r : Result α) (f : α → Result β) : Result β :=
  match r with
  | .ok a => f a
  | .threw e => .threw e
  | .null_dereference => .null_dereference
  | .assertion_failed => .assertion_failed

/-- Modelled from the spec: `UniverseObject::OwnedBy(empire_id)`, membership in the
"ownership set". -/
def UniverseObject.OwnedBy {Dbl : Type} (obj : UniverseObject Dbl) (empire_id : Int) : Bool :=
  obj.Owners.contains empire_id

/-! ### ObjectResourceConsumption -/

/-- Modelled from the spec: the enumeration `ResourceType` (declared outside this file); the
enumerators are the ones the file names, and `NUM_RESOURCE_TYPES` stands for every other
value. -/
inductive ResourceType where
  | INVALID_RESOURCE_TYPE
  | RE_FOOD
  | RE_MINERALS
  | RE_INDUSTRY
  | RE_TRADE
  | RE_RESEARCH
  | NUM_RESOURCE_TYPES
  deriving DecidableEq

/-- Modelled from the spec: the constant `ALL_EMPIRES` (declared outside this file), the empire
id that stands for no specific empire. -/
def ALL_EMPIRES : Int := -1

/-- What `ObjectResourceConsumption` reads of the simulation to compute its result: the
production queue of an empire, the food allocation of the object, or the maintenance cost of
its building type. -/
inductive Read where
  | GetProductionQueue (empire_id : Int)
  | AllocatedFood
  | MaintenanceCost
  deriving DecidableEq

/-- The loop over one production queue in `ObjectResourceConsumption` (lines 128-130 and
137-139), with the `prod_queue_allocation_sum` so far. -/
def ObjectResourceConsumption.queue_sum {Dbl : Type} [Add Dbl] (obj_ID : Int) :
    List (ProductionQueueElement Dbl) → Dbl → Dbl
  | [], prod_queue_allocation_sum => prod_queue_allocation_sum
  | queue_it :: rest, prod_queue_allocation_sum =>
    if queue_it.location = obj_ID then
      ObjectResourceConsumption.queue_sum obj_ID rest
        (prod_queue_allocation_sum + queue_it.allocated_pp)
    else ObjectResourceConsumption.queue_sum obj_ID rest prod_queue_allocation_sum

/-- The loop over all empires in `ObjectResourceConsumption` (lines 134-140), with the
`prod_queue_allocation_sum` so far; the result is the sum and the queues read. -/
def ObjectResourceConsumption.empires_sum {Dbl : Type} [Add Dbl] (obj_ID : Int) :
    List (Int × Empire Dbl) → Dbl → Dbl × List Read
  | [], prod_queue_allocation_sum => (prod_queue_allocation_sum, [])
  | it :: rest, prod_queue_allocation_sum =>
    let r := ObjectResourceConsumption.empires_sum obj_ID rest
      (ObjectResourceConsumption.queue_sum obj_ID it.2.GetProductionQueue
        prod_queue_allocation_sum)
    (r.1, Read.GetProductionQueue it.1 :: r.2)

/-- The `switch` of `ObjectResourceConsumption` (lines 110-158); `empire` is the empire looked
up for a specific empire id, with that id, and `none` for `ALL_EMPIRES`. -/
def ObjectResourceConsumption.switch {Dbl : Type} [Zero Dbl] [Add Dbl] (W : World Dbl)
    (obj : UniverseObject Dbl) (resource_type : ResourceType)
    (empire : Option (Int × Empire Dbl)) : Dbl × List Read :=
  match resource_type with
  | .RE_FOOD =>
    if obj.is_PopCenter then (obj.AllocatedFood, [Read.AllocatedFood]) else (0, [])
  | .RE_MINERALS | .RE_INDUSTRY =>
    match empire with
    | some empire =>
      (ObjectResourceConsumption.queue_sum obj.ID empire.2.GetProductionQueue 0,
        [Read.GetProductionQueue empire.1])
    | none => ObjectResourceConsumption.empires_sum obj.ID W.Empires 0
  | .RE_TRADE =>
    if obj.is_Building then (obj.MaintenanceCost, [Read.MaintenanceCost]) else (0, [])
  | _ => (0, [])

/-- `ObjectResourceConsumption` (lines 82-159); `obj` is a pointer, `none` the null pointer.
The result is the value returned and the reads of production queues, food allocation and
maintenance cost made on the way, in order. -/
def ObjectResourceConsumption {Dbl : Type} [Zero Dbl] [Add Dbl] (W : World Dbl)
    (obj : Option (UniverseObject Dbl)) (resource_type : ResourceType) (empire_id : Int) :
    Dbl × List Read :=
  match obj with
  | none => (0, [])
  | some obj =>
    if resource_type = .INVALID_RESOURCE_TYPE then (0, [])
    else if empire_id ≠ ALL_EMPIRES then
      match W.Empires_Lookup empire_id with
      | none => (0, [])
      | some empire =>
        if !obj.OwnedBy empire_id then (0, [])
        else ObjectResourceConsumption.switch W obj resource_type (some (empire_id, empire))
    else ObjectResourceConsumption.switch W obj resource_type none

/-! ### MultiIconValueIndicator -/

/-- The members of `MultiIconValueIndicator`. An element of `m_obj_vec` is a pointer: `none`
is the null pointer, `some obj` a pointer to an object in the state `obj`. -/
structure MultiIconValueIndicator (Dbl : Type) where
  m_icons : List (StatisticIcon Dbl)
  m_meter_types : List MeterType
  m_obj_vec : List (Option (UniverseObject Dbl))

/-- The inner loop of `MultiIconValueIndicator::Update` (lines 1351-1354) over the elements of
`m_obj_vec` from index `j` on, with the `sum` so far. -/
def MultiIconValueIndicator.Update_sum {Dbl : Type} [Add Dbl] (meter_type : MeterType) :
    List (Option (UniverseObject Dbl)) → Dbl → Result Dbl
  | [], sum => .ok sum
  | none :: _, _ => .assertion_failed
  | some obj :: rest, sum =>
    MultiIconValueIndicator.Update_sum meter_type rest (sum + obj.ProjectedMeterPoints meter_type)

/-- The outer loop of `MultiIconValueIndicator::Update` (lines 1348-1356) over the icons from
index `i` on, each with the meter type of the same index. An icon without a meter type of its
index would make `m_meter_types[i]` read past the end of the vector; the `assert` at the head of
`Update` excludes it. -/
def MultiIconValueIndicator.Update_icons {Dbl : Type} [Zero Dbl] [Add Dbl]
    (m_obj_vec : List (Option (UniverseObject Dbl))) :
    List (StatisticIcon Dbl) → List MeterType → Result (List (StatisticIcon Dbl))
  | [], _ => .ok []
  | _ :: _, [] => .null_dereference
  | icon :: icons, meter_type :: meter_types =>
    (MultiIconValueIndicator.Update_sum meter_type m_obj_vec 0).bind fun sum =>
    (MultiIconValueIndicator.Update_icons m_obj_vec icons meter_types).bind fun rest =>
      .ok (icon.SetValue sum :: rest)

/-- `MultiIconValueIndicator::Update` (lines 1345-1357). -/
def MultiIconValueIndicator.Update {Dbl : Type} [Zero Dbl] [Add Dbl]
    (self : MultiIconValueIndicator Dbl) : Result (MultiIconValueIndicator Dbl) :=
  if self.m_icons.length = self.m_meter_types.length then
    (MultiIconValueIndicator.Update_icons self.m_obj_vec self.m_icons self.m_meter_types).bind
      fun icons => .ok { self with m_icons := icons }
  else .assertion_failed

/-- The constructor `MultiIconValueIndicator(w, obj, meter_types)` (lines 1273-1295): one icon
per meter type, showing `0.0`, then `Update()`. -/
def new_MultiIconValueIndicator {Dbl : Type} [Zero Dbl] [Add Dbl]
    (obj : UniverseObject Dbl) (meter_types : List MeterType) :
    Result (MultiIconValueIndicator Dbl) :=
  MultiIconValueIndicator.Update
    { m_icons := meter_types.map fun _ => { value := 0 },
      m_meter_types := meter_types,
      m_obj_vec := [some obj] }

/-- The constructor `MultiIconValueIndicator(w, obj_vec, meter_types)` (lines 1297-1317). -/
def new_MultiIconValueIndicator_vec {Dbl : Type} [Zero Dbl] [Add Dbl]
    (obj_vec : List (Option (UniverseObject Dbl))) (meter_types : List MeterType) :
    Result (MultiIconValueIndicator Dbl) :=
  MultiIconValueIndicator.Update
    { m_icons := meter_types.map fun _ => { value := 0 },
      m_meter_types := meter_types,
      m_obj_vec := obj_vec }

/-! ### MultiMeterStatusBar -/

/-- The members of `MultiMeterStatusBar` and the height of its window. `m_obj` is a reference,
kept as the state of the object it refers to. -/
structure MultiMeterStatusBar (Dbl : Type) where
  m_meter_types : List MeterType
  m_initial_maxes : List Dbl
  m_initial_currents : List Dbl
  m_projected_maxes : List Dbl
  m_projected_currents : List Dbl
  m_obj : UniverseObject Dbl
  m_bar_colours : List Clr
  Height : Int

/-- The first loop of `MultiMeterStatusBar::Update` (lines 1493-1499): the meters of the
object, one per meter type; it throws at the first type the object has no meter of. -/
def MultiMeterStatusBar.Update_meters {Dbl : Type} (m_obj : UniverseObject Dbl) :
    List MeterType → Result (List (Meter Dbl))
  | [] => .ok []
  | meter_type :: rest =>
    match m_obj.GetMeter meter_type with
    | none =>
      .threw (.runtime_error
        "MultiMeterStatusBar::Update() tried to get a meter from and object that didn't have a meter of the specified type")
    | some meter =>
      (MultiMeterStatusBar.Update_meters m_obj rest).bind fun meters => .ok (meter :: meters)

/-- The second loop of `MultiMeterStatusBar::Update` (lines 1508-1515) from index `i` on:
`meters` and `meter_types` are the elements of `meters` and `m_meter_types` from that index. -/
def MultiMeterStatusBar.Update_bars {Dbl : Type} :
    List (Meter Dbl) → List MeterType → MultiMeterStatusBar Dbl → MultiMeterStatusBar Dbl
  | meter :: meters, meter_type :: meter_types, self =>
    MultiMeterStatusBar.Update_bars meters meter_types
      { self with
        m_initial_maxes := self.m_initial_maxes ++ [meter.InitialMax]
        m_initial_currents := self.m_initial_currents ++ [meter.InitialCurrent]
        m_projected_maxes := self.m_projected_maxes ++ [meter.Max]
        m_projected_currents :=
          self.m_projected_currents ++ [self.m_obj.ProjectedCurrentMeter meter_type]
        m_bar_colours := self.m_bar_colours ++ [MeterColor meter_type] }
  | _, _, self => self

/-- `MultiMeterStatusBar::Update` (lines 1491-1518), with `BAR_HEIGHT = 10`, `BAR_PAD = 1` and
`EDGE_PAD = 2`. The four value vectors are cleared before the second loop; `m_bar_colours` is
not. -/
def MultiMeterStatusBar.Update {Dbl : Type} (self : MultiMeterStatusBar Dbl) :
    Result (MultiMeterStatusBar Dbl) :=
  (MultiMeterStatusBar.Update_meters self.m_obj self.m_meter_types).bind fun meters =>
    let NUM_BARS : Int := meters.length
    let HEIGHT : Int := NUM_BARS * 10 + (NUM_BARS - 1) * 1 + 2 * 2
    let cleared : MultiMeterStatusBar Dbl :=
      { self with
        m_initial_maxes := []
        m_initial_currents := []
        m_projected_maxes := []
        m_projected_currents := [] }
    .ok { MultiMeterStatusBar.Update_bars meters self.m_meter_types cleared with
          Height := HEIGHT }

/-- The constructor `MultiMeterStatusBar(w, obj, meter_types)` (lines 1380-1393). -/
def new_MultiMeterStatusBar {Dbl : Type} (obj : UniverseObject Dbl)
    (meter_types : List MeterType) : Result (MultiMeterStatusBar Dbl) :=
  MultiMeterStatusBar.Update
    { m_meter_types := meter_types,
      m_initial_maxes := [],
      m_initial_currents := [],
      m_projected_maxes := [],
      m_projected_currents := [],
      m_obj := obj,
      m_bar_colours := [],
      Height := 1 }

/-- `MultiMeterStatusBar::Update` (lines 1491-1518) as a step on the bar: how the call ends
and the members after it, also when it throws. The first loop, the only place that throws,
fills the local vector `meters` and writes no member. -/
def MultiMeterStatusBar.Update_step {Dbl : Type} (self : MultiMeterStatusBar Dbl) :
    Result Unit × MultiMeterStatusBar Dbl :=
  match MultiMeterStatusBar.Update_meters self.m_obj self.m_meter_types with
  | .ok meters =>
    let NUM_BARS : Int := meters.length
    let HEIGHT : Int := NUM_BARS * 10 + (NUM_BARS - 1) * 1 + 2 * 2
    let cleared : MultiMeterStatusBar Dbl :=
      { self with
        m_initial_maxes := []
        m_initial_currents := []
        m_projected_maxes := []
        m_projected_currents := [] }
    (.ok (),
     { MultiMeterStatusBar.Update_bars meters self.m_meter_types cleared with
       Height := HEIGHT })
  | .threw e => (.threw e, self)
  | .null_dereference => (.null_dereference, self)
  | .assertion_failed => (.assertion_failed, self)

/-- Calls of `MultiMeterStatusBar::Update` one after the other, one per element of `objs`:
the object the bar refers to is in the state `obj` at the time of the call. The run ends at
the first call that does not return. -/
def MultiMeterStatusBar.Update_calls {Dbl : Type} :
    List (UniverseObject Dbl) → MultiMeterStatusBar Dbl → Result (MultiMeterStatusBar Dbl)
  | [], self => .ok self
  | obj :: objs, self =>
    (MultiMeterStatusBar.Update { self with m_obj := obj }).bind
      (MultiMeterStatusBar.Update_calls objs)

/-- Sequencing of a call that does not touch the statics with calls that do: when the first
call does not return, the statics are left as `S`. -/
def Result.bind_statics {α β : Type} (r : Result α) (S : Statics)
    (f : α → Result β × Statics) : Result β × Statics :=
  match r with
  | .ok a => f a
  | .threw e => (.threw e, S)
  | .null_dereference => (.null_dereference, S)
  | .assertion_failed => (.assertion_failed, S)

/-- The call returned. -/
def Result.isOk {α : Type} (r : Result α) : Bool :=
  match r with
  | .ok _ => true
  | _ => false

/-! ### PopulationPanel -/

/-- The members of `PopulationPanel`, and a record of its layout: which layout
`DoExpandCollapseLayout` applied last (expanded: the meter bars and large indicators are
attached; collapsed: the two statistic icons are), how many times it has run, and how many
times `ExpandCollapseSignal` has fired. -/
structure PopulationPanel (Dbl : Type) where
  m_popcenter_id : Int
  m_pop_stat : StatisticIcon Dbl
  m_health_stat : StatisticIcon Dbl
  m_multi_icon_value_indicator : MultiIconValueIndicator Dbl
  m_multi_meter_status_bar : MultiMeterStatusBar Dbl
  expanded_layout : Bool
  layouts : Nat
  ExpandCollapseSignal : Nat

/-- `PopulationPanel::GetPopCenter` (lines 391-407). -/
def PopulationPanel.GetPopCenter {Dbl : Type} (W : World Dbl)
    (self : PopulationPanel Dbl) : Result (UniverseObject Dbl) :=
  match W.GetUniverse.Object self.m_popcenter_id with
  | none =>
    .threw (.runtime_error "PopulationPanel tried to get an object with an invalid m_popcenter_id")
  | some obj =>
    if obj.is_PopCenter then .ok obj
    else
      .threw (.runtime_error
        "PopulationPanel failed casting an object pointer to a PopCenter pointer")

/-- `PopulationPanel::DoExpandCollapseLayout` (lines 255-295). The flag is read with
`s_expanded_map[m_popcenter_id]`; the signal fires at the end. -/
def PopulationPanel.DoExpandCollapseLayout {Dbl : Type} (S : Statics)
    (self : PopulationPanel Dbl) : PopulationPanel Dbl × Statics :=
  let r := S.PopulationPanel_s_expanded_map.index self.m_popcenter_id
  ({ self with
      expanded_layout := r.1
      layouts := self.layouts + 1
      ExpandCollapseSignal := self.ExpandCollapseSignal + 1 },
   { S with PopulationPanel_s_expanded_map := r.2 })

/-- `PopulationPanel::ExpandCollapse` (lines 247-253). -/
def PopulationPanel.ExpandCollapse {Dbl : Type} (expanded : Bool) (S : Statics)
    (self : PopulationPanel Dbl) : PopulationPanel Dbl × Statics :=
  let r := S.PopulationPanel_s_expanded_map.index self.m_popcenter_id
  if expanded = r.1 then (self, { S with PopulationPanel_s_expanded_map := r.2 })
  else
    PopulationPanel.DoExpandCollapseLayout
      { S with PopulationPanel_s_expanded_map := r.2.assign self.m_popcenter_id expanded } self

/-- `PopulationPanel::ExpandCollapseButtonPressed` (lines 242-245). -/
def PopulationPanel.ExpandCollapseButtonPressed {Dbl : Type} (S : Statics)
    (self : PopulationPanel Dbl) : PopulationPanel Dbl × Statics :=
  let r := S.PopulationPanel_s_expanded_map.index self.m_popcenter_id
  PopulationPanel.ExpandCollapse (!r.1) { S with PopulationPanel_s_expanded_map := r.2 } self

/-- `PopulationPanel::Update` (lines 340-383). -/
def PopulationPanel.Update {Dbl : Type} [Zero Dbl] [Add Dbl] (W : World Dbl)
    (self : PopulationPanel Dbl) : Result (PopulationPanel Dbl) :=
  (PopulationPanel.GetPopCenter W self).bind fun pop =>
  match W.GetUniverse.Object self.m_popcenter_id with
  | none => .null_dereference
  | some _obj =>
    self.m_multi_meter_status_bar.Update.bind fun bar =>
    self.m_multi_icon_value_indicator.Update.bind fun indicator =>
      .ok { self with
            m_multi_meter_status_bar := bar
            m_multi_icon_value_indicator := indicator
            m_pop_stat := self.m_pop_stat.SetValue (pop.ProjectedMeterPoints .METER_POPULATION)
            m_health_stat := self.m_health_stat.SetValue (pop.ProjectedMeterPoints .METER_HEALTH) }

/-- `PopulationPanel::Refresh` (lines 385-389). -/
def PopulationPanel.Refresh {Dbl : Type} [Zero Dbl] [Add Dbl] (W : World Dbl) (S : Statics)
    (self : PopulationPanel Dbl) : Result (PopulationPanel Dbl) × Statics :=
  (PopulationPanel.Update W self).bind_statics S fun panel =>
    let r := PopulationPanel.DoExpandCollapseLayout S panel
    (.ok r.1, r.2)

/-- The constructor `PopulationPanel(w, obj)` (lines 167-226). -/
def new_PopulationPanel {Dbl : Type} [Zero Dbl] [Add Dbl] (W : World Dbl) (S : Statics)
    (obj : UniverseObject Dbl) : Result (PopulationPanel Dbl) × Statics :=
  if !obj.is_PopCenter then
    (.threw (.invalid_argument
      "Attempted to construct a PopulationPanel with an UniverseObject that is not a PopCenter"),
     S)
  else
    let meters := [MeterType.METER_POPULATION, MeterType.METER_HEALTH]
    (new_MultiIconValueIndicator obj meters).bind_statics S fun indicator =>
    (new_MultiMeterStatusBar obj meters).bind_statics S fun bar =>
      PopulationPanel.Refresh W
        { S with
          PopulationPanel_s_expanded_map :=
            S.PopulationPanel_s_expanded_map.default_collapsed obj.ID }
        { m_popcenter_id := obj.ID,
          m_pop_stat := { value := 0 },
          m_health_stat := { value := 0 },
          m_multi_icon_value_indicator := indicator,
          m_multi_meter_status_bar := bar,
          expanded_layout := false,
          layouts := 0,
          ExpandCollapseSignal := 0 }

/-! ### Statistic icons of a collapsed panel -/

/-- The loop that positions and reattaches the statistic icons of a collapsed panel
(`ResourcePanel`, lines 601-615; `MilitaryPanel`, lines 1200-1213). `icons` are the icons not
yet visited, in the order of the iteration, and `n` counts the icons attached so far. The
result lists the icons attached, in the order they were attached, each with the `x` it was
moved to. The divisions are those of C++ `int`, which truncate. -/
def stat_icons_attach_loop {α : Type} (icon_width Width m_expand_button_Width : Int) :
    List α → Int → List (α × Int)
  | [], _ => []
  | icon :: icons, n =>
    let x : Int := Int.tdiv (icon_width * n * 7) 2
    if x > Width - m_expand_button_Width - Int.tdiv (icon_width * 5) 2 then []
    else (icon, x) :: stat_icons_attach_loop icon_width Width m_expand_button_Width icons (n + 1)

/-- `std::multimap<double, T>::insert`: the elements are kept in ascending order of their key,
and the new element goes after the elements whose key is not greater than its own (among
equal keys, the order of insertion). -/
def multimap_insert {Dbl α : Type} [LT Dbl] [DecidableRel ((· < ·) : Dbl → Dbl → Prop)]
    (value : Dbl × α) : List (Dbl × α) → List (Dbl × α)
  | [] => [value]
  | head :: rest =>
    if value.1 < head.1 then value :: head :: rest
    else head :: multimap_insert value rest

/-! ### ResourcePanel -/

/-- A focus drop-down list: whether it is disabled and the index of the selected row
(`-1` for none). -/
structure CUIDropDownList where
  disabled : Bool
  selected : Int
  deriving DecidableEq

/-- The five statistic icons of a `ResourcePanel`, each named by the member that points to
it. -/
inductive ResourceStatIcon where
  | m_farming_stat
  | m_mining_stat
  | m_industry_stat
  | m_research_stat
  | m_trade_stat
  deriving DecidableEq

/-- The members of `ResourcePanel`, the width of its window and of its expand button, and the
record of its layout. `attached_stat_icons` lists the statistic icons that are attached as
children, in the order they were attached, each with the `x` of its upper left corner. -/
structure ResourcePanel (Dbl : Type) where
  m_rescenter_id : Int
  m_farming_stat : StatisticIcon Dbl
  m_mining_stat : StatisticIcon Dbl
  m_industry_stat : StatisticIcon Dbl
  m_research_stat : StatisticIcon Dbl
  m_trade_stat : StatisticIcon Dbl
  m_multi_icon_value_indicator : MultiIconValueIndicator Dbl
  m_multi_meter_status_bar : MultiMeterStatusBar Dbl
  m_primary_focus_drop : CUIDropDownList
  m_secondary_focus_drop : CUIDropDownList
  Width : Int
  m_expand_button_Width : Int
  attached_stat_icons : List (ResourceStatIcon × Int)
  expanded_layout : Bool
  layouts : Nat
  ExpandCollapseSignal : Nat

/-- `ResourcePanel::GetResourceCenter` (lines 889-905). -/
def ResourcePanel.GetResourceCenter {Dbl : Type} (W : World Dbl)
    (self : ResourcePanel Dbl) : Result (UniverseObject Dbl) :=
  match W.GetUniverse.Object self.m_rescenter_id with
  | none =>
    .threw (.runtime_error "ResourcePanel tried to get an object with an invalid m_rescenter_id")
  | some obj =>
    if obj.is_ResourceCenter then .ok obj
    else
      .threw (.runtime_error
        "ResourcePanel failed casting an object pointer to a ResourceCenter pointer")

/-- The multimap `res_prod_icon_map` of `ResourcePanel::DoExpandCollapseLayout` (lines
589-594): the five icons keyed by the projected production of their resource, inserted in the
order farming, mining, industry, research, trade. -/
def ResourcePanel.res_prod_icon_map {Dbl : Type} [LT Dbl]
    [DecidableRel ((· < ·) : Dbl → Dbl → Prop)] (res : UniverseObject Dbl) :
    List (Dbl × ResourceStatIcon) :=
  multimap_insert (res.ProjectedMeterPoints .METER_TRADE, .m_trade_stat)
    (multimap_insert (res.ProjectedMeterPoints .METER_RESEARCH, .m_research_stat)
      (multimap_insert (res.ProjectedMeterPoints .METER_INDUSTRY, .m_industry_stat)
        (multimap_insert (res.ProjectedMeterPoints .METER_MINING, .m_mining_stat)
          (multimap_insert (res.ProjectedMeterPoints .METER_FARMING, .m_farming_stat) []))))

/-- The meter whose projected points key an icon in `res_prod_icon_map` (lines 590-594). -/
def ResourceStatIcon.meter_type : ResourceStatIcon → MeterType
  | .m_farming_stat => .METER_FARMING
  | .m_mining_stat => .METER_MINING
  | .m_industry_stat => .METER_INDUSTRY
  | .m_research_stat => .METER_RESEARCH
  | .m_trade_stat => .METER_TRADE

/-- `ResourcePanel::DoExpandCollapseLayout` (lines 570-659). In the collapsed branch the panel
resolves its resource center, which throws when the id does not resolve, detaches the five
statistic icons and reattaches icons from the end of `res_prod_icon_map` backwards, with
`icon_width = ClientUI::Pts()*4/3`. In the expanded branch the five icons are detached. -/
def ResourcePanel.DoExpandCollapseLayout {Dbl : Type} [LT Dbl]
    [DecidableRel ((· < ·) : Dbl → Dbl → Prop)] (W : World Dbl) (S : Statics)
    (self : ResourcePanel Dbl) : Result (ResourcePanel Dbl) × Statics :=
  let r := S.ResourcePanel_s_expanded_map.index self.m_rescenter_id
  let S1 : Statics := { S with ResourcePanel_s_expanded_map := r.2 }
  let icon_width : Int := Int.tdiv (W.Pts * 4) 3
  if !r.1 then
    (ResourcePanel.GetResourceCenter W self).bind_statics S1 fun res =>
      (.ok { self with
              attached_stat_icons :=
                stat_icons_attach_loop icon_width self.Width self.m_expand_button_Width
                  ((ResourcePanel.res_prod_icon_map res).reverse.map fun entry => entry.2) 0
              expanded_layout := r.1
              layouts := self.layouts + 1
              ExpandCollapseSignal := self.ExpandCollapseSignal + 1 },
       S1)
  else
    (.ok { self with
            attached_stat_icons := []
            expanded_layout := r.1
            layouts := self.layouts + 1
            ExpandCollapseSignal := self.ExpandCollapseSignal + 1 },
     S1)

/-- `ResourcePanel::ExpandCollapse` (lines 562-568). -/
def ResourcePanel.ExpandCollapse {Dbl : Type} [LT Dbl]
    [DecidableRel ((· < ·) : Dbl → Dbl → Prop)] (W : World Dbl) (expanded : Bool)
    (S : Statics) (self : ResourcePanel Dbl) : Result (ResourcePanel Dbl) × Statics :=
  let r := S.ResourcePanel_s_expanded_map.index self.m_rescenter_id
  if expanded = r.1 then (.ok self, { S with ResourcePanel_s_expanded_map := r.2 })
  else
    ResourcePanel.DoExpandCollapseLayout W
      { S with ResourcePanel_s_expanded_map := r.2.assign self.m_rescenter_id expanded } self

/-- `ResourcePanel::ExpandCollapseButtonPressed` (lines 557-560). -/
def ResourcePanel.ExpandCollapseButtonPressed {Dbl : Type} [LT Dbl]
    [DecidableRel ((· < ·) : Dbl → Dbl → Prop)] (W : World Dbl) (S : Statics)
    (self : ResourcePanel Dbl) : Result (ResourcePanel Dbl) × Statics :=
  let r := S.ResourcePanel_s_expanded_map.index self.m_rescenter_id
  ResourcePanel.ExpandCollapse W (!r.1) { S with ResourcePanel_s_expanded_map := r.2 } self

/-- The row `ResourcePanel::Update` selects for a focus (lines 819-880). -/
def ResourcePanel.focus_row (focus : FocusType) : Int :=
  match focus with
  | .FOCUS_BALANCED => 0
  | .FOCUS_FARMING => 1
  | .FOCUS_MINING => 2
  | .FOCUS_INDUSTRY => 3
  | .FOCUS_RESEARCH => 4
  | .FOCUS_TRADE => 5
  | .FOCUS_UNKNOWN => -1

/-- `ResourcePanel::Update` (lines 722-882). -/
def ResourcePanel.Update {Dbl : Type} [Zero Dbl] [Add Dbl] (W : World Dbl)
    (self : ResourcePanel Dbl) : Result (ResourcePanel Dbl) :=
  (ResourcePanel.GetResourceCenter W self).bind fun res =>
  match W.GetUniverse.Object self.m_rescenter_id with
  | none => .null_dereference
  | some obj =>
    let owner_is_self : Bool := !obj.Owners.isEmpty && obj.OwnedBy W.EmpireID
    self.m_multi_meter_status_bar.Update.bind fun bar =>
    self.m_multi_icon_value_indicator.Update.bind fun indicator =>
      .ok { self with
            m_primary_focus_drop :=
              { disabled := !owner_is_self, selected := ResourcePanel.focus_row res.PrimaryFocus }
            m_secondary_focus_drop :=
              { disabled := !owner_is_self,
                selected := ResourcePanel.focus_row res.SecondaryFocus }
            m_multi_meter_status_bar := bar
            m_multi_icon_value_indicator := indicator
            m_farming_stat :=
              self.m_farming_stat.SetValue (res.ProjectedMeterPoints .METER_FARMING)
            m_mining_stat := self.m_mining_stat.SetValue (res.ProjectedMeterPoints .METER_MINING)
            m_industry_stat :=
              self.m_industry_stat.SetValue (res.ProjectedMeterPoints .METER_INDUSTRY)
            m_research_stat :=
              self.m_research_stat.SetValue (res.ProjectedMeterPoints .METER_RESEARCH)
            m_trade_stat := self.m_trade_stat.SetValue (res.ProjectedMeterPoints .METER_TRADE) }

/-- The signals `PrimaryFocusChangedSignal` and `SecondaryFocusChangedSignal` of
`ResourcePanel`, with the focus they are emitted with. -/
inductive FocusChangedSignal where
  | PrimaryFocusChangedSignal (focus : FocusType)
  | SecondaryFocusChangedSignal (focus : FocusType)
  deriving DecidableEq

/-- `ResourcePanel::PrimaryFocusDropListSelectionChanged` (lines 907-935); `index` is
`m_primary_focus_drop->IteratorToIndex(selected)`. The result is how the call ends and the
signals it has emitted. -/
def ResourcePanel.PrimaryFocusDropListSelectionChanged (index : Int) :
    Result Unit × List FocusChangedSignal :=
  if index = 0 then (.ok (), [.PrimaryFocusChangedSignal .FOCUS_BALANCED])
  else if index = 1 then (.ok (), [.PrimaryFocusChangedSignal .FOCUS_FARMING])
  else if index = 2 then (.ok (), [.PrimaryFocusChangedSignal .FOCUS_MINING])
  else if index = 3 then (.ok (), [.PrimaryFocusChangedSignal .FOCUS_INDUSTRY])
  else if index = 4 then (.ok (), [.PrimaryFocusChangedSignal .FOCUS_RESEARCH])
  else if index = 5 then (.ok (), [.PrimaryFocusChangedSignal .FOCUS_TRADE])
  else
    (.threw (.invalid_argument
      "PrimaryFocusDropListSelectionChanged called with invalid cell/focus selection."),
     [])

/-- `ResourcePanel::SecondaryFocusDropListSelectionChanged` (lines 937-965); `index` is
`m_secondary_focus_drop->IteratorToIndex(selected)`. The result is how the call ends and the
signals it has emitted. -/
def ResourcePanel.SecondaryFocusDropListSelectionChanged (index : Int) :
    Result Unit × List FocusChangedSignal :=
  if index = 0 then (.ok (), [.SecondaryFocusChangedSignal .FOCUS_BALANCED])
  else if index = 1 then (.ok (), [.SecondaryFocusChangedSignal .FOCUS_FARMING])
  else if index = 2 then (.ok (), [.SecondaryFocusChangedSignal .FOCUS_MINING])
  else if index = 3 then (.ok (), [.SecondaryFocusChangedSignal .FOCUS_INDUSTRY])
  else if index = 4 then (.ok (), [.SecondaryFocusChangedSignal .FOCUS_RESEARCH])
  else if index = 5 then (.ok (), [.SecondaryFocusChangedSignal .FOCUS_TRADE])
  else
    (.threw (.invalid_argument
      "SecondaryFocusDropListSelectionChanged called with invalid cell/focus selection."),
     [])

/-- `ResourcePanel::Refresh` (lines 884-888). -/
def ResourcePanel.Refresh {Dbl : Type} [Zero Dbl] [Add Dbl] [LT Dbl]
    [DecidableRel ((· < ·) : Dbl → Dbl → Prop)] (W : World Dbl) (S : Statics)
    (self : ResourcePanel Dbl) : Result (ResourcePanel Dbl) × Statics :=
  (ResourcePanel.Update W self).bind_statics S fun panel =>
    ResourcePanel.DoExpandCollapseLayout W S panel

/-- The constructor `ResourcePanel(w, obj)` (lines 416-532). The expand button is 16 wide and
the five statistic icons are attached at `x = 0`. -/
def new_ResourcePanel {Dbl : Type} [Zero Dbl] [Add Dbl] [LT Dbl]
    [DecidableRel ((· < ·) : Dbl → Dbl → Prop)] (W : World Dbl) (S : Statics) (w : Int)
    (obj : UniverseObject Dbl) : Result (ResourcePanel Dbl) × Statics :=
  if !obj.is_ResourceCenter then
    (.threw (.invalid_argument
      "Attempted to construct a ResourcePanel with an UniverseObject that is not a ResourceCenter"),
     S)
  else
    let meters :=
      [MeterType.METER_FARMING, MeterType.METER_MINING, MeterType.METER_INDUSTRY,
       MeterType.METER_RESEARCH, MeterType.METER_TRADE, MeterType.METER_CONSTRUCTION]
    (new_MultiMeterStatusBar obj meters).bind_statics S fun bar =>
    (new_MultiIconValueIndicator obj meters).bind_statics S fun indicator =>
      ResourcePanel.Refresh W
        { S with
          ResourcePanel_s_expanded_map :=
            S.ResourcePanel_s_expanded_map.default_collapsed obj.ID }
        { m_rescenter_id := obj.ID,
          m_farming_stat := { value := 0 },
          m_mining_stat := { value := 0 },
          m_industry_stat := { value := 0 },
          m_research_stat := { value := 0 },
          m_trade_stat := { value := 0 },
          m_multi_icon_value_indicator := indicator,
          m_multi_meter_status_bar := bar,
          m_primary_focus_drop := { disabled := false, selected := -1 },
          m_secondary_focus_drop := { disabled := false, selected := -1 },
          Width := w,
          m_expand_button_Width := 16,
          attached_stat_icons :=
            [(.m_farming_stat, 0), (.m_mining_stat, 0), (.m_industry_stat, 0),
             (.m_research_stat, 0), (.m_trade_stat, 0)],
          expanded_layout := false,
          layouts := 0,
          ExpandCollapseSignal := 0 }

/-! ### MilitaryPanel -/

/-- The five statistic icons of a `MilitaryPanel`, each named by the member that points to
it. -/
inductive MilitaryStatIcon where
  | m_fleet_supply_stat
  | m_shield_stat
  | m_defense_stat
  | m_detection_stat
  | m_stealth_stat
  deriving DecidableEq

/-- The members of `MilitaryPanel`, the width of its window and of its expand button, and the
record of its layout. `attached_stat_icons` lists the statistic icons that are attached as
children, in the order they were attached, each with the `x` of its upper left corner. -/
structure MilitaryPanel (Dbl : Type) where
  m_planet_id : Int
  m_fleet_supply_stat : StatisticIcon Dbl
  m_shield_stat : StatisticIcon Dbl
  m_defense_stat : StatisticIcon Dbl
  m_detection_stat : StatisticIcon Dbl
  m_stealth_stat : StatisticIcon Dbl
  m_multi_icon_value_indicator : MultiIconValueIndicator Dbl
  m_multi_meter_status_bar : MultiMeterStatusBar Dbl
  Width : Int
  m_expand_button_Width : Int
  attached_stat_icons : List (MilitaryStatIcon × Int)
  expanded_layout : Bool
  layouts : Nat
  ExpandCollapseSignal : Nat

/-- `MilitaryPanel::GetPlanet` (lines 1250-1262). -/
def MilitaryPanel.GetPlanet {Dbl : Type} (W : World Dbl) (self : MilitaryPanel Dbl) :
    Result (UniverseObject Dbl) :=
  match W.GetUniverse.Object_Planet self.m_planet_id with
  | none =>
    .threw (.runtime_error "MilitaryPanel tried to get a planet with an invalid m_planet_id")
  | some plt => .ok plt

/-- `MilitaryPanel::DoExpandCollapseLayout` (lines 1173-1248). In the collapsed branch the
five statistic icons are detached and reattached in the order of the vector `meter_icons`,
with `icon_width = ClientUI::Pts()*4/3`. In the expanded branch the five icons are
detached. -/
def MilitaryPanel.DoExpandCollapseLayout {Dbl : Type} (W : World Dbl) (S : Statics)
    (self : MilitaryPanel Dbl) : MilitaryPanel Dbl × Statics :=
  let r := S.MilitaryPanel_s_expanded_map.index self.m_planet_id
  let icon_width : Int := Int.tdiv (W.Pts * 4) 3
  let meter_icons : List MilitaryStatIcon :=
    [.m_fleet_supply_stat, .m_shield_stat, .m_defense_stat, .m_detection_stat, .m_stealth_stat]
  ({ self with
      attached_stat_icons :=
        if !r.1 then
          stat_icons_attach_loop icon_width self.Width self.m_expand_button_Width meter_icons 0
        else []
      expanded_layout := r.1
      layouts := self.layouts + 1
      ExpandCollapseSignal := self.ExpandCollapseSignal + 1 },
   { S with MilitaryPanel_s_expanded_map := r.2 })

/-- `MilitaryPanel::ExpandCollapse` (lines 1060-1066). -/
def MilitaryPanel.ExpandCollapse {Dbl : Type} (W : World Dbl) (expanded : Bool) (S : Statics)
    (self : MilitaryPanel Dbl) : MilitaryPanel Dbl × Statics :=
  let r := S.MilitaryPanel_s_expanded_map.index self.m_planet_id
  if expanded = r.1 then (self, { S with MilitaryPanel_s_expanded_map := r.2 })
  else
    MilitaryPanel.DoExpandCollapseLayout W
      { S with MilitaryPanel_s_expanded_map := r.2.assign self.m_planet_id expanded } self

/-- `MilitaryPanel::ExpandCollapseButtonPressed` (lines 1168-1171). -/
def MilitaryPanel.ExpandCollapseButtonPressed {Dbl : Type} (W : World Dbl) (S : Statics)
    (self : MilitaryPanel Dbl) : MilitaryPanel Dbl × Statics :=
  let r := S.MilitaryPanel_s_expanded_map.index self.m_planet_id
  MilitaryPanel.ExpandCollapse W (!r.1) { S with MilitaryPanel_s_expanded_map := r.2 } self

/-- `MilitaryPanel::Update` (lines 1115-1160). -/
def MilitaryPanel.Update {Dbl : Type} [Zero Dbl] [Add Dbl] (W : World Dbl)
    (self : MilitaryPanel Dbl) : Result (MilitaryPanel Dbl) :=
  (MilitaryPanel.GetPlanet W self).bind fun plt =>
  self.m_multi_meter_status_bar.Update.bind fun bar =>
  self.m_multi_icon_value_indicator.Update.bind fun indicator =>
    .ok { self with
          m_multi_meter_status_bar := bar
          m_multi_icon_value_indicator := indicator
          m_fleet_supply_stat :=
            self.m_fleet_supply_stat.SetValue (plt.ProjectedMeterPoints .METER_SUPPLY)
          m_shield_stat := self.m_shield_stat.SetValue (plt.ProjectedMeterPoints .METER_SHIELD)
          m_defense_stat := self.m_defense_stat.SetValue (plt.ProjectedMeterPoints .METER_DEFENSE)
          m_detection_stat :=
            self.m_detection_stat.SetValue (plt.ProjectedMeterPoints .METER_DETECTION)
          m_stealth_stat := self.m_stealth_stat.SetValue (plt.ProjectedMeterPoints .METER_STEALTH) }

/-- `MilitaryPanel::Refresh` (lines 1162-1166). -/
def MilitaryPanel.Refresh {Dbl : Type} [Zero Dbl] [Add Dbl] (W : World Dbl) (S : Statics)
    (self : MilitaryPanel Dbl) : Result (MilitaryPanel Dbl) × Statics :=
  (MilitaryPanel.Update W self).bind_statics S fun panel =>
    let r := MilitaryPanel.DoExpandCollapseLayout W S panel
    (.ok r.1, r.2)

/-- The constructor `MilitaryPanel(w, plt)` (lines 974-1043); `plt` is the planet passed by
reference. The expand button is 16 wide and the five statistic icons are attached at
`x = 0`. -/
def new_MilitaryPanel {Dbl : Type} [Zero Dbl] [Add Dbl] (W : World Dbl) (S : Statics) (w : Int)
    (plt : UniverseObject Dbl) : Result (MilitaryPanel Dbl) × Statics :=
  let meters :=
    [MeterType.METER_SUPPLY, MeterType.METER_SHIELD, MeterType.METER_DEFENSE,
     MeterType.METER_DETECTION, MeterType.METER_STEALTH]
  (new_MultiMeterStatusBar plt meters).bind_statics S fun bar =>
  (new_MultiIconValueIndicator plt meters).bind_statics S fun indicator =>
    MilitaryPanel.Refresh W
      { S with
        MilitaryPanel_s_expanded_map := S.MilitaryPanel_s_expanded_map.default_collapsed plt.ID }
      { m_planet_id := plt.ID,
        m_fleet_supply_stat := { value := 0 },
        m_shield_stat := { value := 0 },
        m_defense_stat := { value := 0 },
        m_detection_stat := { value := 0 },
        m_stealth_stat := { value := 0 },
        m_multi_icon_value_indicator := indicator,
        m_multi_meter_status_bar := bar,
        Width := w,
        m_expand_button_Width := 16,
        attached_stat_icons :=
          [(.m_fleet_supply_stat, 0), (.m_shield_stat, 0), (.m_defense_stat, 0),
           (.m_detection_stat, 0), (.m_stealth_stat, 0)],
        expanded_layout := false,
        layouts := 0,
        ExpandCollapseSignal := 0 }

/-! ### BuildingsPanel -/

/-- A `BuildingIndicator`: the name of its building type and, for a building in progress, the
index in the production queue at which its progress (`ProductionStatus(queue_index)`) was
read; the upper left corner and the size of its window; and whether it is attached to the
panel. The building type is kept by its name. -/
structure BuildingIndicator where
  building_type : String
  progress_queue_index : Option Nat
  UpperLeft : Int × Int
  Width : Int
  Height : Int
  attached : Bool
  deriving DecidableEq

/-- The constructors `BuildingIndicator(w, type)` and
`BuildingIndicator(w, type, turns, turns_completed, partial_turn)` (lines 1799-1832): a square
window of side `w` at the origin. -/
def new_BuildingIndicator (w : Int) (building_type : String)
    (progress_queue_index : Option Nat) : BuildingIndicator :=
  { building_type := building_type,
    progress_queue_index := progress_queue_index,
    UpperLeft := (0, 0),
    Width := w,
    Height := w,
    attached := false }

/-- The members of `BuildingsPanel`; the width and height of its window; the width and height
of its expand button and whether the button is attached; and the record of its layout. -/
structure BuildingsPanel where
  m_planet_id : Int
  m_columns : Int
  m_building_indicators : List BuildingIndicator
  Width : Int
  Height : Int
  m_expand_button_Width : Int
  m_expand_button_Height : Int
  m_expand_button_attached : Bool
  expanded_layout : Bool
  layouts : Nat
  ExpandCollapseSignal : Nat
  deriving DecidableEq

/-- `BuildingsPanel::GetPlanet` (lines 1782-1794). -/
def BuildingsPanel.GetPlanet {Dbl : Type} (W : World Dbl) (self : BuildingsPanel) :
    Result (UniverseObject Dbl) :=
  match W.GetUniverse.Object_Planet self.m_planet_id with
  | none =>
    .threw (.runtime_error "BuildingsPanel tried to get a planet with an invalid m_planet_id")
  | some plt => .ok plt

/-- The loop over the finished buildings in `BuildingsPanel::Update` (lines 1639-1650): one
indicator per building id that resolves to a `Building`; the other ids are logged and
skipped. -/
def BuildingsPanel.Update_buildings {Dbl : Type} (W : World Dbl) (indicator_size : Int) :
    List Int → List BuildingIndicator
  | [] => []
  | id :: rest =>
    match W.GetUniverse.Object_Building id with
    | none => BuildingsPanel.Update_buildings W indicator_size rest
    | some building =>
      new_BuildingIndicator indicator_size building.BuildingTypeName none ::
        BuildingsPanel.Update_buildings W indicator_size rest

/-- The loop over one production queue in `BuildingsPanel::Update` (lines 1660-1683), from
the element with index `queue_index` on. -/
def BuildingsPanel.Update_queue {Dbl : Type} (plt_ID : Int) (indicator_size : Int) :
    List (ProductionQueueElement Dbl) → Nat → List BuildingIndicator
  | [], _ => []
  | elem :: rest, queue_index =>
    if elem.build_type ≠ BuildType.BT_BUILDING then
      BuildingsPanel.Update_queue plt_ID indicator_size rest (queue_index + 1)
    else if elem.location ≠ plt_ID then
      BuildingsPanel.Update_queue plt_ID indicator_size rest (queue_index + 1)
    else
      new_BuildingIndicator indicator_size elem.name (some queue_index) ::
        BuildingsPanel.Update_queue plt_ID indicator_size rest (queue_index + 1)

/-- The loop over the owners in `BuildingsPanel::Update` (lines 1654-1684); an owner that is
not a known empire is skipped. -/
def BuildingsPanel.Update_owners {Dbl : Type} (W : World Dbl) (plt_ID : Int)
    (indicator_size : Int) : List Int → List BuildingIndicator
  | [] => []
  | owner :: rest =>
    match W.Empires_Lookup owner with
    | none => BuildingsPanel.Update_owners W plt_ID indicator_size rest
    | some empire =>
      BuildingsPanel.Update_queue plt_ID indicator_size empire.GetProductionQueue 0 ++
        BuildingsPanel.Update_owners W plt_ID indicator_size rest

/-- `BuildingsPanel::Update` (lines 1621-1685). The planet is fetched with
`universe.Object<Planet>(m_planet_id)` and its building set is read through the pointer
without a check. The side of the new indicators is
`static_cast<int>(Value(Width() * 1.0 / m_columns))`, the truncated quotient. -/
def BuildingsPanel.Update {Dbl : Type} (W : World Dbl) (self : BuildingsPanel) :
    Result BuildingsPanel :=
  match W.GetUniverse.Object_Planet self.m_planet_id with
  | none => .null_dereference
  | some plt =>
    let indicator_size : Int := Int.tdiv self.Width self.m_columns
    .ok { self with
          m_building_indicators :=
            BuildingsPanel.Update_buildings W indicator_size plt.Buildings ++
              BuildingsPanel.Update_owners W plt.ID indicator_size plt.Owners }

/-- The loop of the collapsed branch of `BuildingsPanel::DoExpandCollapseLayout` (lines
1713-1727), from the `n`-th indicator on: an indicator that fits is moved into the row of
small icons, resized and attached, the others are detached. -/
def BuildingsPanel.collapsed_loop (icon_width icon_height w m_expand_button_Width : Int) :
    List BuildingIndicator → Int → List BuildingIndicator
  | [], _ => []
  | ind :: rest, n =>
    let x : Int := icon_width * n
    (if x < w - m_expand_button_Width - icon_width then
        { ind with
          UpperLeft := (n * icon_width, 0), Width := icon_width, Height := icon_height,
          attached := true }
      else { ind with attached := false }) ::
      BuildingsPanel.collapsed_loop icon_width icon_height w m_expand_button_Width rest (n + 1)

/-- The least value of the 32-bit `int`. -/
def INT_MIN : Int := -2147483648

/-- The greatest value of the 32-bit `int`. -/
def INT_MAX : Int := 2147483647

/-- The value a 32-bit `int` holds after an arithmetic operation whose exact result is `z`:
`z` itself when it is in range, and else the value in range that differs from `z` by a
multiple of `2^32` (the two's complement wrap-around). -/
def int32 (z : Int) : Int :=
  (z + 2147483648) % 4294967296 - 2147483648

/-- The loop of the expanded branch of `BuildingsPanel::DoExpandCollapseLayout` (lines
1731-1748), from the indicator that goes to `row` and `column` on. The result is the
indicators as placed and the `row` and `column` after the loop. The positions are computed in
`int`. -/
def BuildingsPanel.expanded_loop (padding indicator_size m_columns : Int) :
    List BuildingIndicator → Int → Int → List BuildingIndicator × Int × Int
  | [], row, column => ([], row, column)
  | ind :: rest, row, column =>
    let x : Int := int32 (padding * (column + 1) + indicator_size * column)
    let y : Int := int32 (padding * (row + 1) + indicator_size * row)
    let placed : BuildingIndicator :=
      { ind with
        UpperLeft := (x, y), Width := indicator_size, Height := indicator_size,
        attached := true }
    let r :=
      if column + 1 ≥ m_columns then
        BuildingsPanel.expanded_loop padding indicator_size m_columns rest (row + 1) 0
      else BuildingsPanel.expanded_loop padding indicator_size m_columns rest row (column + 1)
    (placed :: r.1, r.2)

/-- `BuildingsPanel::DoExpandCollapseLayout` (lines 1699-1780), with `padding = 5`,
`indicator_size = static_cast<int>(Value(effective_width * 1.0 / m_columns))`, the truncated
quotient, and `icon_width = icon_height = ClientUI::Pts()*4/3`. The effective width and the
positions and the height of the expanded branch are computed in `int`, as the source does. -/
def BuildingsPanel.DoExpandCollapseLayout {Dbl : Type} (W : World Dbl) (S : Statics)
    (self : BuildingsPanel) : BuildingsPanel × Statics :=
  let r := S.BuildingsPanel_s_expanded_map.index self.m_planet_id
  let w : Int := self.Width
  let padding : Int := 5
  let effective_width : Int := int32 (w - padding * (self.m_columns + 1))
  let indicator_size : Int := Int.tdiv effective_width self.m_columns
  let icon_width : Int := Int.tdiv (W.Pts * 4) 3
  let icon_height : Int := Int.tdiv (W.Pts * 4) 3
  let laid : List BuildingIndicator × Int :=
    if !r.1 then
      (BuildingsPanel.collapsed_loop icon_width icon_height w self.m_expand_button_Width
          self.m_building_indicators 0,
        self.m_expand_button_Height)
    else
      let l := BuildingsPanel.expanded_loop padding indicator_size self.m_columns
        self.m_building_indicators 0 0
      (l.1,
        if l.2.2 = 0 then int32 (padding * (l.2.1 + 1) + l.2.1 * indicator_size)
        else int32 (padding * (l.2.1 + 2) + (l.2.1 + 1) * indicator_size))
  let height : Int :=
    if self.m_building_indicators.isEmpty then 0
    else if laid.2 < icon_height then icon_height else laid.2
  ({ self with
      m_building_indicators := laid.1
      Height := height
      m_expand_button_attached := !self.m_building_indicators.isEmpty
      expanded_layout := r.1
      layouts := self.layouts + 1
      ExpandCollapseSignal := self.ExpandCollapseSignal + 1 },
   { S with BuildingsPanel_s_expanded_map := r.2 })

/-- `BuildingsPanel::ExpandCollapse` (lines 1566-1572). -/
def BuildingsPanel.ExpandCollapse {Dbl : Type} (W : World Dbl) (expanded : Bool) (S : Statics)
    (self : BuildingsPanel) : BuildingsPanel × Statics :=
  let r := S.BuildingsPanel_s_expanded_map.index self.m_planet_id
  if expanded = r.1 then (self, { S with BuildingsPanel_s_expanded_map := r.2 })
  else
    BuildingsPanel.DoExpandCollapseLayout W
      { S with BuildingsPanel_s_expanded_map := r.2.assign self.m_planet_id expanded } self

/-- `BuildingsPanel::ExpandCollapseButtonPressed` (lines 1694-1697). -/
def BuildingsPanel.ExpandCollapseButtonPressed {Dbl : Type} (W : World Dbl) (S : Statics)
    (self : BuildingsPanel) : BuildingsPanel × Statics :=
  let r := S.BuildingsPanel_s_expanded_map.index self.m_planet_id
  BuildingsPanel.ExpandCollapse W (!r.1) { S with BuildingsPanel_s_expanded_map := r.2 } self

/-- `BuildingsPanel::Refresh` (lines 1687-1692). -/
def BuildingsPanel.Refresh {Dbl : Type} (W : World Dbl) (S : Statics) (self : BuildingsPanel) :
    Result BuildingsPanel × Statics :=
  (BuildingsPanel.Update W self).bind_statics S fun panel =>
    let r := BuildingsPanel.DoExpandCollapseLayout W S panel
    (.ok r.1, r.2)

/-- The constructor `BuildingsPanel(w, columns, plt)` (lines 1526-1555): a square window of
side `w` with an attached expand button of 16 by 16. -/
def new_BuildingsPanel {Dbl : Type} (W : World Dbl) (S : Statics) (w : Int) (columns : Int)
    (plt : UniverseObject Dbl) : Result BuildingsPanel × Statics :=
  if columns < 1 then
    (.threw (.invalid_argument "Attempted to create a BuidingsPanel with less than 1 column"), S)
  else
    BuildingsPanel.Refresh W S
      { m_planet_id := plt.ID,
        m_columns := columns,
        m_building_indicators := [],
        Width := w,
        Height := w,
        m_expand_button_Width := 16,
        m_expand_button_Height := 16,
        m_expand_button_attached := true,
        expanded_layout := false,
        layouts := 0,
        ExpandCollapseSignal := 0 }

/-! ### SpecialsPanel -/

/-- The member of `SpecialsPanel` the getter reads. -/
structure SpecialsPanel where
  m_object_id : Int
  deriving DecidableEq

/-- `SpecialsPanel::GetObject` (lines 1976-1988). -/
def SpecialsPanel.GetObject {Dbl : Type} (W : World Dbl) (self : SpecialsPanel) :
    Result (UniverseObject Dbl) :=
  match W.GetUniverse.Object self.m_object_id with
  | none =>
    .threw (.runtime_error "SpecialsPanel tried to get a planet with an invalid m_object_id")
  | some obj => .ok obj

/-! ### SystemResourceSummaryBrowseWnd -/

/-- Modelled from the spec: a `System` (declared in `universe/System.h`) as the browse window
queries it: `FindObjects()`, the objects it contains, in the order of the vector returned. -/
structure System (Dbl : Type) where
  FindObjects : List (UniverseObject Dbl)

/-- The text of a `GG::TextControl` of the browse window: a string (the name of an object, or
the empty string), the string-table entry `UserString(key)`, or
`DoubleToString(number, 3, false, false)`, kept by the number it renders. -/
inductive SummaryText (Dbl : Type) where
  | string (text : String)
  | UserString (key : String)
  | DoubleToString (number : Dbl)

/-- A pair of text controls, label and value, with the vertical position `top` they were
made at. -/
structure LabelAndAmount (Dbl : Type) where
  top : Int
  label : SummaryText Dbl
  value : SummaryText Dbl

/-- The members of `SystemResourceSummaryBrowseWnd` that `UpdateAllocation` reads and writes.
`m_system` is a pointer: `none` is the null pointer. -/
structure SystemResourceSummaryBrowseWnd (Dbl : Type) where
  m_resource_type : ResourceType
  m_system : Option (System Dbl)
  m_empire_id : Int
  m_allocation : Dbl
  m_allocation_labels_and_amounts : List (LabelAndAmount Dbl)
  row_height : Int

/-- The loop over the objects of the system in `UpdateAllocation` (lines 2272-2318), from the
objects not yet visited; `self` is the window and `top` the vertical position so far. An
object not owned by the empire asked for, or whose consumption is not greater than `0.0`, adds
nothing (a negative consumption is logged). -/
def SystemResourceSummaryBrowseWnd.UpdateAllocation_loop {Dbl : Type} [Zero Dbl] [Add Dbl]
    [LE Dbl] [DecidableRel ((· ≤ ·) : Dbl → Dbl → Prop)] (W : World Dbl) :
    List (UniverseObject Dbl) → SystemResourceSummaryBrowseWnd Dbl → Int →
      SystemResourceSummaryBrowseWnd Dbl × Int
  | [], self, top => (self, top)
  | obj :: rest, self, top =>
    if self.m_empire_id ≠ ALL_EMPIRES && !obj.OwnedBy self.m_empire_id then
      SystemResourceSummaryBrowseWnd.UpdateAllocation_loop W rest self top
    else
      let allocation : Dbl :=
        (ObjectResourceConsumption W (some obj) self.m_resource_type self.m_empire_id).1
      if allocation ≤ 0 then
        SystemResourceSummaryBrowseWnd.UpdateAllocation_loop W rest self top
      else
        SystemResourceSummaryBrowseWnd.UpdateAllocation_loop W rest
          { self with
            m_allocation := self.m_allocation + allocation
            m_allocation_labels_and_amounts :=
              self.m_allocation_labels_and_amounts ++
                [{ top := top, label := .string obj.Name, value := .DoubleToString allocation }] }
          (top + self.row_height)

/-- `SystemResourceSummaryBrowseWnd::UpdateAllocation` (lines 2250-2348); `top` is passed by
reference, and the result is the window and `top` after the call. The text of
`m_allocation_label`, set at the end, is not modelled. -/
def SystemResourceSummaryBrowseWnd.UpdateAllocation {Dbl : Type} [Zero Dbl] [Add Dbl]
    [LE Dbl] [DecidableRel ((· ≤ ·) : Dbl → Dbl → Prop)] (W : World Dbl)
    (self : SystemResourceSummaryBrowseWnd Dbl) (top : Int) :
    SystemResourceSummaryBrowseWnd Dbl × Int :=
  let cleared : SystemResourceSummaryBrowseWnd Dbl :=
    { self with m_allocation_labels_and_amounts := [] }
  match self.m_system with
  | none => (cleared, top)
  | some m_system =>
    if self.m_resource_type = .INVALID_RESOURCE_TYPE then (cleared, top)
    else
      let r := SystemResourceSummaryBrowseWnd.UpdateAllocation_loop W m_system.FindObjects
        { cleared with m_allocation := 0 } top
      if r.1.m_allocation_labels_and_amounts.isEmpty then
        ({ r.1 with
            m_allocation_labels_and_amounts :=
              r.1.m_allocation_labels_and_amounts ++
                [{ top := r.2, label := .UserString "NOT_APPLICABLE", value := .string "" }] },
         r.2 + r.1.row_height)
      else r

/-! ### A small world

Used to run the panels on a concrete state. -/

/-- A planet with id 1, owned by empire 1, with the building 2 and a meter of every type. -/
def samplePlanet : UniverseObject Int :=
  { ID := 1, Name := "Terra", is_PopCenter := true, is_ResourceCenter := true, is_Planet := true,
    is_Building := false, Owners := [1], Buildings := [2], BuildingTypeName := "",
    PrimaryFocus := .FOCUS_FARMING, SecondaryFocus := .FOCUS_INDUSTRY,
    GetMeter := fun _ => some { InitialMax := 10, InitialCurrent := 5, Max := 10 },
    ProjectedMeterPoints := fun _ => 3,
    ProjectedCurrentMeter := fun _ => 6,
    AllocatedFood := 4,
    MaintenanceCost := 0 }

/-- A building with id 2 on the planet 1; it has no meters. -/
def sampleBuilding : UniverseObject Int :=
  { ID := 2, Name := "Terra Shipyard", is_PopCenter := false, is_ResourceCenter := false,
    is_Planet := false,
    is_Building := true, Owners := [1], Buildings := [], BuildingTypeName := "BLD_SHIPYARD",
    PrimaryFocus := .FOCUS_UNKNOWN, SecondaryFocus := .FOCUS_UNKNOWN,
    GetMeter := fun _ => none,
    ProjectedMeterPoints := fun _ => 0,
    ProjectedCurrentMeter := fun _ => 0,
    AllocatedFood := 0,
    MaintenanceCost := 2 }

/-- The world with the planet 1, the building 2 and two empires: the empire 1, whose queue
holds a ship and a building at the planet, and the empire 2, whose queue holds a building at
the planet and a ship elsewhere. The font size is 12. -/
def sampleWorld : World Int :=
  { GetUniverse :=
      { Object := fun id =>
          if id = 1 then some samplePlanet else if id = 2 then some sampleBuilding else none },
    Empires :=
      [(1, { GetProductionQueue :=
              [{ build_type := .BT_SHIP, name := "SD_SCOUT", location := 1, allocated_pp := 2 },
               { build_type := .BT_BUILDING, name := "BLD_LAB", location := 1,
                 allocated_pp := 4 }] }),
       (2, { GetProductionQueue :=
              [{ build_type := .BT_BUILDING, name := "BLD_MINE", location := 1,
                 allocated_pp := 5 },
               { build_type := .BT_SHIP, name := "SD_SCOUT", location := 9,
                 allocated_pp := 7 }] })],
    EmpireID := 1,
    Pts := 12 }

/-- The statics before any panel has been made. -/
def noPanels : Statics :=
  { PopulationPanel_s_expanded_map := fun _ => none,
    ResourcePanel_s_expanded_map := fun _ => none,
    MilitaryPanel_s_expanded_map := fun _ => none,
    BuildingsPanel_s_expanded_map := fun _ => none }

/-- The statics in which every class holds the flag `true` (expanded) for the object 1. -/
def panelsExpanded : Statics :=
  { PopulationPanel_s_expanded_map := fun k => if k = 1 then some true else none,
    ResourcePanel_s_expanded_map := fun k => if k = 1 then some true else none,
    MilitaryPanel_s_expanded_map := fun k => if k = 1 then some true else none,
    BuildingsPanel_s_expanded_map := fun k => if k = 1 then some true else none }

/-- The indicator of a panel over `samplePlanet` after `Update`. -/
def sampleIndicator (meter_types : List MeterType) : MultiIconValueIndicator Int :=
  { m_icons := meter_types.map fun _ => { value := 3 },
    m_meter_types := meter_types,
    m_obj_vec := [some samplePlanet] }

/-- The status bar of a panel over `samplePlanet` once the panel is constructed: `Update` has
run twice, in the constructor of the bar and in the `Refresh` of the panel, and has pushed the
bar colours each time. -/
def sampleBar (meter_types : List MeterType) : MultiMeterStatusBar Int :=
  { m_meter_types := meter_types,
    m_initial_maxes := meter_types.map fun _ => 10,
    m_initial_currents := meter_types.map fun _ => 5,
    m_projected_maxes := meter_types.map fun _ => 10,
    m_projected_currents := meter_types.map fun _ => 6,
    m_obj := samplePlanet,
    m_bar_colours := meter_types.map MeterColor ++ meter_types.map MeterColor,
    Height := 11 * meter_types.length + 3 }

/-- The population panel the constructor makes for `samplePlanet`. -/
def samplePopulationPanel : PopulationPanel Int :=
  { m_popcenter_id := 1,
    m_pop_stat := { value := 3 },
    m_health_stat := { value := 3 },
    m_multi_icon_value_indicator := sampleIndicator [.METER_POPULATION, .METER_HEALTH],
    m_multi_meter_status_bar := sampleBar [.METER_POPULATION, .METER_HEALTH],
    expanded_layout := false,
    layouts := 1,
    ExpandCollapseSignal := 1 }

/-- The resource panel the constructor makes for `samplePlanet` with the width 200. -/
def sampleResourcePanel : ResourcePanel Int :=
  { m_rescenter_id := 1,
    m_farming_stat := { value := 3 },
    m_mining_stat := { value := 3 },
    m_industry_stat := { value := 3 },
    m_research_stat := { value := 3 },
    m_trade_stat := { value := 3 },
    m_multi_icon_value_indicator :=
      sampleIndicator [.METER_FARMING, .METER_MINING, .METER_INDUSTRY, .METER_RESEARCH,
        .METER_TRADE, .METER_CONSTRUCTION],
    m_multi_meter_status_bar :=
      sampleBar [.METER_FARMING, .METER_MINING, .METER_INDUSTRY, .METER_RESEARCH,
        .METER_TRADE, .METER_CONSTRUCTION],
    m_primary_focus_drop := { disabled := false, selected := 1 },
    m_secondary_focus_drop := { disabled := false, selected := 3 },
    Width := 200,
    m_expand_button_Width := 16,
    attached_stat_icons := [(.m_trade_stat, 0), (.m_research_stat, 56), (.m_industry_stat, 112)],
    expanded_layout := false,
    layouts := 1,
    ExpandCollapseSignal := 1 }

/-- The military panel the constructor makes for `samplePlanet` with the width 200. -/
def sampleMilitaryPanel : MilitaryPanel Int :=
  { m_planet_id := 1,
    m_fleet_supply_stat := { value := 3 },
    m_shield_stat := { value := 3 },
    m_defense_stat := { value := 3 },
    m_detection_stat := { value := 3 },
    m_stealth_stat := { value := 3 },
    m_multi_icon_value_indicator :=
      sampleIndicator [.METER_SUPPLY, .METER_SHIELD, .METER_DEFENSE, .METER_DETECTION,
        .METER_STEALTH],
    m_multi_meter_status_bar :=
      sampleBar [.METER_SUPPLY, .METER_SHIELD, .METER_DEFENSE, .METER_DETECTION,
        .METER_STEALTH],
    Width := 200,
    m_expand_button_Width := 16,
    attached_stat_icons :=
      [(.m_fleet_supply_stat, 0), (.m_shield_stat, 56), (.m_defense_stat, 112)],
    expanded_layout := false,
    layouts := 1,
    ExpandCollapseSignal := 1 }

/-- The buildings panel the constructor makes for `samplePlanet` with the width 200 and three
columns. -/
def sampleBuildingsPanel : BuildingsPanel :=
  { m_planet_id := 1, m_columns := 3,
    m_building_indicators :=
      [{ building_type := "BLD_SHIPYARD", progress_queue_index := none,
         UpperLeft := (0, 0), Width := 16, Height := 16, attached := true },
       { building_type := "BLD_LAB", progress_queue_index := some 1,
         UpperLeft := (16, 0), Width := 16, Height := 16, attached := true }],
    Width := 200, Height := 16,
    m_expand_button_Width := 16, m_expand_button_Height := 16, m_expand_button_attached := true,
    expanded_layout := false, layouts := 1, ExpandCollapseSignal := 1 }

/-- An indicator over the planet and the building of `sampleWorld` for two meter types, whose
icons show stale values. -/
def staleIndicator : MultiIconValueIndicator Int :=
  { m_icons := [{ value := 100 }, { value := -7 }],
    m_meter_types := [.METER_FARMING, .METER_INDUSTRY],
    m_obj_vec := [some samplePlanet, some sampleBuilding, some samplePlanet] }

/-- A buildings panel whose planet id, 7, is the id of no object of `sampleWorld`. -/
def strayBuildingsPanel : BuildingsPanel :=
  { m_planet_id := 7, m_columns := 4,
    m_building_indicators :=
      [{ building_type := "BLD_OLD", progress_queue_index := none,
         UpperLeft := (0, 0), Width := 16, Height := 16, attached := true }],
    Width := 200, Height := 16,
    m_expand_button_Width := 16, m_expand_button_Height := 16, m_expand_button_attached := true,
    expanded_layout := false, layouts := 1, ExpandCollapseSignal := 1 }

/-- A planet with id 3, owned by the empire 2, whose projected production is 5 for farming,
1 for mining, 4 for industry, 2 for research and 3 for trade. -/
def busyPlanet : UniverseObject Int :=
  { samplePlanet with
    ID := 3, Name := "Ceres", Owners := [2], Buildings := [],
    ProjectedMeterPoints := fun meter_type =>
      match meter_type with
      | .METER_FARMING => 5
      | .METER_MINING => 1
      | .METER_INDUSTRY => 4
      | .METER_RESEARCH => 2
      | .METER_TRADE => 3
      | _ => 0 }

/-- The world `sampleWorld` with the planet 3 added. -/
def busyWorld : World Int :=
  { sampleWorld with
    GetUniverse :=
      { Object := fun id =>
          if id = 3 then some busyPlanet else sampleWorld.GetUniverse.Object id } }

/-- A resource panel of the width `w` whose resource center is `busyPlanet`; its other
members are those of `sampleResourcePanel`. -/
def busyResourcePanel (w : Int) : ResourcePanel Int :=
  { sampleResourcePanel with m_rescenter_id := 3, Width := w }

/-- A buildings panel of the width 200 with two columns and five indicators, as `Update`
makes them. -/
def fullBuildingsPanel : BuildingsPanel :=
  { m_planet_id := 1, m_columns := 2,
    m_building_indicators :=
      [new_BuildingIndicator 100 "BLD_SHIPYARD" none,
       new_BuildingIndicator 100 "BLD_LAB" none,
       new_BuildingIndicator 100 "BLD_MINE" none,
       new_BuildingIndicator 100 "BLD_FARM" (some 0),
       new_BuildingIndicator 100 "BLD_OBSERVATORY" (some 3)],
    Width := 200, Height := 16,
    m_expand_button_Width := 16, m_expand_button_Height := 16, m_expand_button_attached := true,
    expanded_layout := false, layouts := 1, ExpandCollapseSignal := 1 }

/-- A buildings panel 2000000000 wide with one column and two indicators. -/
def hugeBuildingsPanel : BuildingsPanel :=
  { fullBuildingsPanel with
    m_columns := 1,
    m_building_indicators :=
      [new_BuildingIndicator 100 "BLD_SHIPYARD" none, new_BuildingIndicator 100 "BLD_LAB" none],
    Width := 2000000000 }

/-- A resource panel whose resource center id, 7, is the id of no object of `sampleWorld`. -/
def strayResourcePanel : ResourcePanel Int :=
  { sampleResourcePanel with m_rescenter_id := 7 }

/-- The statics in which `ResourcePanel` holds the flag `true` (expanded) for the id 7. -/
def strayExpanded : Statics :=
  { noPanels with ResourcePanel_s_expanded_map := fun k => if k = 7 then some true else none }

/-- A status bar for the population meter over `sampleBuilding`, which has no meters. -/
def strayBar : MultiMeterStatusBar Int :=
  { sampleBar [.METER_POPULATION] with m_obj := sampleBuilding }

/-- The system that holds the planet 1, its building 2 and the planet 3. -/
def sampleSystem : System Int :=
  { FindObjects := [samplePlanet, sampleBuilding, busyPlanet] }

/-- A browse window over `sampleSystem` for a resource type and an empire, before
`Initialize`, with a stale row and the row height 18. -/
def sampleSummary (resource_type : ResourceType) (empire_id : Int) :
    SystemResourceSummaryBrowseWnd Int :=
  { m_resource_type := resource_type,
    m_system := some sampleSystem,
    m_empire_id := empire_id,
    m_allocation := 99,
    m_allocation_labels_and_amounts :=
      [{ top := 0, label := .string "stale", value := .DoubleToString 99 }],
    row_height := 18 }

/-! ## Theorems -/

section parser_theorems

variable {Dbl : Type}

theorem PartMap.insert_of_some (m : PartMap Dbl) (key : String) (value old : PartType Dbl)
    (h : m key = some old) : m.insert key value = m := by
  simp [PartMap.insert, h]

theorem PartMap.insert_of_none (m : PartMap Dbl) (key : String) (value : PartType Dbl)
    (h : m key = none) :
    m.insert key value = fun k => if k = key then some value else m k := by
  simp [PartMap.insert, h]

theorem PartMap.insert_self_of_none (m : PartMap Dbl) (key : String) (value : PartType Dbl)
    (h : m key = none) : m.insert key value key = some value := by
  simp [PartMap.insert_of_none m key value h]

/-- An insertion never removes or changes an element that is already there. -/
theorem PartMap.insert_keeps (m : PartMap Dbl) (key : String) (value : PartType Dbl)
    (k : String) (v : PartType Dbl) (h : m k = some v) : m.insert key value k = some v := by
  cases hk : m key with
  | some old => rw [PartMap.insert_of_some m key value old hk]; exact h
  | none =>
    rw [PartMap.insert_of_none m key value hk]
    have hne : k ≠ key := by
      intro heq
      rw [heq, hk] at h
      cases h
    simp [hne, h]

theorem is_unique_eq_false (m : PartMap Dbl) (key : String) (h : (m key).isSome = true) :
    is_unique m key = false := by
  cases hk : m key with
  | some old => simp [is_unique, PartMap.count, hk]
  | none => simp [hk] at h

theorem is_unique_eq_true (m : PartMap Dbl) (key : String) (h : m key = none) :
    is_unique m key = true := by
  simp [is_unique, PartMap.count, h]

theorem is_unique_true_iff (m : PartMap Dbl) (key : String) :
    is_unique m key = true ↔ m key = none := by
  cases hk : m key with
  | some old => simp [is_unique, PartMap.count, hk]
  | none => simp [is_unique, PartMap.count, hk]

/-- C1. A Part definition whose header parses to a name that is already a key of the
collection is rejected by the uniqueness check: `is_unique` answers false, the rule `part_type`
throws its expectation failure, and the collection after the rule is the collection before it.
The insertion itself would not change it either: `insert_parttype` with a name that is already
a key returns the collection unchanged. -/
theorem part_type_duplicate_name_rejected [Zero Dbl] [One Dbl] (G : Grammars Dbl)
    (part_types : PartMap Dbl) (i1 i2 : List Token) (a : MoreCommonParams)
    (hheader : G.more_common i1 = .ok a i2)
    (hkey : (part_types a.name).isSome = true) :
    is_unique part_types a.name = false ∧
    rules.part_type G part_types (Token.Part_ :: i1) = (.expectation_failure, part_types) ∧
    rules.start G part_types (Token.Part_ :: i1) = (.fail, part_types) ∧
    ∀ (c : ShipPartClass) (d h : Dbl) (e : CommonParams) (f : List ShipSlotType) (b : String)
      (g : Bool), insert_parttype part_types c d h e a f b g = part_types := by
  have hu := is_unique_eq_false part_types a.name hkey
  have hp : rules.part_type G part_types (Token.Part_ :: i1)
      = (.expectation_failure, part_types) := by
    simp [rules.part_type, hheader, expect, hu]
  refine ⟨hu, hp, ?_, ?_⟩
  · simp [rules.start, hp, on_error_fail]
  · intro c d h e f b g
    cases hk : part_types a.name with
    | some old =>
      exact PartMap.insert_of_some part_types a.name _ old hk
    | none => simp [hk] at hkey

/-- Witness of C1: the collection holding `Laser` and a second definition named `Laser`. -/
theorem part_type_duplicate_name_rejected_witness :
    is_unique (PartMap.empty.insert "Laser" laserPart) "Laser" = false ∧
    rules.part_type sampleGrammars (PartMap.empty.insert "Laser" laserPart) laserAgainTokens
      = (.expectation_failure, PartMap.empty.insert "Laser" laserPart) ∧
    rules.start sampleGrammars (PartMap.empty.insert "Laser" laserPart) laserAgainTokens
      = (.fail, PartMap.empty.insert "Laser" laserPart) ∧
    ∀ (c : ShipPartClass) (d h : Int) (e : CommonParams) (f : List ShipSlotType) (b : String)
      (g : Bool),
      insert_parttype (PartMap.empty.insert "Laser" laserPart) c d h e
        { name := "Laser", description := "OTHER_DESC", exclusions := [] } f b g
        = PartMap.empty.insert "Laser" laserPart :=
  part_type_duplicate_name_rejected sampleGrammars (PartMap.empty.insert "Laser" laserPart)
    (laserAgainTokens.tail) (laserAgainTokens.drop 7)
    { name := "Laser", description := "OTHER_DESC", exclusions := [] } (by rfl) (by decide)

/-- What `part_type` does to the collection: nothing when it does not match, and one insertion
of a record under its own, fresh name when it matches. -/
theorem rules.part_type_collection [Zero Dbl] [One Dbl] (G : Grammars Dbl) (m : PartMap Dbl)
    (i : List Token) :
    ((rules.part_type G m i).2 = m ∧ ∀ rest, (rules.part_type G m i).1 ≠ .ok () rest) ∨
    ∃ (p : PartType Dbl) (rest : List Token), m p.Name = none ∧
      rules.part_type G m i = (.ok () rest, m.insert p.Name p) := by
  unfold rules.part_type
  split
  · split
    · rename_i a i2 _
      split
      · rename_i hu
        split
        · rename_i c d h e f b g rest _
          right
          refine ⟨PartType.mk c d h e a f b g, rest, ?_, rfl⟩
          exact (is_unique_true_iff m a.name).1 hu
        · left; simp
        · left; simp
        · left; simp
      · left; simp
    · left; simp
    · left; simp
    · left; simp
  · left; simp

theorem keyedByName_empty : KeyedByName (PartMap.empty : PartMap Dbl) := by
  intro k v h
  simp [PartMap.empty] at h

theorem keyedByName_insert (m : PartMap Dbl) (hm : KeyedByName m) (p : PartType Dbl) :
    KeyedByName (m.insert p.Name p) := by
  intro k v h
  cases hk : m p.Name with
  | some old =>
    rw [PartMap.insert_of_some m p.Name p old hk] at h
    exact hm k v h
  | none =>
    rw [PartMap.insert_of_none m p.Name p hk] at h
    by_cases hkk : k = p.Name
    · simp [hkk] at h
      rw [← h, hkk]
    · simp [hkk] at h
      exact hm k v h

theorem keyedByName_namesDistinct (m : PartMap Dbl) (hm : KeyedByName m) : NamesDistinct m := by
  intro k1 k2 v1 v2 h1 h2 hn
  rw [← hm k1 v1 h1, ← hm k2 v2 h2, hn]

theorem keyedByName_insert_calls (calls : List (PartType Dbl)) :
    KeyedByName (insert_calls calls) := by
  unfold insert_calls
  suffices h : ∀ (m : PartMap Dbl), KeyedByName m →
      KeyedByName (calls.foldl
        (fun part_types p =>
          insert_parttype part_types p.part_class p.capacity p.stat2 p.common_params
            p.more_common_params p.mountable_slot_types p.icon p.add_standard_capacity_effect)
        m) from h _ keyedByName_empty
  induction calls with
  | nil => intro m hm; exact hm
  | cons p ps ih =>
    intro m hm
    rw [List.foldl_cons]
    apply ih
    exact keyedByName_insert m hm p

/-- Every property of the collection that insertions of a record under its own name keep is
kept by the rule `part_type`. -/
theorem rules.part_type_preserves [Zero Dbl] [One Dbl] (P : PartMap Dbl → Prop)
    (hP : ∀ (m : PartMap Dbl) (p : PartType Dbl), P m → P (m.insert p.Name p))
    (G : Grammars Dbl) (m : PartMap Dbl) (hm : P m) (i : List Token) :
    P (rules.part_type G m i).2 := by
  rcases rules.part_type_collection G m i with ⟨h, _⟩ | ⟨p, rest, _, h⟩
  · rw [h]; exact hm
  · rw [h]; exact hP m p hm

theorem rules.start_more_preserves [Zero Dbl] [One Dbl] (P : PartMap Dbl → Prop)
    (hP : ∀ (m : PartMap Dbl) (p : PartType Dbl), P m → P (m.insert p.Name p))
    (G : Grammars Dbl) (fuel : Nat) :
    ∀ (m : PartMap Dbl), P m → ∀ (i : List Token), P (rules.start_more G fuel m i).2 := by
  induction fuel with
  | zero => intro m hm i; simpa [rules.start_more] using hm
  | succ n ih =>
    intro m hm i
    have hp := rules.part_type_preserves P hP G m hm i
    unfold rules.start_more
    split
    · rename_i rest m1 heq
      rw [heq] at hp
      exact ih m1 hp rest
    · rename_i m1 heq
      rw [heq] at hp; exact hp
    · rename_i m1 heq
      rw [heq] at hp; exact hp
    · rename_i m1 heq
      rw [heq] at hp; exact hp

theorem rules.start_preserves [Zero Dbl] [One Dbl] (P : PartMap Dbl → Prop)
    (hP : ∀ (m : PartMap Dbl) (p : PartType Dbl), P m → P (m.insert p.Name p))
    (G : Grammars Dbl) (m : PartMap Dbl) (hm : P m) (i : List Token) :
    P (rules.start G m i).2 := by
  have hp := rules.part_type_preserves P hP G m hm i
  unfold rules.start
  split
  · rename_i rest m1 heq
    rw [heq] at hp
    exact rules.start_more_preserves P hP G _ m1 hp rest
  · rename_i o m1 _ heq
    rw [heq] at hp; exact hp

theorem parse_file_preserves [Zero Dbl] [One Dbl] (P : PartMap Dbl → Prop)
    (hP : ∀ (m : PartMap Dbl) (p : PartType Dbl), P m → P (m.insert p.Name p))
    (G : Grammars Dbl) (m : PartMap Dbl) (hm : P m) (file : List Token) :
    P (parse_file G file m).2 := by
  have hp := rules.start_preserves P hP G m hm file
  unfold parse_file
  split
  · rename_i m1 heq
    rw [heq] at hp; exact hp
  · rename_i o m1 _ heq
    rw [heq] at hp; exact hp

theorem parse_files_preserve [Zero Dbl] [One Dbl] (P : PartMap Dbl → Prop)
    (hP : ∀ (m : PartMap Dbl) (p : PartType Dbl), P m → P (m.insert p.Name p))
    (G : Grammars Dbl) (scripts : List (List Token)) :
    ∀ (m : PartMap Dbl), P m →
      P (scripts.foldl (fun parts file => (parse_file G file parts).2) m) := by
  induction scripts with
  | nil => intro m hm; exact hm
  | cons f fs ih =>
    intro m hm
    rw [List.foldl_cons]
    exact ih _ (parse_file_preserves P hP G m hm f)

theorem keyedByName_ship_parts [Zero Dbl] [One Dbl] (G : Grammars Dbl)
    (scripts : List (List Token)) : KeyedByName (ship_parts G scripts) :=
  parse_files_preserve KeyedByName (fun m p hm => keyedByName_insert m hm p) G scripts _
    keyedByName_empty

/-- C2. The part collection is keyed by name. After any sequence of `insert_parttype` calls
starting from an empty collection every key maps to a record whose `Name()` is that key and no
two entries carry the same name; the same holds of the collection `parse::ship_parts` returns,
for every list of script files. -/
theorem part_collection_keyed_by_name [Zero Dbl] [One Dbl] :
    (∀ (calls : List (PartType Dbl)),
      KeyedByName (insert_calls calls) ∧ NamesDistinct (insert_calls calls)) ∧
    (∀ (G : Grammars Dbl) (scripts : List (List Token)),
      KeyedByName (ship_parts G scripts) ∧ NamesDistinct (ship_parts G scripts)) :=
  ⟨fun calls => ⟨keyedByName_insert_calls calls,
      keyedByName_namesDistinct _ (keyedByName_insert_calls calls)⟩,
   fun G scripts => ⟨keyedByName_ship_parts G scripts,
      keyedByName_namesDistinct _ (keyedByName_ship_parts G scripts)⟩⟩

/-- When `part_type` does not match, the collection is the one it was given. -/
theorem rules.part_type_eq_of_fail [Zero Dbl] [One Dbl] (G : Grammars Dbl) (m : PartMap Dbl)
    (i : List Token) (o : Outcome Unit) (ho : (rules.part_type G m i).1 = o)
    (hno : ∀ rest, o ≠ .ok () rest) : rules.part_type G m i = (o, m) := by
  rcases rules.part_type_collection G m i with ⟨h, _⟩ | ⟨p, rest, _, h⟩
  · exact Prod.ext ho h
  · rw [h] at ho
    exact absurd ho.symm (hno rest)

/-- A run of definitions keeps every element the collection had before it. -/
theorem Definitions.keeps [Zero Dbl] [One Dbl] {G : Grammars Dbl} {m m1 : PartMap Dbl}
    {i rest : List Token} {ps : List (PartType Dbl)} (h : Definitions G m i ps m1 rest)
    (k : String) (v : PartType Dbl) (hk : m k = some v) : m1 k = some v := by
  induction h with
  | nil m i => exact hk
  | cons _ _ _ _ ih => exact ih (PartMap.insert_keeps _ _ _ k v hk)

/-- The collection after a run of definitions holds the record of each of them. -/
theorem Definitions.present [Zero Dbl] [One Dbl] {G : Grammars Dbl} {m m1 : PartMap Dbl}
    {i rest : List Token} {ps : List (PartType Dbl)} (h : Definitions G m i ps m1 rest) :
    ∀ p ∈ ps, m1 p.Name = some p := by
  induction h with
  | nil m i => intro p hp; cases hp
  | cons hpart hfresh _ htail ih =>
    intro q hq
    rcases List.mem_cons.1 hq with rfl | hq
    · exact Definitions.keeps htail _ _ (PartMap.insert_self_of_none _ _ _ hfresh)
    · exact ih q hq

/-- The repetition of `start` on a run of definitions that ends where `part_type` does not
match: the definitions of the run are consumed and inserted, and the repetition ends with the
outcome of the last, unmatched call of `part_type`. -/
theorem rules.start_more_run [Zero Dbl] [One Dbl] {G : Grammars Dbl} {m m1 : PartMap Dbl}
    {i rest : List Token} {ps : List (PartType Dbl)} (h : Definitions G m i ps m1 rest)
    (hviol : (rules.part_type G m1 rest).1 = .fail ∨
      (rules.part_type G m1 rest).1 = .expectation_failure) :
    ∀ fuel, i.length < fuel →
      rules.start_more G fuel m i =
        (if (rules.part_type G m1 rest).1 = .fail then .ok () rest else .expectation_failure,
          m1) := by
  induction h with
  | nil m i =>
    intro fuel hfuel
    obtain ⟨n, rfl⟩ : ∃ n, fuel = n + 1 := ⟨fuel - 1, by omega⟩
    rcases hviol with hv | hv
    · have := rules.part_type_eq_of_fail G m i _ hv (by intro r; simp)
      simp [rules.start_more, this]
    · have := rules.part_type_eq_of_fail G m i _ hv (by intro r; simp)
      simp [rules.start_more, this]
  | cons hpart _ hlen _ ih =>
    intro fuel hfuel
    obtain ⟨n, rfl⟩ : ∃ n, fuel = n + 1 := ⟨fuel - 1, by omega⟩
    have := ih hviol n (by omega)
    simp [rules.start_more, hpart, this]

/-- `parse::ship_parts` after one more script. -/
theorem ship_parts_append [Zero Dbl] [One Dbl] (G : Grammars Dbl)
    (scripts : List (List Token)) (file : List Token) (more : List (List Token)) :
    ship_parts G (scripts ++ file :: more)
      = more.foldl (fun parts f => (parse_file G f parts).2)
          (parse_file G file (ship_parts G scripts)).2 := by
  simp [ship_parts, List.foldl_append]

/-- C3, counterexample. The script `brokenScript` holds the well-formed definition of `Laser`
followed by a definition that violates the grammar. Its parse reports failure, and the record
of `Laser` is in the collection `parse::ship_parts` returns. -/
theorem broken_script_keeps_earlier_part :
    rules.part_type sampleGrammars PartMap.empty brokenScript
      = (.ok () brokenTokens, PartMap.empty.insert "Laser" laserPart) ∧
    (rules.part_type sampleGrammars (PartMap.empty.insert "Laser" laserPart) brokenTokens).1
      = .expectation_failure ∧
    (parse_file sampleGrammars brokenScript PartMap.empty).1 = false ∧
    ship_parts sampleGrammars [brokenScript] "Laser" = some laserPart ∧
    ¬ ((parse_file sampleGrammars brokenScript PartMap.empty).1 = false →
        ship_parts sampleGrammars [brokenScript] "Laser" = none) := by
  refine ⟨by rfl, by decide, by decide, by decide, ?_⟩
  intro h
  have h1 : ship_parts sampleGrammars [brokenScript] "Laser" = some laserPart := by decide
  rw [h (by decide)] at h1
  cases h1

/-- C3, amended. A script that consists of a run of well-formed definitions followed by a
grammar violation (input is left and `part_type` does not match it) fails as a whole:
`parse_file` reports failure. The definitions after the violation are not read, and the
collection after the call is the one reached at the violation: it holds the record of every
definition that precedes the violation and every element it held before the call. Those
records are in the collection `parse::ship_parts` returns, whatever scripts follow. -/
theorem parse_file_violation_keeps_earlier_parts [Zero Dbl] [One Dbl] (G : Grammars Dbl)
    (m m1 : PartMap Dbl) (file rest : List Token) (ps : List (PartType Dbl))
    (hdefs : Definitions G m file ps m1 rest)
    (hrest : rest ≠ [])
    (hviol : (rules.part_type G m1 rest).1 = .fail ∨
      (rules.part_type G m1 rest).1 = .expectation_failure) :
    parse_file G file m = (false, m1) ∧
    (∀ p ∈ ps, m1 p.Name = some p) ∧
    (∀ (k : String) (v : PartType Dbl), m k = some v → m1 k = some v) ∧
    ∀ (scripts more : List (List Token)), ship_parts G scripts = m →
      ∀ p ∈ ps, ship_parts G (scripts ++ file :: more) p.Name = some p := by
  have hfile : parse_file G file m = (false, m1) := by
    cases hdefs with
    | nil =>
      rcases hviol with hv | hv
      · have := rules.part_type_eq_of_fail G m file _ hv (by intro r; simp)
        simp [parse_file, rules.start, this, on_error_fail]
      · have := rules.part_type_eq_of_fail G m file _ hv (by intro r; simp)
        simp [parse_file, rules.start, this, on_error_fail]
    | cons hpart hfresh hlen htail =>
      have hrun := rules.start_more_run htail hviol _ (Nat.lt_succ_self _)
      rcases hviol with hv | hv
      · cases rest with
        | nil => exact absurd rfl hrest
        | cons t ts => simp [parse_file, rules.start, hpart, hrun, hv, on_error_fail]
      · simp [parse_file, rules.start, hpart, hrun, hv, on_error_fail]
  refine ⟨hfile, Definitions.present hdefs, Definitions.keeps hdefs, ?_⟩
  intro scripts more hm p hp
  rw [ship_parts_append, hm, hfile]
  exact parse_files_preserve (fun parts => parts p.Name = some p)
    (fun parts q hq => PartMap.insert_keeps parts _ _ _ _ hq) G more m1
    (Definitions.present hdefs p hp)

/-- Witness of the amended C3: the script `brokenScript` read into the empty collection. -/
theorem parse_file_violation_keeps_earlier_parts_witness :
    parse_file sampleGrammars brokenScript PartMap.empty
      = (false, PartMap.empty.insert "Laser" laserPart) ∧
    (∀ p ∈ [laserPart], (PartMap.empty.insert "Laser" laserPart) p.Name = some p) ∧
    (∀ (k : String) (v : PartType Int), (PartMap.empty : PartMap Int) k = some v →
      (PartMap.empty.insert "Laser" laserPart) k = some v) ∧
    ∀ (scripts more : List (List Token)), ship_parts sampleGrammars scripts = PartMap.empty →
      ∀ p ∈ [laserPart],
        ship_parts sampleGrammars (scripts ++ brokenScript :: more) p.Name = some p :=
  parse_file_violation_keeps_earlier_parts sampleGrammars PartMap.empty
    (PartMap.empty.insert "Laser" laserPart) brokenScript brokenTokens [laserPart]
    (Definitions.cons (p := laserPart) (by rfl) (by rfl) (by decide)
      (Definitions.nil _ _))
    (by decide) (Or.inr (by decide))

theorem rules.capacity_of_field [Zero Dbl] {G : Grammars Dbl} {i i1 : List Token} {d : Dbl}
    (h : CapacityField G i d i1) : rules.capacity G i = .ok d i1 := by
  cases h with
  | capacity hl hd => simp [rules.capacity, hl, hd, Outcome.bind, expect]
  | damage hc hl hd => simp [rules.capacity, hc, hl, hd, Outcome.bind, expect]
  | absent hc hl => simp [rules.capacity, hc, hl, Outcome.bind]

theorem rules.stat2_of_field [One Dbl] {G : Grammars Dbl} {i i1 : List Token} {h : Dbl}
    (hf : Stat2Field G i h i1) : rules.stat2 G i = .ok h i1 := by
  cases hf with
  | damage hl hd => simp [rules.stat2, hl, hd, Outcome.bind, expect]
  | shots hc hl hd => simp [rules.stat2, hc, hl, hd, Outcome.bind, expect]
  | absent hc hl => simp [rules.stat2, hc, hl, Outcome.bind]

/-- The repetition appends a run of slot types to the vector in source order. -/
theorem rules.slots_more_run {G : Grammars Dbl} {i i1 : List Token} {vs : List ShipSlotType}
    (h : SlotRun G i vs i1) :
    ∀ (fuel : Nat) (r1 : List ShipSlotType), i.length < fuel →
      rules.slots_more G fuel r1 i = .ok (r1 ++ vs) i1 := by
  induction h with
  | last hv hlen hend =>
    intro fuel r1 hfuel
    obtain ⟨n, rfl⟩ : ∃ n, fuel = n + 1 := ⟨fuel - 1, by omega⟩
    obtain ⟨k, rfl⟩ : ∃ k, n = k + 1 := ⟨n - 1, by omega⟩
    simp [rules.slots_more, hv, hend]
  | more hv hlen _ ih =>
    intro fuel r1 hfuel
    obtain ⟨n, rfl⟩ : ∃ n, fuel = n + 1 := ⟨fuel - 1, by omega⟩
    simp [rules.slots_more, hv, ih n _ (by omega)]

theorem rules.slots_plus_run {G : Grammars Dbl} {i i1 : List Token} {vs : List ShipSlotType}
    (h : SlotRun G i vs i1) (r1 : List ShipSlotType) :
    rules.slots_plus G r1 i = .ok (r1 ++ vs) i1 := by
  cases h with
  | last hv hlen hend =>
    simp [rules.slots_plus, hv, Outcome.bind, rules.slots_more, hend]
  | more hv hlen htail =>
    simp [rules.slots_plus, hv, Outcome.bind,
      rules.slots_more_run htail _ _ (Nat.lt_succ_self _)]

theorem rules.slots_of_field {G : Grammars Dbl} {i i1 : List Token} {f : List ShipSlotType}
    (h : SlotsField G i f i1) : rules.slots G [] i = .ok f i1 := by
  cases h with
  | absent hl => simp [rules.slots, hl, Outcome.bind]
  | list hl hrun =>
    simp [rules.slots, hl, Outcome.bind, rules.slots_alternative, rules.slots_plus_run hrun,
      expect]
  | single hl hhead hv =>
    rename_i i2 v
    have halt : rules.slots_alternative G [] i2 = .ok [v] i1 := by
      unfold rules.slots_alternative
      split
      · simp at hhead
      · simp [hv, Outcome.bind]
    simp [rules.slots, hl, Outcome.bind, halt, expect]

theorem rules.no_default_capacity_effect_of_field {i i1 : List Token} {g : Bool}
    (h : CapacityEffectField i g i1) : rules.no_default_capacity_effect i = .ok g i1 := by
  cases h with
  | flag => rfl
  | absent hhead =>
    unfold rules.no_default_capacity_effect
    split
    · simp at hhead
    · rfl

/-- C4. For every well-formed Part definition with a fresh name, the rule `part_type` matches
the definition and the record added to the collection under that name is built from exactly the
values read, each in its own constructor position: the class after the `Class` label as part
class, the value after the first `Capacity`/`Damage` label (or `0.0`) as capacity, the value
after the secondary `Damage`/`Shots` label (or `1.0`) as second stat, the common and the
more-common parameters, the mountable slot types in source order, the string after the
`Icon` label as icon, and as eighth argument `false` when the definition carries the token
`NoDefaultCapacityEffect` and `true` when it does not. Every other key of the collection is
left as it was. -/
theorem part_type_builds_record_from_parsed_values [Zero Dbl] [One Dbl] (G : Grammars Dbl)
    (part_types : PartMap Dbl) (input rest : List Token) (p : PartType Dbl)
    (hwf : WellFormedPart G input p rest)
    (hfresh : part_types p.Name = none) :
    rules.part_type G part_types input = (.ok () rest, part_types.insert p.Name p) ∧
    (rules.part_type G part_types input).2 p.Name = some p ∧
    ∀ k, k ≠ p.Name → (rules.part_type G part_types input).2 k = part_types k := by
  have hrule : rules.part_type G part_types input
      = (.ok () rest, part_types.insert p.Name p) := by
    cases hwf with
    | mk hmc hclass hc hcap hstat hflag hslots hcommon hicon =>
      have hu := is_unique_eq_true part_types _ hfresh
      simp only [PartType.Name] at hu
      simp [rules.part_type, hmc, hu, hclass, hc, rules.capacity_of_field hcap,
        rules.stat2_of_field hstat, rules.no_default_capacity_effect_of_field hflag,
        rules.slots_of_field hslots, hcommon, hicon,
        Outcome.bind, expect, insert_parttype]
  refine ⟨hrule, ?_, ?_⟩
  · rw [hrule]
    exact PartMap.insert_self_of_none _ _ _ hfresh
  · intro k hk
    rw [hrule]
    simp [PartMap.insert_of_none _ _ _ hfresh, hk]

/-- Witness of C4: the definition `laserTokens`, which has no flag token, read into the empty
collection, and the definition `plateTokens`, which carries `NoDefaultCapacityEffect`, read
into the collection that holds the laser: the record of the plate has the flag `false`. -/
theorem part_type_builds_record_from_parsed_values_witness :
    (rules.part_type sampleGrammars PartMap.empty laserTokens
        = (.ok () [], PartMap.empty.insert laserPart.Name laserPart) ∧
      (rules.part_type sampleGrammars PartMap.empty laserTokens).2 laserPart.Name
        = some laserPart ∧
      ∀ k, k ≠ laserPart.Name →
        (rules.part_type sampleGrammars PartMap.empty laserTokens).2 k
          = (PartMap.empty : PartMap Int) k) ∧
    (rules.part_type sampleGrammars (PartMap.empty.insert "Laser" laserPart) plateTokens
        = (.ok () [], (PartMap.empty.insert "Laser" laserPart).insert platePart.Name platePart) ∧
      (rules.part_type sampleGrammars (PartMap.empty.insert "Laser" laserPart)
          plateTokens).2 platePart.Name
        = some platePart ∧
      platePart.add_standard_capacity_effect = false) :=
  ⟨part_type_builds_record_from_parsed_values sampleGrammars PartMap.empty laserTokens []
    laserPart
    (@WellFormedPart.mk Int _ _ sampleGrammars _ (laserTokens.drop 7) (laserTokens.drop 9)
      (laserTokens.drop 10) (laserTokens.drop 13) (laserTokens.drop 16) (laserTokens.drop 16)
      (laserTokens.drop 22) (laserTokens.drop 25) _ _ _ _ _ _ _ _ _
      (by rfl) (by rfl) (by rfl)
      (@CapacityField.damage Int _ sampleGrammars _ (laserTokens.drop 12) _ _
        (by rfl) (by rfl) (by rfl))
      (@Stat2Field.shots Int _ sampleGrammars _ (laserTokens.drop 15) _ _
        (by rfl) (by rfl) (by rfl))
      (CapacityEffectField.absent (by decide))
      (@SlotsField.list Int sampleGrammars _ (laserTokens.drop 19) _ _
        (by rfl)
        (@SlotRun.more Int sampleGrammars _ (laserTokens.drop 20) _ _ _ (by rfl) (by decide)
          (SlotRun.last (by rfl) (by decide) (by rfl))))
      (by rfl) (by rfl))
    (by rfl),
   ⟨(part_type_builds_record_from_parsed_values sampleGrammars
      (PartMap.empty.insert "Laser" laserPart) plateTokens [] platePart
      (@WellFormedPart.mk Int _ _ sampleGrammars _ (plateTokens.drop 7) (plateTokens.drop 9)
        (plateTokens.drop 10) (plateTokens.drop 13) (plateTokens.drop 13)
        (plateTokens.drop 14) (plateTokens.drop 17) (plateTokens.drop 20) _ _ _ _ _ _ _ _ _
        (by rfl) (by rfl) (by rfl)
        (@CapacityField.capacity Int _ sampleGrammars _ (plateTokens.drop 12) _ _
          (by rfl) (by rfl))
        (Stat2Field.absent (by rfl) (by rfl))
        CapacityEffectField.flag
        (@SlotsField.single Int sampleGrammars _ (plateTokens.drop 16) _ _
          (by rfl) (by decide) (by rfl))
        (by rfl) (by rfl))
      (by rfl)).1,
    (part_type_builds_record_from_parsed_values sampleGrammars
      (PartMap.empty.insert "Laser" laserPart) plateTokens [] platePart
      (@WellFormedPart.mk Int _ _ sampleGrammars _ (plateTokens.drop 7) (plateTokens.drop 9)
        (plateTokens.drop 10) (plateTokens.drop 13) (plateTokens.drop 13)
        (plateTokens.drop 14) (plateTokens.drop 17) (plateTokens.drop 20) _ _ _ _ _ _ _ _ _
        (by rfl) (by rfl) (by rfl)
        (@CapacityField.capacity Int _ sampleGrammars _ (plateTokens.drop 12) _ _
          (by rfl) (by rfl))
        (Stat2Field.absent (by rfl) (by rfl))
        CapacityEffectField.flag
        (@SlotsField.single Int sampleGrammars _ (plateTokens.drop 16) _ _
          (by rfl) (by decide) (by rfl))
        (by rfl) (by rfl))
      (by rfl)).2.1,
    rfl⟩⟩

/-! ### The repetition bound is never reached -/

theorem Outcome.within_bind {α β : Type} (o : Outcome α) (f : α → List Token → Outcome β)
    (i : List Token) (ho : o.Within i)
    (hf : ∀ a r, r.length ≤ i.length → (f a r).Within r) : (o.bind f).Within i := by
  cases o with
  | ok a r =>
    have hr := ho.2 a r rfl
    have := hf a r hr
    exact ⟨this.1, fun b r' h => le_trans (this.2 b r' h) hr⟩
  | fail => exact ⟨by simp [Outcome.bind], by simp [Outcome.bind]⟩
  | expectation_failure => exact ⟨by simp [Outcome.bind], by simp [Outcome.bind]⟩
  | out_of_fuel => exact absurd rfl ho.1

theorem Outcome.within_expect {α : Type} (o : Outcome α) (i : List Token) (ho : o.Within i) :
    (expect o).Within i := by
  cases o with
  | ok a r => exact ho
  | fail => exact ⟨by simp [expect], by simp [expect]⟩
  | expectation_failure => exact ho
  | out_of_fuel => exact absurd rfl ho.1

theorem Outcome.within_ok {α : Type} (a : α) (r i : List Token) (h : r.length ≤ i.length) :
    (Outcome.ok a r).Within i :=
  ⟨by simp, by
    intro b r' hb
    cases hb
    exact h⟩

theorem Outcome.within_of_le {α : Type} (o : Outcome α) (i j : List Token) (ho : o.Within i)
    (h : i.length ≤ j.length) : o.Within j :=
  ⟨ho.1, fun a r hr => le_trans (ho.2 a r hr) h⟩

/-- An alternative `a | b`, written as a match on the outcome of `a` that falls back to `b`
when `a` does not match. -/
theorem Outcome.within_or_else {α : Type} (o fallback : Outcome α) (i : List Token)
    (ho : o.Within i) (hf : fallback.Within i) :
    (match o with
      | .fail => fallback
      | o => o).Within i := by
  cases o with
  | ok a r => exact ho
  | fail => exact hf
  | expectation_failure => exact ho
  | out_of_fuel => exact absurd rfl ho.1

theorem rules.labelled_double_within {G : Grammars Dbl} (hG : G.Productive) (l : LabelToken)
    (i : List Token) :
    ((G.label l i).bind fun _ i1 => expect (G.double_rule i1)).Within i :=
  Outcome.within_bind _ _ _ (hG.label l i) fun _ r _ =>
    Outcome.within_expect _ _ (hG.double_rule r)

theorem rules.capacity_within [Zero Dbl] {G : Grammars Dbl} (hG : G.Productive)
    (i : List Token) : (rules.capacity G i).Within i := by
  unfold rules.capacity
  exact Outcome.within_or_else _ _ _ (rules.labelled_double_within hG _ i)
    (Outcome.within_or_else _ _ _ (rules.labelled_double_within hG _ i)
      (Outcome.within_ok _ _ _ le_rfl))

theorem rules.stat2_within [One Dbl] {G : Grammars Dbl} (hG : G.Productive)
    (i : List Token) : (rules.stat2 G i).Within i := by
  unfold rules.stat2
  exact Outcome.within_or_else _ _ _ (rules.labelled_double_within hG _ i)
    (Outcome.within_or_else _ _ _ (rules.labelled_double_within hG _ i)
      (Outcome.within_ok _ _ _ le_rfl))

theorem rules.no_default_capacity_effect_within (i : List Token) :
    (rules.no_default_capacity_effect i).Within i := by
  unfold rules.no_default_capacity_effect
  split
  · exact Outcome.within_ok _ _ _ (by simp)
  · exact Outcome.within_ok _ _ _ le_rfl

theorem rules.slots_more_within {G : Grammars Dbl} (hG : G.Productive) (fuel : Nat) :
    ∀ (r1 : List ShipSlotType) (i : List Token), i.length < fuel →
      (rules.slots_more G fuel r1 i).Within i := by
  induction fuel with
  | zero => intro r1 i h; omega
  | succ n ih =>
    intro r1 i h
    unfold rules.slots_more
    cases hv : G.ship_slot_type_enum i with
    | ok v rest =>
      have hlt := hG.ship_slot_type_enum_consumes i v rest hv
      exact Outcome.within_of_le _ _ _ (ih _ rest (by omega)) (by omega)
    | fail => exact Outcome.within_ok _ _ _ le_rfl
    | expectation_failure => exact ⟨by simp, by simp⟩
    | out_of_fuel => exact absurd hv (hG.ship_slot_type_enum i).1

theorem rules.slots_plus_within {G : Grammars Dbl} (hG : G.Productive)
    (r1 : List ShipSlotType) (i : List Token) : (rules.slots_plus G r1 i).Within i := by
  unfold rules.slots_plus
  exact Outcome.within_bind _ _ _ (hG.ship_slot_type_enum i) fun v r _ =>
    rules.slots_more_within hG _ _ r (Nat.lt_succ_self _)

theorem rules.slots_alternative_within {G : Grammars Dbl} (hG : G.Productive)
    (r1 : List ShipSlotType) (i : List Token) : (rules.slots_alternative G r1 i).Within i := by
  unfold rules.slots_alternative
  split
  · rename_i i1
    refine Outcome.within_of_le _ i1 _ ?_ (by simp)
    refine Outcome.within_bind _ _ _
      (Outcome.within_expect _ _ (rules.slots_plus_within hG r1 i1)) ?_
    intro r i2 _
    split
    · exact Outcome.within_ok _ _ _ (by simp)
    · exact ⟨by simp, by simp⟩
  · exact Outcome.within_bind _ _ _ (hG.ship_slot_type_enum i) fun v r _ =>
      Outcome.within_ok _ _ _ le_rfl

theorem rules.slots_within {G : Grammars Dbl} (hG : G.Productive)
    (r1 : List ShipSlotType) (i : List Token) : (rules.slots G r1 i).Within i := by
  unfold rules.slots
  have hb : ((G.label .MountableSlotTypes_token i).bind fun _ i1 =>
      expect (rules.slots_alternative G r1 i1)).Within i :=
    Outcome.within_bind _ _ _ (hG.label _ i) fun _ r _ =>
      Outcome.within_expect _ _ (rules.slots_alternative_within hG r1 r)
  generalize ((G.label .MountableSlotTypes_token i).bind fun _ i1 =>
      expect (rules.slots_alternative G r1 i1)) = o at hb ⊢
  cases o with
  | ok a r => exact hb
  | fail => exact Outcome.within_ok _ _ _ le_rfl
  | expectation_failure => exact hb
  | out_of_fuel => exact hb

/-- With productive grammars the rule `part_type` does not hit the repetition bound, and when
it matches it has consumed input. -/
theorem rules.part_type_consumes [Zero Dbl] [One Dbl] {G : Grammars Dbl} (hG : G.Productive)
    (m : PartMap Dbl) (i : List Token) :
    (rules.part_type G m i).1 ≠ .out_of_fuel ∧
    ∀ rest, (rules.part_type G m i).1 = .ok () rest → rest.length < i.length := by
  unfold rules.part_type
  split
  · rename_i i1
    have hmc := Outcome.within_expect _ _ (hG.more_common i1)
    split
    · rename_i a i2 hmc_eq
      rw [hmc_eq] at hmc
      have hi2 : i2.length ≤ i1.length := hmc.2 a i2 rfl
      split
      · have hchain :
            ((expect (G.label .Class_token i2)).bind fun _ i3 =>
              (expect (G.ship_part_class_enum i3)).bind fun c i4 =>
              (expect (rules.capacity G i4)).bind fun d i5 =>
              (expect (rules.stat2 G i5)).bind fun h i6 =>
              (expect (rules.no_default_capacity_effect i6)).bind fun g i7 =>
              (expect (rules.slots G [] i7)).bind fun f i8 =>
              (expect (G.common i8)).bind fun e i9 =>
              (expect (G.label .Icon_token i9)).bind fun _ i10 =>
                match i10 with
                | Token.string b :: rest =>
                  (Outcome.ok (c, d, h, e, f, b, g) rest :
                    Outcome (ShipPartClass × Dbl × Dbl × CommonParams × List ShipSlotType ×
                      String × Bool))
                | _ => .expectation_failure).Within i2 := by
          refine Outcome.within_bind _ _ _ (Outcome.within_expect _ _ (hG.label _ _)) ?_
          intro _ i3 _
          refine Outcome.within_bind _ _ _
            (Outcome.within_expect _ _ (hG.ship_part_class_enum _)) ?_
          intro c i4 _
          refine Outcome.within_bind _ _ _
            (Outcome.within_expect _ _ (rules.capacity_within hG _)) ?_
          intro d i5 _
          refine Outcome.within_bind _ _ _
            (Outcome.within_expect _ _ (rules.stat2_within hG _)) ?_
          intro h i6 _
          refine Outcome.within_bind _ _ _
            (Outcome.within_expect _ _ (rules.no_default_capacity_effect_within _)) ?_
          intro g i7 _
          refine Outcome.within_bind _ _ _
            (Outcome.within_expect _ _ (rules.slots_within hG _ _)) ?_
          intro f i8 _
          refine Outcome.within_bind _ _ _ (Outcome.within_expect _ _ (hG.common _)) ?_
          intro e i9 _
          refine Outcome.within_bind _ _ _ (Outcome.within_expect _ _ (hG.label _ _)) ?_
          intro _ i10 _
          split
          · exact Outcome.within_ok _ _ _ (by simp)
          · exact ⟨by simp, by simp⟩
        split
        · rename_i c d h e f b g rest heq
          refine ⟨by simp, ?_⟩
          intro rest' hrest'
          simp only [Outcome.ok.injEq, true_and] at hrest'
          subst hrest'
          have := hchain.2 _ _ heq
          simp only [List.length_cons]
          omega
        · exact ⟨by simp, by simp⟩
        · exact ⟨by simp, by simp⟩
        · rename_i heq
          exact absurd heq hchain.1
      · exact ⟨by simp, by simp⟩
    · exact ⟨by simp, by simp⟩
    · exact ⟨by simp, by simp⟩
    · rename_i heq
      exact absurd heq hmc.1
  · exact ⟨by simp, by simp⟩

theorem rules.start_more_terminates [Zero Dbl] [One Dbl] {G : Grammars Dbl}
    (hG : G.Productive) (fuel : Nat) :
    ∀ (m : PartMap Dbl) (i : List Token), i.length < fuel →
      (rules.start_more G fuel m i).1 ≠ .out_of_fuel := by
  induction fuel with
  | zero => intro m i h; omega
  | succ n ih =>
    intro m i h
    have hp := rules.part_type_consumes hG m i
    unfold rules.start_more
    split
    · rename_i rest m1 heq
      have hlt := hp.2 rest (by rw [heq])
      exact ih m1 rest (by omega)
    · simp
    · simp
    · rename_i m1 heq
      exact absurd (by rw [heq]) hp.1

/-- With productive grammars the bound of the model is never reached: the rule `start` ends
with a match or a failure on every input. -/
theorem rules.start_terminates [Zero Dbl] [One Dbl] {G : Grammars Dbl} (hG : G.Productive)
    (m : PartMap Dbl) (i : List Token) : (rules.start G m i).1 ≠ .out_of_fuel := by
  have hp := rules.part_type_consumes hG m i
  unfold rules.start
  split
  · rename_i rest m1 heq
    have := rules.start_more_terminates hG (rest.length + 1) m1 rest (Nat.lt_succ_self _)
    simp only
    intro h
    cases hs : (rules.start_more G (rest.length + 1) m1 rest).1 with
    | ok a r => rw [hs] at h; simp [on_error_fail] at h
    | fail => rw [hs] at h; simp [on_error_fail] at h
    | expectation_failure => rw [hs] at h; simp [on_error_fail] at h
    | out_of_fuel => exact this hs
  · rename_i o m1 hne heq
    simp only
    intro h
    have h1 : (rules.part_type G m i).1 = o := by rw [heq]
    cases o with
    | ok a r => simp [on_error_fail] at h
    | fail => simp [on_error_fail] at h
    | expectation_failure => simp [on_error_fail] at h
    | out_of_fuel => exact hp.1 h1

/-- The sample grammars are productive. -/
theorem sampleGrammars_productive : sampleGrammars.Productive := by
  refine ⟨?_, ?_, ?_, ?_, ?_, ?_, ?_⟩
  · intro l i
    simp only [sampleGrammars]
    split
    · split
      · exact Outcome.within_ok _ _ _ (by simp; omega)
      · exact ⟨by simp, by simp⟩
    · exact ⟨by simp, by simp⟩
  · intro i
    simp only [sampleGrammars]
    split
    · exact Outcome.within_ok _ _ _ (by simp; omega)
    · exact ⟨by simp, by simp⟩
  · intro i
    simp only [sampleGrammars]
    split
    · exact Outcome.within_ok _ _ _ (by simp; omega)
    · exact ⟨by simp, by simp⟩
  · intro i
    simp only [sampleGrammars]
    split
    · exact Outcome.within_ok _ _ _ (by simp)
    · exact Outcome.within_ok _ _ _ (by simp)
    · exact ⟨by simp, by simp⟩
  · intro i
    simp only [sampleGrammars]
    split
    · exact Outcome.within_ok _ _ _ (by simp)
    · exact ⟨by simp, by simp⟩
  · intro i
    simp only [sampleGrammars]
    split
    · exact Outcome.within_ok _ _ _ (by simp)
    · exact Outcome.within_ok _ _ _ (by simp)
    · exact Outcome.within_ok _ _ _ (by simp)
    · exact ⟨by simp, by simp⟩
  · intro i v r h
    simp only [sampleGrammars] at h
    split at h
    · cases h; simp
    · cases h; simp
    · cases h; simp
    · cases h

end parser_theorems

section panel_theorems

variable {Dbl : Type}

/-- C5. The object getters of the panels. `PopulationPanel::GetPopCenter`,
`ResourcePanel::GetResourceCenter`, `MilitaryPanel::GetPlanet` and `SpecialsPanel::GetObject`
throw a runtime error if and only if the stored id resolves to no object of the universe or to
an object of the wrong kind (not a PopCenter, not a ResourceCenter, not a Planet; every object
is of the right kind for `SpecialsPanel`); otherwise they return the object the universe
resolves the id to. -/
theorem object_getters_throw_iff_unresolved_or_wrong_kind (W : World Dbl)
    (pop : PopulationPanel Dbl) (res : ResourcePanel Dbl) (mil : MilitaryPanel Dbl)
    (spc : SpecialsPanel) :
    (((∃ what, pop.GetPopCenter W = .threw (.runtime_error what)) ↔
        (W.GetUniverse.Object pop.m_popcenter_id = none ∨
          ∃ obj, W.GetUniverse.Object pop.m_popcenter_id = some obj ∧
            obj.is_PopCenter = false)) ∧
      ∀ obj, W.GetUniverse.Object pop.m_popcenter_id = some obj → obj.is_PopCenter = true →
        pop.GetPopCenter W = .ok obj) ∧
    (((∃ what, res.GetResourceCenter W = .threw (.runtime_error what)) ↔
        (W.GetUniverse.Object res.m_rescenter_id = none ∨
          ∃ obj, W.GetUniverse.Object res.m_rescenter_id = some obj ∧
            obj.is_ResourceCenter = false)) ∧
      ∀ obj, W.GetUniverse.Object res.m_rescenter_id = some obj →
        obj.is_ResourceCenter = true → res.GetResourceCenter W = .ok obj) ∧
    (((∃ what, mil.GetPlanet W = .threw (.runtime_error what)) ↔
        (W.GetUniverse.Object mil.m_planet_id = none ∨
          ∃ obj, W.GetUniverse.Object mil.m_planet_id = some obj ∧ obj.is_Planet = false)) ∧
      ∀ obj, W.GetUniverse.Object mil.m_planet_id = some obj → obj.is_Planet = true →
        mil.GetPlanet W = .ok obj) ∧
    (((∃ what, spc.GetObject W = .threw (.runtime_error what)) ↔
        W.GetUniverse.Object spc.m_object_id = none) ∧
      ∀ obj, W.GetUniverse.Object spc.m_object_id = some obj → spc.GetObject W = .ok obj) := by
  refine ⟨⟨?_, ?_⟩, ⟨?_, ?_⟩, ⟨?_, ?_⟩, ⟨?_, ?_⟩⟩
  · unfold PopulationPanel.GetPopCenter
    cases h : W.GetUniverse.Object pop.m_popcenter_id with
    | none => simp
    | some obj => cases hk : obj.is_PopCenter <;> simp [hk]
  · intro obj h hk
    simp [PopulationPanel.GetPopCenter, h, hk]
  · unfold ResourcePanel.GetResourceCenter
    cases h : W.GetUniverse.Object res.m_rescenter_id with
    | none => simp
    | some obj => cases hk : obj.is_ResourceCenter <;> simp [hk]
  · intro obj h hk
    simp [ResourcePanel.GetResourceCenter, h, hk]
  · unfold MilitaryPanel.GetPlanet Universe.Object_Planet
    cases h : W.GetUniverse.Object mil.m_planet_id with
    | none => simp
    | some obj => cases hk : obj.is_Planet <;> simp [hk]
  · intro obj h hk
    simp [MilitaryPanel.GetPlanet, Universe.Object_Planet, h, hk]
  · unfold SpecialsPanel.GetObject
    cases h : W.GetUniverse.Object spc.m_object_id with
    | none => simp
    | some obj => simp
  · intro obj h
    simp [SpecialsPanel.GetObject, h]

/-- `BuildingsPanel::Update` on a planet id that resolves to no planet reads the building set
through a null pointer. -/
theorem BuildingsPanel.Update_unresolved (W : World Dbl) (self : BuildingsPanel)
    (h : W.GetUniverse.Object_Planet self.m_planet_id = none) :
    BuildingsPanel.Update W self = .null_dereference := by
  simp [BuildingsPanel.Update, h]

/-- C6, the code at the failing input. The panel `strayBuildingsPanel` has the planet id 7,
which resolves to no object of `sampleWorld`. `BuildingsPanel::Update` and
`BuildingsPanel::Refresh` do not throw: they dereference the null pointer returned by
`universe.Object<Planet>`. The getter `BuildingsPanel::GetPlanet` of the same panel, which
`Update` does not call, throws the runtime error. -/
theorem buildingsPanel_update_dereferences_unresolved_planet :
    sampleWorld.GetUniverse.Object_Planet strayBuildingsPanel.m_planet_id = none ∧
    BuildingsPanel.Update sampleWorld strayBuildingsPanel = .null_dereference ∧
    (BuildingsPanel.Refresh sampleWorld noPanels strayBuildingsPanel).1 = .null_dereference ∧
    (∀ e, BuildingsPanel.Update sampleWorld strayBuildingsPanel ≠ .threw e) ∧
    BuildingsPanel.GetPlanet sampleWorld strayBuildingsPanel
      = .threw (.runtime_error
          "BuildingsPanel tried to get a planet with an invalid m_planet_id") := by
  have h : sampleWorld.GetUniverse.Object_Planet strayBuildingsPanel.m_planet_id = none := by
    rfl
  have hu := BuildingsPanel.Update_unresolved sampleWorld strayBuildingsPanel h
  refine ⟨h, hu, ?_, ?_, ?_⟩
  · simp [BuildingsPanel.Refresh, hu, Result.bind_statics]
  · intro e he
    rw [hu] at he
    cases he
  · simp [BuildingsPanel.GetPlanet, h]

/-! ### What the calls can throw -/

theorem Result.bind_eq_ok {α β : Type} (r : Result α) (f : α → Result β) (b : β)
    (h : r.bind f = .ok b) : ∃ a, r = .ok a ∧ f a = .ok b := by
  cases r with
  | ok a => exact ⟨a, rfl, h⟩
  | threw e => simp [Result.bind] at h
  | null_dereference => simp [Result.bind] at h
  | assertion_failed => simp [Result.bind] at h

theorem Result.bind_statics_eq_ok {α β : Type} (r : Result α) (S S' : Statics)
    (f : α → Result β × Statics) (b : β) (h : r.bind_statics S f = (.ok b, S')) :
    ∃ a, r = .ok a ∧ f a = (.ok b, S') := by
  cases r with
  | ok a => exact ⟨a, rfl, h⟩
  | threw e => simp [Result.bind_statics] at h
  | null_dereference => simp [Result.bind_statics] at h
  | assertion_failed => simp [Result.bind_statics] at h

theorem ExpandedMap.default_collapsed_self (m : ExpandedMap) (id : Int) :
    m.default_collapsed id id = some ((m id).getD false) := by
  cases h : m id with
  | none => simp [ExpandedMap.default_collapsed, h, ExpandedMap.assign]
  | some b => simp [ExpandedMap.default_collapsed, h]

theorem ExpandedMap.default_collapsed_other (m : ExpandedMap) (id k : Int) (hk : k ≠ id) :
    m.default_collapsed id k = m k := by
  cases h : m id with
  | none => simp [ExpandedMap.default_collapsed, h, ExpandedMap.assign, hk]
  | some b => simp [ExpandedMap.default_collapsed, h]

theorem ExpandedMap.index_snd_self (m : ExpandedMap) (id : Int) :
    (m.index id).2 id = some ((m id).getD false) := by
  cases h : m id with
  | none => simp [ExpandedMap.index, h, ExpandedMap.assign]
  | some b => simp [ExpandedMap.index, h]

theorem ExpandedMap.index_snd_other (m : ExpandedMap) (id k : Int) (hk : k ≠ id) :
    (m.index id).2 k = m k := by
  cases h : m id with
  | none => simp [ExpandedMap.index, h, ExpandedMap.assign, hk]
  | some b => simp [ExpandedMap.index, h]

theorem ExpandedMap.index_fst (m : ExpandedMap) (id : Int) :
    (m.index id).1 = (m id).getD false := by
  cases h : m id with
  | none => simp [ExpandedMap.index, h]
  | some b => simp [ExpandedMap.index, h]

theorem ExpandedMap.assign_self (m : ExpandedMap) (id : Int) (b : Bool) :
    m.assign id b id = some b := by
  simp [ExpandedMap.assign]

theorem ExpandedMap.assign_other (m : ExpandedMap) (id k : Int) (b : Bool) (hk : k ≠ id) :
    m.assign id b k = m k := by
  simp [ExpandedMap.assign, hk]

theorem MultiMeterStatusBar.Update_bars_m_obj (meters : List (Meter Dbl)) :
    ∀ (meter_types : List MeterType) (self : MultiMeterStatusBar Dbl),
      (MultiMeterStatusBar.Update_bars meters meter_types self).m_obj = self.m_obj ∧
      (MultiMeterStatusBar.Update_bars meters meter_types self).m_meter_types
        = self.m_meter_types := by
  induction meters with
  | nil => intro meter_types self; simp [MultiMeterStatusBar.Update_bars]
  | cons m ms ih =>
    intro meter_types self
    cases meter_types with
    | nil => simp [MultiMeterStatusBar.Update_bars]
    | cons t ts =>
      simp only [MultiMeterStatusBar.Update_bars]
      exact ih ts _

theorem PopulationPanel_Update_id [Zero Dbl] [Add Dbl] (W : World Dbl)
    (self panel : PopulationPanel Dbl) (h : self.Update W = .ok panel) :
    panel.m_popcenter_id = self.m_popcenter_id := by
  unfold PopulationPanel.Update at h
  obtain ⟨pop, _, h⟩ := Result.bind_eq_ok _ _ _ h
  split at h
  · cases h
  · obtain ⟨bar, _, h⟩ := Result.bind_eq_ok _ _ _ h
    obtain ⟨indicator, _, h⟩ := Result.bind_eq_ok _ _ _ h
    cases h
    rfl

theorem ResourcePanel_Update_id [Zero Dbl] [Add Dbl] (W : World Dbl)
    (self panel : ResourcePanel Dbl) (h : self.Update W = .ok panel) :
    panel.m_rescenter_id = self.m_rescenter_id := by
  unfold ResourcePanel.Update at h
  obtain ⟨res, _, h⟩ := Result.bind_eq_ok _ _ _ h
  split at h
  · cases h
  · obtain ⟨bar, _, h⟩ := Result.bind_eq_ok _ _ _ h
    obtain ⟨indicator, _, h⟩ := Result.bind_eq_ok _ _ _ h
    cases h
    rfl

theorem MilitaryPanel_Update_id [Zero Dbl] [Add Dbl] (W : World Dbl)
    (self panel : MilitaryPanel Dbl) (h : self.Update W = .ok panel) :
    panel.m_planet_id = self.m_planet_id := by
  unfold MilitaryPanel.Update at h
  obtain ⟨plt, _, h⟩ := Result.bind_eq_ok _ _ _ h
  obtain ⟨bar, _, h⟩ := Result.bind_eq_ok _ _ _ h
  obtain ⟨indicator, _, h⟩ := Result.bind_eq_ok _ _ _ h
  cases h
  rfl

theorem BuildingsPanel_Update_id (W : World Dbl) (self panel : BuildingsPanel)
    (h : self.Update W = .ok panel) : panel.m_planet_id = self.m_planet_id := by
  unfold BuildingsPanel.Update at h
  split at h
  · cases h
  · cases h
    rfl

theorem Result.isOk_iff {α : Type} (r : Result α) : r.isOk = true ↔ ∃ a, r = .ok a := by
  cases r <;> simp [Result.isOk]

theorem ResourcePanel.DoExpandCollapseLayout_statics [LT Dbl]
    [DecidableRel ((· < ·) : Dbl → Dbl → Prop)] (W : World Dbl) (S : Statics)
    (self : ResourcePanel Dbl) :
    (self.DoExpandCollapseLayout W S).2 =
      { S with
        ResourcePanel_s_expanded_map :=
          (S.ResourcePanel_s_expanded_map.index self.m_rescenter_id).2 } := by
  unfold ResourcePanel.DoExpandCollapseLayout
  simp only
  split
  · cases ResourcePanel.GetResourceCenter W self <;> rfl
  · rfl

theorem new_PopulationPanel_ok_statics [Zero Dbl] [Add Dbl] (W : World Dbl) (S : Statics)
    (obj : UniverseObject Dbl) (h : (new_PopulationPanel W S obj).1.isOk = true) :
    (new_PopulationPanel W S obj).2 =
      { S with
        PopulationPanel_s_expanded_map :=
          S.PopulationPanel_s_expanded_map.default_collapsed obj.ID } ∧
    ∀ panel, (new_PopulationPanel W S obj).1 = .ok panel → panel.m_popcenter_id = obj.ID := by
  obtain ⟨p, hp⟩ := (Result.isOk_iff _).1 h
  generalize hS' : (new_PopulationPanel W S obj).2 = S' at *
  have hpair : new_PopulationPanel W S obj = (.ok p, S') := Prod.ext hp hS'
  have key : S' = { S with
        PopulationPanel_s_expanded_map :=
          S.PopulationPanel_s_expanded_map.default_collapsed obj.ID } ∧
      p.m_popcenter_id = obj.ID := by
    unfold new_PopulationPanel at hpair
    split at hpair
    · cases hpair
    · obtain ⟨indicator, _, hpair⟩ := Result.bind_statics_eq_ok _ _ _ _ _ hpair
      obtain ⟨bar, _, hpair⟩ := Result.bind_statics_eq_ok _ _ _ _ _ hpair
      unfold PopulationPanel.Refresh at hpair
      obtain ⟨panel, hupd, hpair⟩ := Result.bind_statics_eq_ok _ _ _ _ _ hpair
      have hid := PopulationPanel_Update_id W _ panel hupd
      simp only at hid
      simp only [PopulationPanel.DoExpandCollapseLayout, Prod.mk.injEq, Result.ok.injEq]
        at hpair
      obtain ⟨hp1, hS1⟩ := hpair
      refine ⟨?_, ?_⟩
      · rw [← hS1, hid]
        have hidx : ((S.PopulationPanel_s_expanded_map.default_collapsed obj.ID).index
            obj.ID).2 = S.PopulationPanel_s_expanded_map.default_collapsed obj.ID := by
          have := ExpandedMap.default_collapsed_self S.PopulationPanel_s_expanded_map obj.ID
          simp [ExpandedMap.index, this]
        simp [hidx]
      · rw [← hp1]
        exact hid
  refine ⟨key.1, ?_⟩
  intro panel hpanel
  rw [hp] at hpanel
  cases hpanel
  exact key.2

theorem new_ResourcePanel_ok_statics [Zero Dbl] [Add Dbl] [LT Dbl]
    [DecidableRel ((· < ·) : Dbl → Dbl → Prop)] (W : World Dbl) (S : Statics) (w : Int)
    (obj : UniverseObject Dbl) (h : (new_ResourcePanel W S w obj).1.isOk = true) :
    (new_ResourcePanel W S w obj).2 =
      { S with
        ResourcePanel_s_expanded_map :=
          S.ResourcePanel_s_expanded_map.default_collapsed obj.ID } ∧
    ∀ panel, (new_ResourcePanel W S w obj).1 = .ok panel → panel.m_rescenter_id = obj.ID := by
  obtain ⟨p, hp⟩ := (Result.isOk_iff _).1 h
  generalize hS' : (new_ResourcePanel W S w obj).2 = S' at *
  have hpair : new_ResourcePanel W S w obj = (.ok p, S') := Prod.ext hp hS'
  have key : S' = { S with
        ResourcePanel_s_expanded_map :=
          S.ResourcePanel_s_expanded_map.default_collapsed obj.ID } ∧
      p.m_rescenter_id = obj.ID := by
    unfold new_ResourcePanel at hpair
    split at hpair
    · cases hpair
    · obtain ⟨bar, _, hpair⟩ := Result.bind_statics_eq_ok _ _ _ _ _ hpair
      obtain ⟨indicator, _, hpair⟩ := Result.bind_statics_eq_ok _ _ _ _ _ hpair
      unfold ResourcePanel.Refresh at hpair
      obtain ⟨panel, hupd, hpair⟩ := Result.bind_statics_eq_ok _ _ _ _ _ hpair
      have hid := ResourcePanel_Update_id W _ panel hupd
      simp only at hid
      have hidx : ((S.ResourcePanel_s_expanded_map.default_collapsed obj.ID).index
          obj.ID) = (((S.ResourcePanel_s_expanded_map obj.ID).getD false),
            S.ResourcePanel_s_expanded_map.default_collapsed obj.ID) := by
        have := ExpandedMap.default_collapsed_self S.ResourcePanel_s_expanded_map obj.ID
        simp [ExpandedMap.index, this]
      unfold ResourcePanel.DoExpandCollapseLayout at hpair
      simp only [hid, hidx] at hpair
      split at hpair
      · obtain ⟨res, _, hpair⟩ := Result.bind_statics_eq_ok _ _ _ _ _ hpair
        simp only [Prod.mk.injEq, Result.ok.injEq] at hpair
        obtain ⟨hp1, hS1⟩ := hpair
        exact ⟨hS1.symm, by rw [← hp1]⟩
      · simp only [Prod.mk.injEq, Result.ok.injEq] at hpair
        obtain ⟨hp1, hS1⟩ := hpair
        exact ⟨hS1.symm, by rw [← hp1]⟩
  refine ⟨key.1, ?_⟩
  intro panel hpanel
  rw [hp] at hpanel
  cases hpanel
  exact key.2

theorem new_MilitaryPanel_ok_statics [Zero Dbl] [Add Dbl] (W : World Dbl) (S : Statics)
    (w : Int) (plt : UniverseObject Dbl) (h : (new_MilitaryPanel W S w plt).1.isOk = true) :
    (new_MilitaryPanel W S w plt).2 =
      { S with
        MilitaryPanel_s_expanded_map :=
          S.MilitaryPanel_s_expanded_map.default_collapsed plt.ID } ∧
    ∀ panel, (new_MilitaryPanel W S w plt).1 = .ok panel → panel.m_planet_id = plt.ID := by
  obtain ⟨p, hp⟩ := (Result.isOk_iff _).1 h
  generalize hS' : (new_MilitaryPanel W S w plt).2 = S' at *
  have hpair : new_MilitaryPanel W S w plt = (.ok p, S') := Prod.ext hp hS'
  have key : S' = { S with
        MilitaryPanel_s_expanded_map :=
          S.MilitaryPanel_s_expanded_map.default_collapsed plt.ID } ∧
      p.m_planet_id = plt.ID := by
    unfold new_MilitaryPanel at hpair
    obtain ⟨bar, _, hpair⟩ := Result.bind_statics_eq_ok _ _ _ _ _ hpair
    obtain ⟨indicator, _, hpair⟩ := Result.bind_statics_eq_ok _ _ _ _ _ hpair
    unfold MilitaryPanel.Refresh at hpair
    obtain ⟨panel, hupd, hpair⟩ := Result.bind_statics_eq_ok _ _ _ _ _ hpair
    have hid := MilitaryPanel_Update_id W _ panel hupd
    simp only at hid
    simp only [MilitaryPanel.DoExpandCollapseLayout, Prod.mk.injEq, Result.ok.injEq] at hpair
    obtain ⟨hp1, hS1⟩ := hpair
    refine ⟨?_, ?_⟩
    · rw [← hS1, hid]
      have hidx : ((S.MilitaryPanel_s_expanded_map.default_collapsed plt.ID).index
          plt.ID).2 = S.MilitaryPanel_s_expanded_map.default_collapsed plt.ID := by
        have := ExpandedMap.default_collapsed_self S.MilitaryPanel_s_expanded_map plt.ID
        simp [ExpandedMap.index, this]
      simp [hidx]
    · rw [← hp1]
      exact hid
  refine ⟨key.1, ?_⟩
  intro panel hpanel
  rw [hp] at hpanel
  cases hpanel
  exact key.2

theorem new_BuildingsPanel_ok_statics (W : World Dbl) (S : Statics) (w columns : Int)
    (plt : UniverseObject Dbl) (h : (new_BuildingsPanel W S w columns plt).1.isOk = true) :
    (new_BuildingsPanel W S w columns plt).2 =
      { S with
        BuildingsPanel_s_expanded_map := (S.BuildingsPanel_s_expanded_map.index plt.ID).2 } ∧
    ∀ panel, (new_BuildingsPanel W S w columns plt).1 = .ok panel →
      panel.m_planet_id = plt.ID := by
  obtain ⟨p, hp⟩ := (Result.isOk_iff _).1 h
  generalize hS' : (new_BuildingsPanel W S w columns plt).2 = S' at *
  have hpair : new_BuildingsPanel W S w columns plt = (.ok p, S') := Prod.ext hp hS'
  have key : S' = { S with
        BuildingsPanel_s_expanded_map := (S.BuildingsPanel_s_expanded_map.index plt.ID).2 } ∧
      p.m_planet_id = plt.ID := by
    unfold new_BuildingsPanel at hpair
    split at hpair
    · cases hpair
    · unfold BuildingsPanel.Refresh at hpair
      obtain ⟨panel, hupd, hpair⟩ := Result.bind_statics_eq_ok _ _ _ _ _ hpair
      have hid := BuildingsPanel_Update_id W _ panel hupd
      simp only at hid
      simp only [BuildingsPanel.DoExpandCollapseLayout, Prod.mk.injEq, Result.ok.injEq]
        at hpair
      obtain ⟨hp1, hS1⟩ := hpair
      refine ⟨?_, ?_⟩
      · rw [← hS1, hid]
      · rw [← hp1]
        exact hid
  refine ⟨key.1, ?_⟩
  intro panel hpanel
  rw [hp] at hpanel
  cases hpanel
  exact key.2

/-- C8. After a panel of one of the classes `PopulationPanel`, `ResourcePanel`,
`MilitaryPanel`, `BuildingsPanel` has been constructed successfully for an object, the panel
carries the id of the object and the expanded-flag map of the class has an entry for that id:
the entry is `false` (collapsed) if the id had no entry before the construction, and the
earlier value if it had one. -/
theorem constructed_panel_has_expanded_entry [Zero Dbl] [Add Dbl] [LT Dbl]
    [DecidableRel ((· < ·) : Dbl → Dbl → Prop)] (W : World Dbl)
    (S : Statics) (w : Int) (obj : UniverseObject Dbl) (columns : Int) :
    ((new_PopulationPanel W S obj).1.isOk = true →
      (∀ panel, (new_PopulationPanel W S obj).1 = .ok panel →
        panel.m_popcenter_id = obj.ID) ∧
      (S.PopulationPanel_s_expanded_map obj.ID = none →
        (new_PopulationPanel W S obj).2.PopulationPanel_s_expanded_map obj.ID = some false) ∧
      (∀ b, S.PopulationPanel_s_expanded_map obj.ID = some b →
        (new_PopulationPanel W S obj).2.PopulationPanel_s_expanded_map obj.ID = some b)) ∧
    ((new_ResourcePanel W S w obj).1.isOk = true →
      (∀ panel, (new_ResourcePanel W S w obj).1 = .ok panel → panel.m_rescenter_id = obj.ID) ∧
      (S.ResourcePanel_s_expanded_map obj.ID = none →
        (new_ResourcePanel W S w obj).2.ResourcePanel_s_expanded_map obj.ID = some false) ∧
      (∀ b, S.ResourcePanel_s_expanded_map obj.ID = some b →
        (new_ResourcePanel W S w obj).2.ResourcePanel_s_expanded_map obj.ID = some b)) ∧
    ((new_MilitaryPanel W S w obj).1.isOk = true →
      (∀ panel, (new_MilitaryPanel W S w obj).1 = .ok panel → panel.m_planet_id = obj.ID) ∧
      (S.MilitaryPanel_s_expanded_map obj.ID = none →
        (new_MilitaryPanel W S w obj).2.MilitaryPanel_s_expanded_map obj.ID = some false) ∧
      (∀ b, S.MilitaryPanel_s_expanded_map obj.ID = some b →
        (new_MilitaryPanel W S w obj).2.MilitaryPanel_s_expanded_map obj.ID = some b)) ∧
    ((new_BuildingsPanel W S w columns obj).1.isOk = true →
      (∀ panel, (new_BuildingsPanel W S w columns obj).1 = .ok panel →
        panel.m_planet_id = obj.ID) ∧
      (S.BuildingsPanel_s_expanded_map obj.ID = none →
        (new_BuildingsPanel W S w columns obj).2.BuildingsPanel_s_expanded_map obj.ID
          = some false) ∧
      (∀ b, S.BuildingsPanel_s_expanded_map obj.ID = some b →
        (new_BuildingsPanel W S w columns obj).2.BuildingsPanel_s_expanded_map obj.ID
          = some b)) := by
  refine ⟨?_, ?_, ?_, ?_⟩
  · intro h
    obtain ⟨hS, hid⟩ := new_PopulationPanel_ok_statics W S obj h
    refine ⟨hid, ?_, ?_⟩
    · intro hnone
      rw [hS]
      simp [ExpandedMap.default_collapsed_self, hnone]
    · intro b hb
      rw [hS]
      simp [ExpandedMap.default_collapsed_self, hb]
  · intro h
    obtain ⟨hS, hid⟩ := new_ResourcePanel_ok_statics W S w obj h
    refine ⟨hid, ?_, ?_⟩
    · intro hnone
      rw [hS]
      simp [ExpandedMap.default_collapsed_self, hnone]
    · intro b hb
      rw [hS]
      simp [ExpandedMap.default_collapsed_self, hb]
  · intro h
    obtain ⟨hS, hid⟩ := new_MilitaryPanel_ok_statics W S w obj h
    refine ⟨hid, ?_, ?_⟩
    · intro hnone
      rw [hS]
      simp [ExpandedMap.default_collapsed_self, hnone]
    · intro b hb
      rw [hS]
      simp [ExpandedMap.default_collapsed_self, hb]
  · intro h
    obtain ⟨hS, hid⟩ := new_BuildingsPanel_ok_statics W S w columns obj h
    refine ⟨hid, ?_, ?_⟩
    · intro hnone
      rw [hS]
      simp [ExpandedMap.index_snd_self, hnone]
    · intro b hb
      rw [hS]
      simp [ExpandedMap.index_snd_self, hb]

/-- Witness of C8: the four panels constructed for the planet 1 of `sampleWorld`, first with
no flags stored, then with the flag `true` stored for the planet. -/
theorem constructed_panel_has_expanded_entry_witness :
    ((new_PopulationPanel sampleWorld noPanels samplePlanet).2.PopulationPanel_s_expanded_map 1
        = some false ∧
      (new_ResourcePanel sampleWorld noPanels 200 samplePlanet).2.ResourcePanel_s_expanded_map 1
        = some false ∧
      (new_MilitaryPanel sampleWorld noPanels 200 samplePlanet).2.MilitaryPanel_s_expanded_map 1
        = some false ∧
      (new_BuildingsPanel sampleWorld noPanels 200 3 samplePlanet).2.BuildingsPanel_s_expanded_map 1
        = some false) ∧
    ((new_PopulationPanel sampleWorld panelsExpanded
        samplePlanet).2.PopulationPanel_s_expanded_map 1 = some true ∧
      (new_ResourcePanel sampleWorld panelsExpanded 200
        samplePlanet).2.ResourcePanel_s_expanded_map 1 = some true ∧
      (new_MilitaryPanel sampleWorld panelsExpanded 200
        samplePlanet).2.MilitaryPanel_s_expanded_map 1 = some true ∧
      (new_BuildingsPanel sampleWorld panelsExpanded 200 3
        samplePlanet).2.BuildingsPanel_s_expanded_map 1 = some true) :=
  ⟨⟨((constructed_panel_has_expanded_entry sampleWorld noPanels 200 samplePlanet 3).1
        (by rfl)).2.1 (by rfl),
    ((constructed_panel_has_expanded_entry sampleWorld noPanels 200 samplePlanet 3).2.1
        (by rfl)).2.1 (by rfl),
    ((constructed_panel_has_expanded_entry sampleWorld noPanels 200 samplePlanet 3).2.2.1
        (by rfl)).2.1 (by rfl),
    ((constructed_panel_has_expanded_entry sampleWorld noPanels 200 samplePlanet 3).2.2.2
        (by rfl)).2.1 (by rfl)⟩,
   ⟨((constructed_panel_has_expanded_entry sampleWorld panelsExpanded 200 samplePlanet 3).1
        (by rfl)).2.2 true (by rfl),
    ((constructed_panel_has_expanded_entry sampleWorld panelsExpanded 200 samplePlanet 3).2.1
        (by rfl)).2.2 true (by rfl),
    ((constructed_panel_has_expanded_entry sampleWorld panelsExpanded 200 samplePlanet 3).2.2.1
        (by rfl)).2.2 true (by rfl),
    ((constructed_panel_has_expanded_entry sampleWorld panelsExpanded 200 samplePlanet 3).2.2.2
        (by rfl)).2.2 true (by rfl)⟩⟩

/-- C9. Panels are independently collapsible. `ExpandCollapse(e)` on the panel of the object X,
for each of the four panel classes, leaves the expanded flag stored for every other object Y
unchanged, and leaves the expanded-flag maps of the other three classes unchanged. -/
theorem expand_collapse_leaves_other_flags [LT Dbl]
    [DecidableRel ((· < ·) : Dbl → Dbl → Prop)] (W : World Dbl) (S : Statics) (e : Bool)
    (pop : PopulationPanel Dbl) (res : ResourcePanel Dbl) (mil : MilitaryPanel Dbl)
    (bld : BuildingsPanel) (Y : Int) :
    ((Y ≠ pop.m_popcenter_id →
        (pop.ExpandCollapse e S).2.PopulationPanel_s_expanded_map Y
          = S.PopulationPanel_s_expanded_map Y) ∧
      (pop.ExpandCollapse e S).2.ResourcePanel_s_expanded_map = S.ResourcePanel_s_expanded_map ∧
      (pop.ExpandCollapse e S).2.MilitaryPanel_s_expanded_map = S.MilitaryPanel_s_expanded_map ∧
      (pop.ExpandCollapse e S).2.BuildingsPanel_s_expanded_map
        = S.BuildingsPanel_s_expanded_map) ∧
    ((Y ≠ res.m_rescenter_id →
        (res.ExpandCollapse W e S).2.ResourcePanel_s_expanded_map Y
          = S.ResourcePanel_s_expanded_map Y) ∧
      (res.ExpandCollapse W e S).2.PopulationPanel_s_expanded_map
        = S.PopulationPanel_s_expanded_map ∧
      (res.ExpandCollapse W e S).2.MilitaryPanel_s_expanded_map
        = S.MilitaryPanel_s_expanded_map ∧
      (res.ExpandCollapse W e S).2.BuildingsPanel_s_expanded_map
        = S.BuildingsPanel_s_expanded_map) ∧
    ((Y ≠ mil.m_planet_id →
        (mil.ExpandCollapse W e S).2.MilitaryPanel_s_expanded_map Y
          = S.MilitaryPanel_s_expanded_map Y) ∧
      (mil.ExpandCollapse W e S).2.PopulationPanel_s_expanded_map
        = S.PopulationPanel_s_expanded_map ∧
      (mil.ExpandCollapse W e S).2.ResourcePanel_s_expanded_map = S.ResourcePanel_s_expanded_map ∧
      (mil.ExpandCollapse W e S).2.BuildingsPanel_s_expanded_map
        = S.BuildingsPanel_s_expanded_map) ∧
    ((Y ≠ bld.m_planet_id →
        (bld.ExpandCollapse W e S).2.BuildingsPanel_s_expanded_map Y
          = S.BuildingsPanel_s_expanded_map Y) ∧
      (bld.ExpandCollapse W e S).2.PopulationPanel_s_expanded_map
        = S.PopulationPanel_s_expanded_map ∧
      (bld.ExpandCollapse W e S).2.ResourcePanel_s_expanded_map = S.ResourcePanel_s_expanded_map ∧
      (bld.ExpandCollapse W e S).2.MilitaryPanel_s_expanded_map
        = S.MilitaryPanel_s_expanded_map) := by
  refine ⟨⟨?_, ?_, ?_, ?_⟩, ⟨?_, ?_, ?_, ?_⟩, ⟨?_, ?_, ?_, ?_⟩, ⟨?_, ?_, ?_, ?_⟩⟩
  · intro hY
    unfold PopulationPanel.ExpandCollapse
    simp only
    split
    · exact ExpandedMap.index_snd_other _ _ _ hY
    · simp only [PopulationPanel.DoExpandCollapseLayout]
      rw [ExpandedMap.index_snd_other _ _ _ hY, ExpandedMap.assign_other _ _ _ _ hY,
        ExpandedMap.index_snd_other _ _ _ hY]
  · unfold PopulationPanel.ExpandCollapse; simp only; split <;> rfl
  · unfold PopulationPanel.ExpandCollapse; simp only; split <;> rfl
  · unfold PopulationPanel.ExpandCollapse; simp only; split <;> rfl
  · intro hY
    unfold ResourcePanel.ExpandCollapse
    simp only
    split
    · exact ExpandedMap.index_snd_other _ _ _ hY
    · rw [ResourcePanel.DoExpandCollapseLayout_statics]
      simp only
      rw [ExpandedMap.index_snd_other _ _ _ hY, ExpandedMap.assign_other _ _ _ _ hY,
        ExpandedMap.index_snd_other _ _ _ hY]
  · unfold ResourcePanel.ExpandCollapse; simp only
    split
    · rfl
    · rw [ResourcePanel.DoExpandCollapseLayout_statics]
  · unfold ResourcePanel.ExpandCollapse; simp only
    split
    · rfl
    · rw [ResourcePanel.DoExpandCollapseLayout_statics]
  · unfold ResourcePanel.ExpandCollapse; simp only
    split
    · rfl
    · rw [ResourcePanel.DoExpandCollapseLayout_statics]
  · intro hY
    unfold MilitaryPanel.ExpandCollapse
    simp only
    split
    · exact ExpandedMap.index_snd_other _ _ _ hY
    · simp only [MilitaryPanel.DoExpandCollapseLayout]
      rw [ExpandedMap.index_snd_other _ _ _ hY, ExpandedMap.assign_other _ _ _ _ hY,
        ExpandedMap.index_snd_other _ _ _ hY]
  · unfold MilitaryPanel.ExpandCollapse; simp only; split <;> rfl
  · unfold MilitaryPanel.ExpandCollapse; simp only; split <;> rfl
  · unfold MilitaryPanel.ExpandCollapse; simp only; split <;> rfl
  · intro hY
    unfold BuildingsPanel.ExpandCollapse
    simp only
    split
    · exact ExpandedMap.index_snd_other _ _ _ hY
    · simp only [BuildingsPanel.DoExpandCollapseLayout]
      rw [ExpandedMap.index_snd_other _ _ _ hY, ExpandedMap.assign_other _ _ _ _ hY,
        ExpandedMap.index_snd_other _ _ _ hY]
  · unfold BuildingsPanel.ExpandCollapse; simp only; split <;> rfl
  · unfold BuildingsPanel.ExpandCollapse; simp only; split <;> rfl
  · unfold BuildingsPanel.ExpandCollapse; simp only; split <;> rfl

/-- The constructors run in `sampleWorld`: each returns the sample panel of its class. -/
theorem sample_panels_constructed :
    (new_PopulationPanel sampleWorld noPanels samplePlanet).1 = .ok samplePopulationPanel ∧
    (new_ResourcePanel sampleWorld noPanels 200 samplePlanet).1 = .ok sampleResourcePanel ∧
    (new_MilitaryPanel sampleWorld noPanels 200 samplePlanet).1 = .ok sampleMilitaryPanel ∧
    (new_BuildingsPanel sampleWorld noPanels 200 3 samplePlanet).1 = .ok sampleBuildingsPanel :=
  ⟨by rfl, by rfl, by rfl, by rfl⟩

/-- Witness of C9: in the statics `panelsExpanded`, which hold the flag `true` for the object
1, the panels of the object 2 are collapsed; the flag of the object 1 stays. -/
theorem expand_collapse_leaves_other_flags_witness :
    (({ samplePopulationPanel with m_popcenter_id := 2 }).ExpandCollapse false
        panelsExpanded).2.PopulationPanel_s_expanded_map 1
      = panelsExpanded.PopulationPanel_s_expanded_map 1 ∧
    (({ sampleResourcePanel with m_rescenter_id := 2 }).ExpandCollapse sampleWorld false
        panelsExpanded).2.ResourcePanel_s_expanded_map 1
      = panelsExpanded.ResourcePanel_s_expanded_map 1 ∧
    (({ sampleMilitaryPanel with m_planet_id := 2 }).ExpandCollapse sampleWorld false
        panelsExpanded).2.MilitaryPanel_s_expanded_map 1
      = panelsExpanded.MilitaryPanel_s_expanded_map 1 ∧
    (({ sampleBuildingsPanel with m_planet_id := 2 }).ExpandCollapse sampleWorld false
        panelsExpanded).2.BuildingsPanel_s_expanded_map 1
      = panelsExpanded.BuildingsPanel_s_expanded_map 1 :=
  ⟨(expand_collapse_leaves_other_flags sampleWorld panelsExpanded false
      { samplePopulationPanel with m_popcenter_id := 2 }
      { sampleResourcePanel with m_rescenter_id := 2 }
      { sampleMilitaryPanel with m_planet_id := 2 }
      { sampleBuildingsPanel with m_planet_id := 2 } 1).1.1 (by decide),
   (expand_collapse_leaves_other_flags sampleWorld panelsExpanded false
      { samplePopulationPanel with m_popcenter_id := 2 }
      { sampleResourcePanel with m_rescenter_id := 2 }
      { sampleMilitaryPanel with m_planet_id := 2 }
      { sampleBuildingsPanel with m_planet_id := 2 } 1).2.1.1 (by decide),
   (expand_collapse_leaves_other_flags sampleWorld panelsExpanded false
      { samplePopulationPanel with m_popcenter_id := 2 }
      { sampleResourcePanel with m_rescenter_id := 2 }
      { sampleMilitaryPanel with m_planet_id := 2 }
      { sampleBuildingsPanel with m_planet_id := 2 } 1).2.2.1.1 (by decide),
   (expand_collapse_leaves_other_flags sampleWorld panelsExpanded false
      { samplePopulationPanel with m_popcenter_id := 2 }
      { sampleResourcePanel with m_rescenter_id := 2 }
      { sampleMilitaryPanel with m_planet_id := 2 }
      { sampleBuildingsPanel with m_planet_id := 2 } 1).2.2.2.1 (by decide)⟩

/-! ### MultiIconValueIndicator::Update -/

theorem MultiIconValueIndicator.Update_sum_eq [Add Dbl] (meter_type : MeterType)
    (objs : List (UniverseObject Dbl)) :
    ∀ sum, MultiIconValueIndicator.Update_sum meter_type (objs.map some) sum
      = .ok ((objs.map fun obj => obj.ProjectedMeterPoints meter_type).foldl (· + ·) sum) := by
  induction objs with
  | nil => intro sum; rfl
  | cons obj rest ih =>
    intro sum
    simp only [List.map_cons, MultiIconValueIndicator.Update_sum, List.foldl_cons]
    exact ih _

theorem MultiIconValueIndicator.Update_icons_eq [Zero Dbl] [Add Dbl]
    (objs : List (UniverseObject Dbl)) (icons : List (StatisticIcon Dbl)) :
    ∀ meter_types : List MeterType, icons.length = meter_types.length →
      MultiIconValueIndicator.Update_icons (objs.map some) icons meter_types
        = .ok (meter_types.map fun meter_type =>
            { value :=
                (objs.map fun obj => obj.ProjectedMeterPoints meter_type).foldl (· + ·) 0 }) := by
  induction icons with
  | nil =>
    intro meter_types h
    cases meter_types with
    | nil => rfl
    | cons t ts => simp at h
  | cons icon rest ih =>
    intro meter_types h
    cases meter_types with
    | nil => simp at h
    | cons t ts =>
      simp only [List.length_cons, Nat.add_right_cancel_iff] at h
      simp only [MultiIconValueIndicator.Update_icons,
        MultiIconValueIndicator.Update_sum_eq, ih ts h, Result.bind, StatisticIcon.SetValue,
        List.map_cons]

theorem MultiIconValueIndicator.Update_icons_length [Zero Dbl] [Add Dbl]
    (m_obj_vec : List (Option (UniverseObject Dbl))) (icons : List (StatisticIcon Dbl)) :
    ∀ (meter_types : List MeterType) (icons' : List (StatisticIcon Dbl)),
      MultiIconValueIndicator.Update_icons m_obj_vec icons meter_types = .ok icons' →
      icons'.length = icons.length := by
  induction icons with
  | nil =>
    intro meter_types icons' h
    simp only [MultiIconValueIndicator.Update_icons, Result.ok.injEq] at h
    rw [← h]
  | cons icon rest ih =>
    intro meter_types icons' h
    cases meter_types with
    | nil => simp [MultiIconValueIndicator.Update_icons] at h
    | cons t ts =>
      unfold MultiIconValueIndicator.Update_icons at h
      obtain ⟨sum, _, h⟩ := Result.bind_eq_ok _ _ _ h
      obtain ⟨rest', hrest, h⟩ := Result.bind_eq_ok _ _ _ h
      simp only [Result.ok.injEq] at h
      rw [← h, List.length_cons, List.length_cons, ih ts rest' hrest]

/-- The `assert` of `Update` holds of every indicator `Update` has returned, hence of every
indicator a constructor has made: it has one icon per meter type. -/
theorem MultiIconValueIndicator.Update_keeps_sizes [Zero Dbl] [Add Dbl]
    (self updated : MultiIconValueIndicator Dbl) (h : self.Update = .ok updated) :
    updated.m_icons.length = updated.m_meter_types.length ∧
    updated.m_meter_types = self.m_meter_types ∧ updated.m_obj_vec = self.m_obj_vec := by
  unfold MultiIconValueIndicator.Update at h
  split at h
  · rename_i hlen
    obtain ⟨icons, hicons, h⟩ := Result.bind_eq_ok _ _ _ h
    simp only [Result.ok.injEq] at h
    rw [← h]
    refine ⟨?_, rfl, rfl⟩
    simp only
    rw [MultiIconValueIndicator.Update_icons_length _ _ _ _ hicons, hlen]
  · cases h

/-- C10. `MultiIconValueIndicator::Update` on an indicator with one icon per meter type
`t_0..t_(m-1)` and pointers to the objects `o_0..o_(k-1)`. The call returns; the meter types
and the objects are kept; afterwards icon `i` shows the sum, taken from `0.0` in the order
`j = 0..k-1`, of the projected meter points of `o_j` for `t_i`, which is `0.0` when there are
no objects. The values shown do not depend on what the icons showed before: an indicator with
the same meter types and objects and any other icons of the same number shows the same
values after `Update`. -/
theorem multiIconValueIndicator_update_shows_sums [Zero Dbl] [Add Dbl]
    (self : MultiIconValueIndicator Dbl) (objs : List (UniverseObject Dbl))
    (hsize : self.m_icons.length = self.m_meter_types.length)
    (hobjs : self.m_obj_vec = objs.map some) :
    ∃ updated : MultiIconValueIndicator Dbl,
      self.Update = .ok updated ∧
      updated.m_meter_types = self.m_meter_types ∧
      updated.m_obj_vec = self.m_obj_vec ∧
      updated.m_icons.length = self.m_icons.length ∧
      (∀ (i : Nat) (meter_type : MeterType), self.m_meter_types[i]? = some meter_type →
        updated.m_icons[i]? =
          some { value :=
            (objs.map fun obj => obj.ProjectedMeterPoints meter_type).foldl (· + ·) 0 }) ∧
      (objs = [] → ∀ icon ∈ updated.m_icons, icon.value = 0) ∧
      ∀ other : MultiIconValueIndicator Dbl,
        other.m_meter_types = self.m_meter_types → other.m_obj_vec = self.m_obj_vec →
        other.m_icons.length = self.m_icons.length →
        ∃ updated' : MultiIconValueIndicator Dbl,
          other.Update = .ok updated' ∧ updated'.m_icons = updated.m_icons := by
  have hupd : ∀ other : MultiIconValueIndicator Dbl,
      other.m_meter_types = self.m_meter_types → other.m_obj_vec = self.m_obj_vec →
      other.m_icons.length = self.m_icons.length →
      other.Update = .ok { other with
        m_icons := self.m_meter_types.map fun meter_type =>
          { value :=
              (objs.map fun obj => obj.ProjectedMeterPoints meter_type).foldl (· + ·) 0 } } := by
    intro other ht ho hl
    have hlen : other.m_icons.length = other.m_meter_types.length := by rw [hl, hsize, ht]
    unfold MultiIconValueIndicator.Update
    rw [if_pos hlen, ho, hobjs, MultiIconValueIndicator.Update_icons_eq objs _ _ hlen, ht]
    rfl
  refine ⟨_, hupd self rfl rfl rfl, rfl, rfl, ?_, ?_, ?_, ?_⟩
  · simp [hsize]
  · intro i meter_type hi
    simp [List.getElem?_map, hi]
  · intro hnil icon hicon
    subst hnil
    simp only [List.map_nil, List.foldl_nil, List.mem_map] at hicon
    obtain ⟨t, _, rfl⟩ := hicon
    rfl
  · intro other ht ho hl
    exact ⟨_, hupd other ht ho hl, rfl⟩

/-- Witness of C10: `staleIndicator`, whose icons show 100 and -7 before `Update`; the planet
of `sampleWorld` has 3 projected points of every meter and the building 0, so that each icon
shows 6 afterwards. -/
theorem multiIconValueIndicator_update_shows_sums_witness :
    ∃ updated : MultiIconValueIndicator Int,
      staleIndicator.Update = .ok updated ∧
      updated.m_meter_types = staleIndicator.m_meter_types ∧
      updated.m_obj_vec = staleIndicator.m_obj_vec ∧
      updated.m_icons.length = staleIndicator.m_icons.length ∧
      (∀ (i : Nat) (meter_type : MeterType),
        staleIndicator.m_meter_types[i]? = some meter_type →
        updated.m_icons[i]? =
          some { value :=
            ([samplePlanet, sampleBuilding, samplePlanet].map fun obj =>
              obj.ProjectedMeterPoints meter_type).foldl (· + ·) 0 }) ∧
      (([samplePlanet, sampleBuilding, samplePlanet] : List (UniverseObject Int)) = [] →
        ∀ icon ∈ updated.m_icons, icon.value = 0) ∧
      ∀ other : MultiIconValueIndicator Int,
        other.m_meter_types = staleIndicator.m_meter_types →
        other.m_obj_vec = staleIndicator.m_obj_vec →
        other.m_icons.length = staleIndicator.m_icons.length →
        ∃ updated' : MultiIconValueIndicator Int,
          other.Update = .ok updated' ∧ updated'.m_icons = updated.m_icons :=
  multiIconValueIndicator_update_shows_sums staleIndicator
    [samplePlanet, sampleBuilding, samplePlanet] (by rfl) (by rfl)

/-- The icons of `staleIndicator` after `Update`. -/
theorem staleIndicator_updated :
    staleIndicator.Update =
      .ok { staleIndicator with m_icons := [{ value := 6 }, { value := 6 }] } := by
  rfl

end panel_theorems

section consumption_theorems

variable {Dbl : Type}

theorem ObjectResourceConsumption.queue_sum_eq [Add Dbl] (obj_ID : Int)
    (queue : List (ProductionQueueElement Dbl)) :
    ∀ sum, ObjectResourceConsumption.queue_sum obj_ID queue sum
      = ((queue.filter fun elem => decide (elem.location = obj_ID)).map
          fun elem => elem.allocated_pp).foldl (· + ·) sum := by
  induction queue with
  | nil => intro sum; rfl
  | cons elem rest ih =>
    intro sum
    by_cases h : elem.location = obj_ID
    · simp [ObjectResourceConsumption.queue_sum, h, ih]
    · simp [ObjectResourceConsumption.queue_sum, h, ih]

theorem ObjectResourceConsumption.empires_sum_fst [Add Dbl] (obj_ID : Int)
    (empires : List (Int × Empire Dbl)) :
    ∀ sum, (ObjectResourceConsumption.empires_sum obj_ID empires sum).1
      = (((empires.flatMap fun it => it.2.GetProductionQueue).filter
          fun elem => decide (elem.location = obj_ID)).map
            fun elem => elem.allocated_pp).foldl (· + ·) sum := by
  induction empires with
  | nil => intro sum; rfl
  | cons it rest ih =>
    intro sum
    simp only [ObjectResourceConsumption.empires_sum, ih,
      ObjectResourceConsumption.queue_sum_eq, List.flatMap_cons, List.filter_append,
      List.map_append, List.foldl_append]

/-- C11. `ObjectResourceConsumption` for industry or minerals and a non-null object. For a
specific empire that exists and owns the object the value is the sum, accumulated from `0.0` in
queue order, of `allocated_pp` over exactly the elements of that empire's production queue
whose location is the id of the object. For `ALL_EMPIRES` it is that sum over the production
queues of all empires, one after the other. Minerals and industry give the same result for
every empire id. -/
theorem objectResourceConsumption_sums_allocated_pp [Zero Dbl] [Add Dbl] (W : World Dbl)
    (obj : UniverseObject Dbl) :
    (∀ (empire_id : Int) (empire : Empire Dbl), empire_id ≠ ALL_EMPIRES →
      W.Empires_Lookup empire_id = some empire → obj.OwnedBy empire_id = true →
      (ObjectResourceConsumption W (some obj) .RE_INDUSTRY empire_id).1
        = ((empire.GetProductionQueue.filter fun elem => decide (elem.location = obj.ID)).map
            fun elem => elem.allocated_pp).foldl (· + ·) 0) ∧
    (ObjectResourceConsumption W (some obj) .RE_INDUSTRY ALL_EMPIRES).1
      = (((W.Empires.flatMap fun it => it.2.GetProductionQueue).filter
          fun elem => decide (elem.location = obj.ID)).map
            fun elem => elem.allocated_pp).foldl (· + ·) 0 ∧
    ∀ empire_id : Int,
      ObjectResourceConsumption W (some obj) .RE_MINERALS empire_id
        = ObjectResourceConsumption W (some obj) .RE_INDUSTRY empire_id := by
  refine ⟨?_, ?_, ?_⟩
  · intro empire_id empire hid hlookup howned
    simp [ObjectResourceConsumption, hid, hlookup, howned, ObjectResourceConsumption.switch,
      ObjectResourceConsumption.queue_sum_eq]
  · simp [ObjectResourceConsumption, ObjectResourceConsumption.switch,
      ObjectResourceConsumption.empires_sum_fst]
  · intro empire_id
    simp only [ObjectResourceConsumption, ObjectResourceConsumption.switch]
    rfl

/-- Witness of C11: the planet of `sampleWorld`, with the elements of 2 and 4 points on the
queue of its owner, the empire 1, and one of 5 points on the queue of the empire 2. -/
theorem objectResourceConsumption_sums_allocated_pp_witness :
    (ObjectResourceConsumption sampleWorld (some samplePlanet) .RE_INDUSTRY 1).1 = 6 ∧
    (ObjectResourceConsumption sampleWorld (some samplePlanet) .RE_INDUSTRY ALL_EMPIRES).1
      = 11 ∧
    ObjectResourceConsumption sampleWorld (some samplePlanet) .RE_MINERALS 1
      = ObjectResourceConsumption sampleWorld (some samplePlanet) .RE_INDUSTRY 1 :=
  ⟨(objectResourceConsumption_sums_allocated_pp sampleWorld samplePlanet).1 1
      { GetProductionQueue :=
          [{ build_type := .BT_SHIP, name := "SD_SCOUT", location := 1, allocated_pp := 2 },
           { build_type := .BT_BUILDING, name := "BLD_LAB", location := 1,
             allocated_pp := 4 }] }
      (by decide) (by rfl) (by rfl),
   (objectResourceConsumption_sums_allocated_pp sampleWorld samplePlanet).2.1,
   (objectResourceConsumption_sums_allocated_pp sampleWorld samplePlanet).2.2 1⟩

/-- C12. `ObjectResourceConsumption` returns `0.0`, and has read no production queue, no food
allocation and no maintenance cost, for every resource type in each of these cases: the object
is null; the resource type is `INVALID_RESOURCE_TYPE`; a specific empire id is given and no
empire has that id; a specific empire id is given and that empire does not own the object. -/
theorem objectResourceConsumption_zero_without_reads [Zero Dbl] [Add Dbl] (W : World Dbl)
    (obj : Option (UniverseObject Dbl)) (resource_type : ResourceType) (empire_id : Int) :
    (obj = none → ObjectResourceConsumption W obj resource_type empire_id = (0, [])) ∧
    (resource_type = .INVALID_RESOURCE_TYPE →
      ObjectResourceConsumption W obj resource_type empire_id = (0, [])) ∧
    (empire_id ≠ ALL_EMPIRES → W.Empires_Lookup empire_id = none →
      ObjectResourceConsumption W obj resource_type empire_id = (0, [])) ∧
    (empire_id ≠ ALL_EMPIRES → (∀ o, obj = some o → o.OwnedBy empire_id = false) →
      ObjectResourceConsumption W obj resource_type empire_id = (0, [])) := by
  refine ⟨?_, ?_, ?_, ?_⟩
  · intro h
    subst h
    rfl
  · intro h
    subst h
    cases obj <;> simp [ObjectResourceConsumption]
  · intro hid hlookup
    cases obj with
    | none => rfl
    | some o => simp [ObjectResourceConsumption, hid, hlookup]
  · intro hid howned
    cases obj with
    | none => rfl
    | some o =>
      have ho := howned o rfl
      unfold ObjectResourceConsumption
      simp only [hid, ne_eq, not_false_eq_true, if_true, ho, Bool.not_false]
      split
      · rfl
      · split <;> rfl

/-- Witness of C12: in `sampleWorld`, a null object; the planet with the invalid resource
type; the planet and the empire 5, which does not exist; the planet and the empire 2, which
does not own it. -/
theorem objectResourceConsumption_zero_without_reads_witness :
    ObjectResourceConsumption sampleWorld none .RE_INDUSTRY 1 = (0, []) ∧
    ObjectResourceConsumption sampleWorld (some samplePlanet) .INVALID_RESOURCE_TYPE 1
      = (0, []) ∧
    ObjectResourceConsumption sampleWorld (some samplePlanet) .RE_INDUSTRY 5 = (0, []) ∧
    ObjectResourceConsumption sampleWorld (some samplePlanet) .RE_FOOD 2 = (0, []) :=
  ⟨(objectResourceConsumption_zero_without_reads sampleWorld none .RE_INDUSTRY 1).1 rfl,
   (objectResourceConsumption_zero_without_reads sampleWorld (some samplePlanet)
      .INVALID_RESOURCE_TYPE 1).2.1 rfl,
   (objectResourceConsumption_zero_without_reads sampleWorld (some samplePlanet)
      .RE_INDUSTRY 5).2.2.1 (by decide) (by rfl),
   (objectResourceConsumption_zero_without_reads sampleWorld (some samplePlanet)
      .RE_FOOD 2).2.2.2 (by decide) (by
        intro o ho
        cases ho
        rfl)⟩

/-- The reads of `ObjectResourceConsumption` in `sampleWorld` when it does compute a
consumption: the queue of the empire asked for, the queues of all empires, the food
allocation of the planet, the maintenance cost of the building. -/
theorem objectResourceConsumption_sample_reads :
    ObjectResourceConsumption sampleWorld (some samplePlanet) .RE_MINERALS 1
      = (6, [Read.GetProductionQueue 1]) ∧
    ObjectResourceConsumption sampleWorld (some samplePlanet) .RE_MINERALS ALL_EMPIRES
      = (11, [Read.GetProductionQueue 1, Read.GetProductionQueue 2]) ∧
    ObjectResourceConsumption sampleWorld (some samplePlanet) .RE_FOOD 1
      = (4, [Read.AllocatedFood]) ∧
    ObjectResourceConsumption sampleWorld (some sampleBuilding) .RE_TRADE 1
      = (2, [Read.MaintenanceCost]) ∧
    ObjectResourceConsumption sampleWorld (some samplePlanet) .RE_RESEARCH 1 = (0, []) :=
  ⟨by rfl, by rfl, by rfl, by rfl, by rfl⟩

end consumption_theorems

section layout_theorems

variable {Dbl : Type}

/-! ### ResourcePanel::Update and the focus drop-down lists -/

/-- C13. After `ResourcePanel::Update` has returned, the panel's object is resolved, and the
primary and the secondary focus drop-down are both enabled if the owner set of the object is
non-empty and contains the id of the client's empire, and both disabled in every other case. -/
theorem resourcePanel_update_enables_focus_drops_iff_owned [Zero Dbl] [Add Dbl]
    (W : World Dbl) (self updated : ResourcePanel Dbl)
    (h : ResourcePanel.Update W self = .ok updated) :
    ∃ obj, W.GetUniverse.Object self.m_rescenter_id = some obj ∧
      ((obj.Owners ≠ [] ∧ W.EmpireID ∈ obj.Owners) →
        updated.m_primary_focus_drop.disabled = false ∧
        updated.m_secondary_focus_drop.disabled = false) ∧
      (¬ (obj.Owners ≠ [] ∧ W.EmpireID ∈ obj.Owners) →
        updated.m_primary_focus_drop.disabled = true ∧
        updated.m_secondary_focus_drop.disabled = true) := by
  unfold ResourcePanel.Update at h
  obtain ⟨res, _, h1⟩ := Result.bind_eq_ok _ _ _ h
  cases hobj : W.GetUniverse.Object self.m_rescenter_id with
  | none => simp [hobj] at h1
  | some obj =>
    simp only [hobj] at h1
    obtain ⟨bar, _, h2⟩ := Result.bind_eq_ok _ _ _ h1
    obtain ⟨indicator, _, h3⟩ := Result.bind_eq_ok _ _ _ h2
    simp only [Result.ok.injEq] at h3
    refine ⟨obj, rfl, ?_, ?_⟩
    · rintro ⟨hne, hmem⟩
      have hown : obj.OwnedBy W.EmpireID = true := by
        simpa [UniverseObject.OwnedBy] using hmem
      have hemp : obj.Owners.isEmpty = false := by
        cases ho : obj.Owners with
        | nil => exact absurd ho hne
        | cons a l => rfl
      rw [← h3]
      simp [hown, hemp]
    · intro hnot
      have hdis : (!obj.Owners.isEmpty && obj.OwnedBy W.EmpireID) = false := by
        cases ho : obj.Owners with
        | nil => rfl
        | cons a l =>
          have hmem : W.EmpireID ∉ obj.Owners := fun hm => hnot ⟨by simp [ho], hm⟩
          have : obj.OwnedBy W.EmpireID = false := by
            simpa [UniverseObject.OwnedBy] using hmem
          rw [← ho, this]
          simp
      rw [← h3]
      simp [hdis]

/-- Witness of C13: in `sampleWorld` the client's empire 1 owns the planet of
`sampleResourcePanel`, and both drop-down lists are enabled after `Update`; in `busyWorld` the
planet of `busyResourcePanel` is owned by the empire 2 only, and both are disabled. -/
theorem resourcePanel_update_enables_focus_drops_iff_owned_witness :
    (∃ updated, ResourcePanel.Update sampleWorld sampleResourcePanel = .ok updated ∧
      updated.m_primary_focus_drop.disabled = false ∧
      updated.m_secondary_focus_drop.disabled = false) ∧
    (∃ updated, ResourcePanel.Update busyWorld (busyResourcePanel 200) = .ok updated ∧
      updated.m_primary_focus_drop.disabled = true ∧
      updated.m_secondary_focus_drop.disabled = true) := by
  constructor
  · refine ⟨_, rfl, ?_⟩
    obtain ⟨obj, hobj, hown, _⟩ :=
      resourcePanel_update_enables_focus_drops_iff_owned sampleWorld sampleResourcePanel _ rfl
    have e : some samplePlanet = some obj := hobj
    cases e
    exact hown ⟨by decide, by decide⟩
  · refine ⟨_, rfl, ?_⟩
    obtain ⟨obj, hobj, _, hforeign⟩ :=
      resourcePanel_update_enables_focus_drops_iff_owned busyWorld (busyResourcePanel 200) _ rfl
    have e : some busyPlanet = some obj := hobj
    cases e
    exact hforeign (by decide)

/-! ### The statistic icons of the collapsed panels -/

theorem stat_icons_attach_loop_fits {α : Type} (icon_width Width B : Int)
    (hiw : 0 ≤ icon_width) :
    ∀ (icons : List α) (n : Int),
      ∀ a ∈ stat_icons_attach_loop icon_width Width B icons n,
        a.2 + icon_width ≤ Width - B := by
  have h5 : Int.tdiv (icon_width * 5) 2 = icon_width * 5 / 2 :=
    Int.tdiv_eq_ediv (by omega) (by omega)
  intro icons
  induction icons with
  | nil => intro n a ha; simp [stat_icons_attach_loop] at ha
  | cons icon rest ih =>
    intro n a ha
    unfold stat_icons_attach_loop at ha
    simp only at ha
    split at ha
    · simp at ha
    · rename_i hfit
      rcases List.mem_cons.1 ha with rfl | hmem
      · simp only
        rw [h5] at hfit
        omega
      · exact ih _ a hmem

theorem stat_icons_attach_loop_get {α : Type} (icon_width Width B : Int) :
    ∀ (icons : List α) (n : Int) (i : Nat) (a : α × Int),
      (stat_icons_attach_loop icon_width Width B icons n)[i]? = some a →
      a.2 = Int.tdiv (icon_width * (n + i) * 7) 2 ∧ icons[i]? = some a.1 := by
  intro icons
  induction icons with
  | nil => intro n i a ha; simp [stat_icons_attach_loop] at ha
  | cons icon rest ih =>
    intro n i a ha
    unfold stat_icons_attach_loop at ha
    simp only at ha
    split at ha
    · simp at ha
    · cases i with
      | zero =>
        simp only [List.getElem?_cons_zero, Option.some.injEq] at ha
        subst ha
        simp
      | succ j =>
        simp only [List.getElem?_cons_succ] at ha
        obtain ⟨h1, h2⟩ := ih _ j a ha
        refine ⟨?_, by simpa using h2⟩
        rw [h1]
        push_cast
        ring_nf

theorem stat_icons_attach_loop_prefix {α : Type} (icon_width Width B : Int) :
    ∀ (icons : List α) (n : Int),
      (stat_icons_attach_loop icon_width Width B icons n).map Prod.fst <+: icons := by
  intro icons
  induction icons with
  | nil => intro n; simp [stat_icons_attach_loop]
  | cons icon rest ih =>
    intro n
    unfold stat_icons_attach_loop
    simp only
    split
    · simp
    · simp only [List.map_cons]
      exact (List.cons_prefix_cons).2 ⟨rfl, ih _⟩

theorem stat_icons_attach_loop_first_fails {α : Type} (icon_width Width B : Int)
    (icons : List α) (h : 0 > Width - B - Int.tdiv (icon_width * 5) 2) :
    stat_icons_attach_loop icon_width Width B icons 0 = [] := by
  cases icons with
  | nil => rfl
  | cons icon rest =>
    unfold stat_icons_attach_loop
    simp only [mul_zero, zero_mul, Int.zero_tdiv]
    rw [if_pos h]

theorem stat_icons_attach_loop_left_to_right {α : Type} (icon_width Width B : Int)
    (hiw : 0 < icon_width) :
    ∀ (icons : List α) (n : Int), 0 ≤ n →
      (stat_icons_attach_loop icon_width Width B icons n).Pairwise (fun a b => a.2 < b.2) ∧
      ∀ a ∈ stat_icons_attach_loop icon_width Width B icons n,
        Int.tdiv (icon_width * n * 7) 2 ≤ a.2 := by
  intro icons
  induction icons with
  | nil => intro n _; simp [stat_icons_attach_loop]
  | cons icon rest ih =>
    intro n hn
    unfold stat_icons_attach_loop
    simp only
    split
    · simp
    · obtain ⟨hp, hge⟩ := ih (n + 1) (by omega)
      have hm : 0 ≤ icon_width * n := mul_nonneg (le_of_lt hiw) hn
      have e1 : Int.tdiv (icon_width * n * 7) 2 = icon_width * n * 7 / 2 :=
        Int.tdiv_eq_ediv (by omega) (by omega)
      have e2 : Int.tdiv (icon_width * (n + 1) * 7) 2 = (icon_width * n + icon_width) * 7 / 2 := by
        rw [Int.tdiv_eq_ediv (by nlinarith) (by omega)]
        ring_nf
      rw [e2] at hge
      rw [e1]
      refine ⟨List.pairwise_cons.2 ⟨fun b hb => ?_, hp⟩, fun a ha => ?_⟩
      · have := hge b hb
        simp only
        omega
      · rcases List.mem_cons.1 ha with rfl | hmem
        · exact le_refl _
        · have := hge a hmem
          omega

theorem ResourcePanel.DoExpandCollapseLayout_attached [LT Dbl]
    [DecidableRel ((· < ·) : Dbl → Dbl → Prop)] (W : World Dbl) (S : Statics)
    (self panel : ResourcePanel Dbl) (h : (self.DoExpandCollapseLayout W S).1 = .ok panel) :
    panel.Width = self.Width ∧ panel.m_expand_button_Width = self.m_expand_button_Width ∧
    (panel.expanded_layout = true → panel.attached_stat_icons = []) ∧
    (panel.expanded_layout = false →
      ∃ res, self.GetResourceCenter W = .ok res ∧
        panel.attached_stat_icons =
          stat_icons_attach_loop (Int.tdiv (W.Pts * 4) 3) self.Width self.m_expand_button_Width
            ((ResourcePanel.res_prod_icon_map res).reverse.map fun entry => entry.2) 0) := by
  unfold ResourcePanel.DoExpandCollapseLayout at h
  simp only at h
  split at h
  · rename_i hflag
    cases hres : ResourcePanel.GetResourceCenter W self with
    | ok res =>
      simp only [hres, Result.bind_statics, Result.ok.injEq] at h
      subst h
      refine ⟨rfl, rfl, ?_, ?_⟩
      · intro hc
        simp only at hc
        simp [hc] at hflag
      · intro _
        exact ⟨res, rfl, rfl⟩
    | threw e => simp [hres, Result.bind_statics] at h
    | null_dereference => simp [hres, Result.bind_statics] at h
    | assertion_failed => simp [hres, Result.bind_statics] at h
  · rename_i hflag
    simp only [Result.ok.injEq] at h
    subst h
    refine ⟨rfl, rfl, fun _ => rfl, ?_⟩
    intro hc
    simp only at hc
    simp [hc] at hflag

theorem multimap_insert_perm {α : Type} [LT Dbl] [DecidableRel ((· < ·) : Dbl → Dbl → Prop)]
    (value : Dbl × α) :
    ∀ l : List (Dbl × α), (multimap_insert value l).Perm (value :: l) := by
  intro l
  induction l with
  | nil => exact List.Perm.refl _
  | cons head rest ih =>
    unfold multimap_insert
    split
    · exact List.Perm.refl _
    · exact (List.Perm.cons head ih).trans (List.Perm.swap value head rest)

theorem multimap_insert_sorted {α : Type} [LinearOrder Dbl] (value : Dbl × α) :
    ∀ l : List (Dbl × α), l.Pairwise (fun a b => a.1 ≤ b.1) →
      (multimap_insert value l).Pairwise (fun a b => a.1 ≤ b.1) := by
  intro l
  induction l with
  | nil => intro _; simp [multimap_insert]
  | cons head rest ih =>
    intro h
    obtain ⟨hhead, hrest⟩ := List.pairwise_cons.1 h
    unfold multimap_insert
    split
    · rename_i hlt
      refine List.pairwise_cons.2 ⟨fun b hb => ?_, h⟩
      rcases List.mem_cons.1 hb with rfl | hmem
      · exact le_of_lt hlt
      · exact le_trans (le_of_lt hlt) (hhead b hmem)
    · rename_i hnlt
      refine List.pairwise_cons.2 ⟨fun b hb => ?_, ih hrest⟩
      rcases List.mem_cons.1 ((multimap_insert_perm value rest).mem_iff.1 hb) with rfl | hmem
      · exact not_lt.1 hnlt
      · exact hhead b hmem

theorem ResourcePanel.res_prod_icon_map_spec [LinearOrder Dbl] (res : UniverseObject Dbl) :
    (ResourcePanel.res_prod_icon_map res).Pairwise (fun a b => a.1 ≤ b.1) ∧
    (∀ entry ∈ ResourcePanel.res_prod_icon_map res,
      entry.1 = res.ProjectedMeterPoints entry.2.meter_type) ∧
    ∀ icon : ResourceStatIcon,
      icon ∈ (ResourcePanel.res_prod_icon_map res).map fun entry => entry.2 := by
  have hperm : (ResourcePanel.res_prod_icon_map res).Perm
      [(res.ProjectedMeterPoints .METER_TRADE, .m_trade_stat),
       (res.ProjectedMeterPoints .METER_RESEARCH, .m_research_stat),
       (res.ProjectedMeterPoints .METER_INDUSTRY, .m_industry_stat),
       (res.ProjectedMeterPoints .METER_MINING, .m_mining_stat),
       (res.ProjectedMeterPoints .METER_FARMING, .m_farming_stat)] := by
    unfold ResourcePanel.res_prod_icon_map
    refine (multimap_insert_perm _ _).trans (List.Perm.cons _ ?_)
    refine (multimap_insert_perm _ _).trans (List.Perm.cons _ ?_)
    refine (multimap_insert_perm _ _).trans (List.Perm.cons _ ?_)
    refine (multimap_insert_perm _ _).trans (List.Perm.cons _ ?_)
    exact multimap_insert_perm _ _
  refine ⟨?_, ?_, ?_⟩
  · unfold ResourcePanel.res_prod_icon_map
    exact multimap_insert_sorted _ _ (multimap_insert_sorted _ _ (multimap_insert_sorted _ _
      (multimap_insert_sorted _ _ (multimap_insert_sorted _ _ List.Pairwise.nil))))
  · intro entry hmem
    have := hperm.mem_iff.1 hmem
    simp only [List.mem_cons, List.mem_singleton, List.not_mem_nil, or_false] at this
    rcases this with rfl | rfl | rfl | rfl | rfl <;> rfl
  · intro icon
    rw [List.mem_map]
    refine ⟨(res.ProjectedMeterPoints icon.meter_type, icon), hperm.mem_iff.2 ?_, rfl⟩
    cases icon <;> simp [ResourceStatIcon.meter_type]

/-- C14, the code on concrete inputs. With the font size 12 (icons 16 wide) and a button 16
wide, the collapsed layout of a resource panel 400 wide over `busyPlanet` attaches all five
statistic icons, and that of a panel 50 wide attaches none. -/
theorem resourcePanel_collapsed_attaches_every_icon_that_fits :
    (∃ panel,
      ((busyResourcePanel 400).DoExpandCollapseLayout busyWorld noPanels).1 = .ok panel ∧
      panel.expanded_layout = false ∧
      panel.attached_stat_icons =
        [(.m_farming_stat, 0), (.m_industry_stat, 56), (.m_trade_stat, 112),
         (.m_research_stat, 168), (.m_mining_stat, 224)]) ∧
    (∃ panel,
      ((busyResourcePanel 50).DoExpandCollapseLayout busyWorld noPanels).1 = .ok panel ∧
      panel.expanded_layout = false ∧
      panel.attached_stat_icons = []) :=
  ⟨⟨_, rfl, rfl, rfl⟩, ⟨_, rfl, rfl, rfl⟩⟩

/-- C15. When a `ResourcePanel` has been laid out collapsed, the projected productions being
linearly ordered: the attached statistic icons, in the order they were attached, are in
non-increasing order of projected production; with a positive font size they are placed left
to right in that order (their `x` increases); and every attached icon's projected production
is greater than or equal to that of every icon that is not attached. -/
theorem collapsed_resource_icons_in_production_order [LinearOrder Dbl] (W : World Dbl)
    (S : Statics) (self panel : ResourcePanel Dbl)
    (h : (self.DoExpandCollapseLayout W S).1 = .ok panel)
    (hc : panel.expanded_layout = false) :
    ∃ res, self.GetResourceCenter W = .ok res ∧
      panel.attached_stat_icons.Pairwise (fun a b =>
        res.ProjectedMeterPoints b.1.meter_type ≤ res.ProjectedMeterPoints a.1.meter_type) ∧
      (0 < W.Pts → panel.attached_stat_icons.Pairwise (fun a b => a.2 < b.2)) ∧
      ∀ a ∈ panel.attached_stat_icons, ∀ d : ResourceStatIcon,
        d ∉ panel.attached_stat_icons.map Prod.fst →
        res.ProjectedMeterPoints d.meter_type ≤ res.ProjectedMeterPoints a.1.meter_type := by
  obtain ⟨_, _, _, hcol⟩ := ResourcePanel.DoExpandCollapseLayout_attached W S self panel h
  obtain ⟨res, hres, hatt⟩ := hcol hc
  obtain ⟨hsorted, hkey, hall⟩ := ResourcePanel.res_prod_icon_map_spec res
  refine ⟨res, hres, ?_⟩
  -- the icons in the order of the iteration, by falling production
  have hdesc : (((ResourcePanel.res_prod_icon_map res).reverse.map fun entry => entry.2)).Pairwise
      (fun i j => res.ProjectedMeterPoints j.meter_type
        ≤ res.ProjectedMeterPoints i.meter_type) := by
    rw [List.pairwise_map, List.pairwise_reverse]
    refine hsorted.imp_of_mem ?_
    intro a b ha hb hab
    rw [← hkey a ha, ← hkey b hb]
    exact hab
  obtain ⟨rest, hrest⟩ := stat_icons_attach_loop_prefix (Int.tdiv (W.Pts * 4) 3) self.Width
    self.m_expand_button_Width
    ((ResourcePanel.res_prod_icon_map res).reverse.map fun entry => entry.2) 0
  rw [← hatt] at hrest
  rw [← hrest] at hdesc
  obtain ⟨hpre, _, hcross⟩ := List.pairwise_append.1 hdesc
  refine ⟨List.pairwise_map.1 hpre, ?_, ?_⟩
  · intro hpts
    have hiw : 0 < Int.tdiv (W.Pts * 4) 3 := by
      rw [Int.tdiv_eq_ediv (by omega) (by omega)]
      omega
    have hx := (stat_icons_attach_loop_left_to_right (Int.tdiv (W.Pts * 4) 3) self.Width
      self.m_expand_button_Width hiw
      ((ResourcePanel.res_prod_icon_map res).reverse.map fun entry => entry.2) 0 (le_refl _)).1
    rw [← hatt] at hx
    exact hx
  · intro a ha d hd
    have hdmem : d ∈ List.map Prod.fst panel.attached_stat_icons ++ rest := by
      rw [hrest, List.map_reverse, List.mem_reverse]
      exact hall d
    rcases List.mem_append.1 hdmem with h1 | h2
    · exact absurd h1 hd
    · exact hcross a.1 (List.mem_map_of_mem _ ha) d h2

/-- Witness of C15: the collapsed layout of a resource panel 200 wide over `busyPlanet`, whose
productions are 5, 1, 4, 2, 3, attaches the icons of farming, industry and trade at 0, 56 and
112. -/
theorem collapsed_resource_icons_in_production_order_witness :
    ∃ panel,
      ((busyResourcePanel 200).DoExpandCollapseLayout busyWorld noPanels).1 = .ok panel ∧
      panel.attached_stat_icons
        = [(.m_farming_stat, 0), (.m_industry_stat, 56), (.m_trade_stat, 112)] ∧
      ∃ res, (busyResourcePanel 200).GetResourceCenter busyWorld = .ok res ∧
        panel.attached_stat_icons.Pairwise (fun a b =>
          res.ProjectedMeterPoints b.1.meter_type ≤ res.ProjectedMeterPoints a.1.meter_type) ∧
        panel.attached_stat_icons.Pairwise (fun a b => a.2 < b.2) ∧
        ∀ a ∈ panel.attached_stat_icons, ∀ d : ResourceStatIcon,
          d ∉ panel.attached_stat_icons.map Prod.fst →
          res.ProjectedMeterPoints d.meter_type ≤ res.ProjectedMeterPoints a.1.meter_type := by
  obtain ⟨res, hres, hord, hx, htop⟩ :=
    collapsed_resource_icons_in_production_order busyWorld noPanels (busyResourcePanel 200) _
      rfl rfl
  exact ⟨_, rfl, rfl, res, hres, hord, hx (by decide), htop⟩

/-- C16. In the collapsed layout of `ResourcePanel` and of `MilitaryPanel`, with the icon
width `iw = Pts*4/3` not negative, the `n`-th attached statistic icon (from 0) is at
`x = iw*n*7/2` and does not extend past the right edge of the panel less the expand button:
`x + iw ≤ Width - m_expand_button->Width()`. If the first icon fails the fit test, that is
`0 > Width - m_expand_button->Width() - iw*5/2`, no icon is attached. (In the expanded layout
no statistic icon is attached, so the statement holds after every layout.) -/
theorem collapsed_stat_icons_fit_in_panel [LT Dbl]
    [DecidableRel ((· < ·) : Dbl → Dbl → Prop)] (W : World Dbl) (S : Statics)
    (res : ResourcePanel Dbl) (mil : MilitaryPanel Dbl)
    (hiw : 0 ≤ Int.tdiv (W.Pts * 4) 3) :
    (∀ panel, (res.DoExpandCollapseLayout W S).1 = .ok panel →
      (∀ (n : Nat) (a : ResourceStatIcon × Int), panel.attached_stat_icons[n]? = some a →
        a.2 = Int.tdiv (Int.tdiv (W.Pts * 4) 3 * n * 7) 2 ∧
        a.2 + Int.tdiv (W.Pts * 4) 3 ≤ panel.Width - panel.m_expand_button_Width) ∧
      (0 > panel.Width - panel.m_expand_button_Width - Int.tdiv (Int.tdiv (W.Pts * 4) 3 * 5) 2 →
        panel.attached_stat_icons = [])) ∧
    ((∀ (n : Nat) (a : MilitaryStatIcon × Int),
        (mil.DoExpandCollapseLayout W S).1.attached_stat_icons[n]? = some a →
        a.2 = Int.tdiv (Int.tdiv (W.Pts * 4) 3 * n * 7) 2 ∧
        a.2 + Int.tdiv (W.Pts * 4) 3
          ≤ (mil.DoExpandCollapseLayout W S).1.Width
            - (mil.DoExpandCollapseLayout W S).1.m_expand_button_Width) ∧
      (0 > (mil.DoExpandCollapseLayout W S).1.Width
            - (mil.DoExpandCollapseLayout W S).1.m_expand_button_Width
            - Int.tdiv (Int.tdiv (W.Pts * 4) 3 * 5) 2 →
        (mil.DoExpandCollapseLayout W S).1.attached_stat_icons = [])) := by
  refine ⟨?_, ?_, ?_⟩
  · intro panel h
    obtain ⟨hw, hb, hexp, hcol⟩ := ResourcePanel.DoExpandCollapseLayout_attached W S res panel h
    rw [hw, hb]
    cases hflag : panel.expanded_layout with
    | true =>
      rw [hexp hflag]
      exact ⟨fun n a ha => by simp at ha, fun _ => rfl⟩
    | false =>
      obtain ⟨r, _, hatt⟩ := hcol hflag
      rw [hatt]
      refine ⟨fun n a ha => ⟨?_, ?_⟩, fun hfail => ?_⟩
      · have := (stat_icons_attach_loop_get _ _ _ _ _ n a ha).1
        simpa using this
      · exact stat_icons_attach_loop_fits _ _ _ hiw _ _ a (List.getElem?_mem ha)
      · exact stat_icons_attach_loop_first_fails _ _ _ _ hfail
  · intro n a ha
    simp only [MilitaryPanel.DoExpandCollapseLayout] at ha ⊢
    split at ha
    · refine ⟨?_, ?_⟩
      · have := (stat_icons_attach_loop_get _ _ _ _ _ n a ha).1
        simpa using this
      · exact stat_icons_attach_loop_fits _ _ _ hiw _ _ a (List.getElem?_mem ha)
    · simp at ha
  · intro hfail
    simp only [MilitaryPanel.DoExpandCollapseLayout] at hfail ⊢
    split
    · exact stat_icons_attach_loop_first_fails _ _ _ _ hfail
    · rfl

/-- Witness of C16: in `busyWorld`, with icons 16 wide, the third icon of the collapsed
resource panel over `busyPlanet` and of the collapsed military panel, both 200 wide, is at 112
and ends left of 200 - 16. -/
theorem collapsed_stat_icons_fit_in_panel_witness :
    0 ≤ Int.tdiv (busyWorld.Pts * 4) 3 ∧
    (∃ panel,
      ((busyResourcePanel 200).DoExpandCollapseLayout busyWorld noPanels).1 = .ok panel ∧
      panel.attached_stat_icons[2]? = some (.m_trade_stat, 112) ∧
      (112 : Int) + Int.tdiv (busyWorld.Pts * 4) 3
        ≤ panel.Width - panel.m_expand_button_Width) ∧
    (sampleMilitaryPanel.DoExpandCollapseLayout busyWorld noPanels).1.attached_stat_icons[2]?
      = some (.m_defense_stat, 112) ∧
    (112 : Int) + Int.tdiv (busyWorld.Pts * 4) 3
      ≤ (sampleMilitaryPanel.DoExpandCollapseLayout busyWorld noPanels).1.Width
        - (sampleMilitaryPanel.DoExpandCollapseLayout busyWorld
            noPanels).1.m_expand_button_Width :=
  ⟨by decide,
   ⟨_, rfl, rfl,
    (((collapsed_stat_icons_fit_in_panel busyWorld noPanels (busyResourcePanel 200)
      sampleMilitaryPanel (by decide)).1 _ rfl).1 2 (.m_trade_stat, 112) rfl).2⟩,
   rfl,
   ((collapsed_stat_icons_fit_in_panel busyWorld noPanels (busyResourcePanel 200)
      sampleMilitaryPanel (by decide)).2.1 2 (.m_defense_stat, 112) rfl).2⟩

/-! ### The layout of BuildingsPanel -/

theorem int32_eq_self (z : Int) (hmin : INT_MIN ≤ z) (hmax : z ≤ INT_MAX) : int32 z = z := by
  unfold INT_MIN at hmin
  unfold INT_MAX at hmax
  unfold int32
  omega

/-- A value `5 + a*k` lies between `5` and `5 + a*m` when `0 ≤ k ≤ m`, so it is an `int` when
`5 + a*m` is. -/
theorem int_fits_between (a k m : Int) (h0 : 0 ≤ k) (hk : k ≤ m)
    (hmin : INT_MIN ≤ 5 + a * m) (hmax : 5 + a * m ≤ INT_MAX) :
    INT_MIN ≤ 5 + a * k ∧ 5 + a * k ≤ INT_MAX := by
  unfold INT_MIN at hmin ⊢
  unfold INT_MAX at hmax ⊢
  rcases le_total 0 a with ha | ha
  · have h1 : 0 ≤ a * k := mul_nonneg ha h0
    have h2 : a * k ≤ a * m := mul_le_mul_of_nonneg_left hk ha
    constructor <;> linarith
  · have h1 : a * k ≤ 0 := mul_nonpos_of_nonpos_of_nonneg ha h0
    have h2 : a * m ≤ a * k := mul_le_mul_of_nonpos_left hk ha
    constructor <;> linarith

theorem BuildingsPanel.expanded_loop_spec (padding size c : Int) (hc : 1 ≤ c) :
    ∀ (inds : List BuildingIndicator) (row column k : Int), 0 ≤ column → column < c →
      row * c + column = k →
      (∀ (i : Nat) (ind : BuildingIndicator), inds[i]? = some ind →
        (BuildingsPanel.expanded_loop padding size c inds row column).1[i]? = some
          { ind with
            UpperLeft :=
              (int32 (padding * ((k + i) % c + 1) + size * ((k + i) % c)),
               int32 (padding * ((k + i) / c + 1) + size * ((k + i) / c))),
            Width := size, Height := size, attached := true }) ∧
      (BuildingsPanel.expanded_loop padding size c inds row column).1.length = inds.length ∧
      0 ≤ (BuildingsPanel.expanded_loop padding size c inds row column).2.2 ∧
      (BuildingsPanel.expanded_loop padding size c inds row column).2.2 < c ∧
      (BuildingsPanel.expanded_loop padding size c inds row column).2.1 * c
        + (BuildingsPanel.expanded_loop padding size c inds row column).2.2
        = k + inds.length := by
  intro inds
  induction inds with
  | nil =>
    intro row column k h0 h1 hk
    simp [BuildingsPanel.expanded_loop, h0, h1, hk]
  | cons ind rest ih =>
    intro row column k h0 h1 hk
    have hdm : k / c = row ∧ k % c = column :=
      (Int.ediv_emod_unique (by omega)).2 ⟨by rw [← hk]; ring, h0, h1⟩
    have hnext : ∃ row2 column2 : Int,
        0 ≤ column2 ∧ column2 < c ∧ row2 * c + column2 = k + 1 ∧
        BuildingsPanel.expanded_loop padding size c (ind :: rest) row column
          = ({ ind with
                UpperLeft :=
                  (int32 (padding * (column + 1) + size * column),
                   int32 (padding * (row + 1) + size * row)),
                Width := size, Height := size, attached := true } ::
              (BuildingsPanel.expanded_loop padding size c rest row2 column2).1,
             (BuildingsPanel.expanded_loop padding size c rest row2 column2).2) := by
      by_cases hwrap : column + 1 ≥ c
      · refine ⟨row + 1, 0, le_refl _, by omega, ?_, ?_⟩
        · have : column = c - 1 := by omega
          rw [← hk, this]; ring
        · simp [BuildingsPanel.expanded_loop, hwrap]
      · refine ⟨row, column + 1, by omega, by omega, by rw [← hk]; ring, ?_⟩
        simp [BuildingsPanel.expanded_loop, hwrap]
    obtain ⟨row2, column2, h0', h1', hk', heq⟩ := hnext
    obtain ⟨ihget, ihlen, ih0, ih1, ihk⟩ := ih row2 column2 (k + 1) h0' h1' hk'
    rw [heq]
    refine ⟨?_, ?_, ih0, ih1, ?_⟩
    · intro i x hx
      cases i with
      | zero =>
        simp only [List.getElem?_cons_zero, Option.some.injEq] at hx
        subst hx
        simp [hdm.1, hdm.2]
      | succ j =>
        simp only [List.getElem?_cons_succ] at hx ⊢
        rw [ihget j x hx]
        have : k + 1 + (j : Int) = k + ((j + 1 : Nat) : Int) := by push_cast; ring
        rw [this]
    · simp [ihlen]
    · rw [ihk]
      simp only [List.length_cons]
      push_cast
      ring

theorem BuildingsPanel.collapsed_loop_length (icon_width icon_height w B : Int) :
    ∀ (inds : List BuildingIndicator) (n : Int),
      (BuildingsPanel.collapsed_loop icon_width icon_height w B inds n).length = inds.length := by
  intro inds
  induction inds with
  | nil => intro n; rfl
  | cons ind rest ih => intro n; simp [BuildingsPanel.collapsed_loop, ih]

theorem BuildingsPanel.expanded_loop_length (padding size c : Int) :
    ∀ (inds : List BuildingIndicator) (row column : Int),
      (BuildingsPanel.expanded_loop padding size c inds row column).1.length = inds.length := by
  intro inds
  induction inds with
  | nil => intro row column; rfl
  | cons ind rest ih =>
    intro row column
    simp only [BuildingsPanel.expanded_loop, List.length_cons]
    split <;> rw [ih]

/-- The counterexample to C17 as stated: an expanded panel with `n = 2` indicators and `c = 1`
column that is 2000000000 wide, with the font size 12. The side of an indicator is 1999999990,
two rows hold an indicator (`R = 2`), and `5*(R+1) + R*size` is 3999999995, which is no
`int`: the height computed in `int` is negative and is raised to `icon_height`, 16. -/
theorem huge_buildings_panel_height_overflows :
    panelsExpanded.BuildingsPanel_s_expanded_map hugeBuildingsPanel.m_planet_id = some true ∧
    hugeBuildingsPanel.m_building_indicators.length = 2 ∧
    hugeBuildingsPanel.m_columns = 1 ∧
    Int.tdiv (hugeBuildingsPanel.Width - 5 * (hugeBuildingsPanel.m_columns + 1))
      hugeBuildingsPanel.m_columns = 1999999990 ∧
    max (Int.tdiv (sampleWorld.Pts * 4) 3) (5 * (2 + 1) + 2 * 1999999990) = 3999999995 ∧
    (hugeBuildingsPanel.DoExpandCollapseLayout sampleWorld panelsExpanded).1.Height = 16 :=
  ⟨rfl, rfl, rfl, by decide, by decide, by rfl⟩

/-- C17, as amended. For an expanded `BuildingsPanel` with at least one indicator and `c ≥ 1`
columns, with `size = (Width - 5*(c+1)) / c`, whose layout values are in the range of `int`
(the effective width `Width - 5*(c+1)`, the `x` of the last column `5*c + size*(c-1)` and the
height `5*(R+1) + R*size`): the layout places the indicator `i` (from 0) in the column
`i mod c` and the row `i div c`, at `x = 5*(col+1) + size*col` and `y = 5*(row+1) + size*row`,
makes it `size` by `size` and attaches it; and the height of the panel after the layout is
`max(icon_height, 5*(R+1) + R*size)`, where `R` is the number of rows that hold an indicator,
the least `R` with `n ≤ R*c` for the `n` indicators. -/
theorem buildingsPanel_expanded_grid (W : World Dbl) (S : Statics) (self : BuildingsPanel)
    (hexp : S.BuildingsPanel_s_expanded_map self.m_planet_id = some true)
    (hn : self.m_building_indicators ≠ []) (hc : 1 ≤ self.m_columns)
    (hwidth : INT_MIN ≤ self.Width - 5 * (self.m_columns + 1) ∧
      self.Width - 5 * (self.m_columns + 1) ≤ INT_MAX)
    (hx : INT_MIN ≤ 5 * self.m_columns
        + Int.tdiv (self.Width - 5 * (self.m_columns + 1)) self.m_columns
          * (self.m_columns - 1) ∧
      5 * self.m_columns
        + Int.tdiv (self.Width - 5 * (self.m_columns + 1)) self.m_columns
          * (self.m_columns - 1) ≤ INT_MAX)
    (hheight : ∀ R : Int,
      (R - 1) * self.m_columns < self.m_building_indicators.length →
      (self.m_building_indicators.length : Int) ≤ R * self.m_columns →
      INT_MIN ≤ 5 * (R + 1)
        + R * Int.tdiv (self.Width - 5 * (self.m_columns + 1)) self.m_columns ∧
      5 * (R + 1)
        + R * Int.tdiv (self.Width - 5 * (self.m_columns + 1)) self.m_columns ≤ INT_MAX) :
    (∀ (i : Nat) (ind : BuildingIndicator), self.m_building_indicators[i]? = some ind →
      (self.DoExpandCollapseLayout W S).1.m_building_indicators[i]? = some
        { ind with
          UpperLeft :=
            (5 * ((i : Int) % self.m_columns + 1)
              + Int.tdiv (self.Width - 5 * (self.m_columns + 1)) self.m_columns
                * ((i : Int) % self.m_columns),
             5 * ((i : Int) / self.m_columns + 1)
              + Int.tdiv (self.Width - 5 * (self.m_columns + 1)) self.m_columns
                * ((i : Int) / self.m_columns)),
          Width := Int.tdiv (self.Width - 5 * (self.m_columns + 1)) self.m_columns,
          Height := Int.tdiv (self.Width - 5 * (self.m_columns + 1)) self.m_columns,
          attached := true }) ∧
    (self.DoExpandCollapseLayout W S).1.m_building_indicators.length
      = self.m_building_indicators.length ∧
    ∃ R : Int,
      (R - 1) * self.m_columns < self.m_building_indicators.length ∧
      (self.m_building_indicators.length : Int) ≤ R * self.m_columns ∧
      (self.DoExpandCollapseLayout W S).1.Height
        = max (Int.tdiv (W.Pts * 4) 3)
            (5 * (R + 1)
              + R * Int.tdiv (self.Width - 5 * (self.m_columns + 1)) self.m_columns) := by
  have hew : int32 (self.Width - 5 * (self.m_columns + 1))
      = self.Width - 5 * (self.m_columns + 1) := int32_eq_self _ hwidth.1 hwidth.2
  generalize hsize : Int.tdiv (self.Width - 5 * (self.m_columns + 1)) self.m_columns = size
    at hx hheight ⊢
  obtain ⟨hget, hlen, h0, h1, hk⟩ := BuildingsPanel.expanded_loop_spec 5 size self.m_columns hc
    self.m_building_indicators 0 0 0 (le_refl _) (by omega) (by ring)
  have hflag : (S.BuildingsPanel_s_expanded_map.index self.m_planet_id).1 = true := by
    rw [ExpandedMap.index_fst, hexp]; rfl
  have hempty : self.m_building_indicators.isEmpty = false := by
    cases hl : self.m_building_indicators with
    | nil => exact absurd hl hn
    | cons a l => rfl
  simp only [zero_add] at hget hk
  -- the number of rows that hold an indicator, and the height
  have hrows : ∃ R : Int,
      (R - 1) * self.m_columns < self.m_building_indicators.length ∧
      (self.m_building_indicators.length : Int) ≤ R * self.m_columns ∧
      (self.DoExpandCollapseLayout W S).1.Height
        = max (Int.tdiv (W.Pts * 4) 3) (5 * (R + 1) + R * size) := by
    simp only [BuildingsPanel.DoExpandCollapseLayout, hflag, Bool.not_true, Bool.false_eq_true,
      if_false, hempty, hew, hsize]
    generalize (BuildingsPanel.expanded_loop 5 size self.m_columns
      self.m_building_indicators 0 0).2.1 = row at *
    generalize (BuildingsPanel.expanded_loop 5 size self.m_columns
      self.m_building_indicators 0 0).2.2 = column at *
    by_cases hcol : column = 0
    · have hR1 : (row - 1) * self.m_columns < self.m_building_indicators.length := by
        rw [← hk, hcol]; nlinarith
      have hR2 : (self.m_building_indicators.length : Int) ≤ row * self.m_columns := by
        rw [← hk, hcol]; simp
      obtain ⟨hmin, hmax⟩ := hheight row hR1 hR2
      refine ⟨row, hR1, hR2, ?_⟩
      simp only [hcol, if_true]
      rw [int32_eq_self _ hmin hmax, max_def]
      split <;> split <;> first | rfl | omega
    · have hR1 : (row + 1 - 1) * self.m_columns < self.m_building_indicators.length := by
        rw [← hk]
        have : (row + 1 - 1) * self.m_columns = row * self.m_columns := by ring
        rw [this]; omega
      have hR2 : (self.m_building_indicators.length : Int) ≤ (row + 1) * self.m_columns := by
        rw [← hk]
        have : (row + 1) * self.m_columns = row * self.m_columns + self.m_columns := by ring
        rw [this]; omega
      obtain ⟨hmin, hmax⟩ := hheight (row + 1) hR1 hR2
      refine ⟨row + 1, hR1, hR2, ?_⟩
      simp only [hcol, if_false]
      have e : (5 : Int) * (row + 2) + (row + 1) * size
          = 5 * (row + 1 + 1) + (row + 1) * size := by ring
      rw [e, int32_eq_self _ hmin hmax, max_def]
      split <;> split <;> first | rfl | omega
  obtain ⟨R, hR1, hR2, hH⟩ := hrows
  obtain ⟨hymin, hymax⟩ := hheight R hR1 hR2
  refine ⟨?_, ?_, R, hR1, hR2, hH⟩
  · intro i ind hi
    simp only [BuildingsPanel.DoExpandCollapseLayout, hflag, Bool.not_true, Bool.false_eq_true,
      if_false, hew, hsize]
    rw [hget i ind hi]
    have hilt : (i : Int) < self.m_building_indicators.length := by
      have := (List.getElem?_eq_some_iff.1 hi).1
      exact_mod_cast this
    have hcpos : (0 : Int) < self.m_columns := by omega
    have hcol0 : 0 ≤ (i : Int) % self.m_columns := Int.emod_nonneg _ (by omega)
    have hcol1 : (i : Int) % self.m_columns ≤ self.m_columns - 1 := by
      have := Int.emod_lt_of_pos (i : Int) hcpos
      omega
    have hrow0 : 0 ≤ (i : Int) / self.m_columns :=
      Int.ediv_nonneg (by omega) (by omega)
    have hrow1 : (i : Int) / self.m_columns ≤ R := by
      have : (i : Int) / self.m_columns < R :=
        Int.ediv_lt_of_lt_mul hcpos (lt_of_lt_of_le hilt hR2)
      omega
    have hxfit := int_fits_between (5 + size) ((i : Int) % self.m_columns)
      (self.m_columns - 1) hcol0 hcol1
      (by have e : 5 + (5 + size) * (self.m_columns - 1)
              = 5 * self.m_columns + size * (self.m_columns - 1) := by ring
          rw [e]; exact hx.1)
      (by have e : 5 + (5 + size) * (self.m_columns - 1)
              = 5 * self.m_columns + size * (self.m_columns - 1) := by ring
          rw [e]; exact hx.2)
    have hyfit := int_fits_between (5 + size) ((i : Int) / self.m_columns) R hrow0 hrow1
      (by have e : 5 + (5 + size) * R = 5 * (R + 1) + R * size := by ring
          rw [e]; exact hymin)
      (by have e : 5 + (5 + size) * R = 5 * (R + 1) + R * size := by ring
          rw [e]; exact hymax)
    have ex : (5 : Int) * ((i : Int) % self.m_columns + 1) + size * ((i : Int) % self.m_columns)
        = 5 + (5 + size) * ((i : Int) % self.m_columns) := by ring
    have ey : (5 : Int) * ((i : Int) / self.m_columns + 1) + size * ((i : Int) / self.m_columns)
        = 5 + (5 + size) * ((i : Int) / self.m_columns) := by ring
    rw [ex, ey, int32_eq_self _ hxfit.1 hxfit.2, int32_eq_self _ hyfit.1 hyfit.2]
  · simp only [BuildingsPanel.DoExpandCollapseLayout, hflag, Bool.not_true, Bool.false_eq_true,
      if_false]
    exact BuildingsPanel.expanded_loop_length _ _ _ _ _ _

/-- Witness of C17: `fullBuildingsPanel`, 200 wide with two columns and five indicators, laid
out expanded. The side of an indicator is 92; the last indicator is in the column 0 of the row
2, at (5, 199); three rows hold an indicator and the height is 296. -/
theorem buildingsPanel_expanded_grid_witness :
    (fullBuildingsPanel.DoExpandCollapseLayout sampleWorld
        panelsExpanded).1.m_building_indicators[4]?
      = some
          { building_type := "BLD_OBSERVATORY", progress_queue_index := some 3,
            UpperLeft := (5, 199), Width := 92, Height := 92, attached := true } ∧
    (fullBuildingsPanel.DoExpandCollapseLayout sampleWorld panelsExpanded).1.Height = 296 := by
  obtain ⟨hget, _, R, h1, h2, hH⟩ :=
    buildingsPanel_expanded_grid sampleWorld panelsExpanded fullBuildingsPanel (by rfl)
      (by decide) (by decide) (by decide) (by decide)
      (by
        intro R h1 h2
        have h1' : (R - 1) * 2 < 5 := h1
        have h2' : (5 : Int) ≤ R * 2 := h2
        have hR : R = 3 := by omega
        subst hR
        decide)
  refine ⟨hget 4 _ rfl, ?_⟩
  have h1' : (R - 1) * 2 < 5 := h1
  have h2' : (5 : Int) ≤ R * 2 := h2
  have hR : R = 3 := by omega
  subst hR
  exact hH

/-- C18. A `BuildingsPanel` hides itself when empty. After `DoExpandCollapseLayout`, whatever
the expanded flag, the panel has as many indicators as before; if it has none its height is 0
and the expand button is detached; if it has at least one the expand button is attached and the
height is at least `icon_height`. -/
theorem buildingsPanel_hides_when_empty (W : World Dbl) (S : Statics)
    (self : BuildingsPanel) :
    (self.DoExpandCollapseLayout W S).1.m_building_indicators.length
      = self.m_building_indicators.length ∧
    (self.m_building_indicators = [] →
      (self.DoExpandCollapseLayout W S).1.Height = 0 ∧
      (self.DoExpandCollapseLayout W S).1.m_expand_button_attached = false) ∧
    (self.m_building_indicators ≠ [] →
      (self.DoExpandCollapseLayout W S).1.m_expand_button_attached = true ∧
      Int.tdiv (W.Pts * 4) 3 ≤ (self.DoExpandCollapseLayout W S).1.Height) := by
  refine ⟨?_, ?_, ?_⟩
  · simp only [BuildingsPanel.DoExpandCollapseLayout]
    split
    · exact BuildingsPanel.collapsed_loop_length _ _ _ _ _ _
    · exact BuildingsPanel.expanded_loop_length _ _ _ _ _ _
  · intro h
    simp [BuildingsPanel.DoExpandCollapseLayout, h]
  · intro h
    have hempty : self.m_building_indicators.isEmpty = false := by
      cases hl : self.m_building_indicators with
      | nil => exact absurd hl h
      | cons a l => rfl
    simp only [BuildingsPanel.DoExpandCollapseLayout, hempty, Bool.not_false, Bool.false_eq_true,
      if_false, true_and]
    split <;> simp only <;> split <;> omega

/-- Witness of C18: `sampleBuildingsPanel` with its two indicators, laid out collapsed and
expanded, and the same panel without indicators. -/
theorem buildingsPanel_hides_when_empty_witness :
    ((({ sampleBuildingsPanel with m_building_indicators := [] } :
        BuildingsPanel).DoExpandCollapseLayout sampleWorld noPanels).1.Height = 0 ∧
      (({ sampleBuildingsPanel with m_building_indicators := [] } :
        BuildingsPanel).DoExpandCollapseLayout sampleWorld noPanels).1.m_expand_button_attached
        = false) ∧
    ((sampleBuildingsPanel.DoExpandCollapseLayout sampleWorld noPanels).1.m_expand_button_attached
        = true ∧
      Int.tdiv (sampleWorld.Pts * 4) 3
        ≤ (sampleBuildingsPanel.DoExpandCollapseLayout sampleWorld noPanels).1.Height) ∧
    ((sampleBuildingsPanel.DoExpandCollapseLayout sampleWorld
        panelsExpanded).1.m_expand_button_attached = true ∧
      Int.tdiv (sampleWorld.Pts * 4) 3
        ≤ (sampleBuildingsPanel.DoExpandCollapseLayout sampleWorld panelsExpanded).1.Height) :=
  ⟨(buildingsPanel_hides_when_empty sampleWorld noPanels
      { sampleBuildingsPanel with m_building_indicators := [] }).2.1 rfl,
   (buildingsPanel_hides_when_empty sampleWorld noPanels sampleBuildingsPanel).2.2 (by decide),
   (buildingsPanel_hides_when_empty sampleWorld panelsExpanded sampleBuildingsPanel).2.2
      (by decide)⟩

/-! ### BuildingsPanel::Update -/

theorem BuildingsPanel.Update_buildings_eq (W : World Dbl) (indicator_size : Int)
    (buildings : List Int) :
    BuildingsPanel.Update_buildings W indicator_size buildings
      = buildings.filterMap fun id =>
          (W.GetUniverse.Object_Building id).map fun building =>
            new_BuildingIndicator indicator_size building.BuildingTypeName none := by
  induction buildings with
  | nil => rfl
  | cons id rest ih =>
    unfold BuildingsPanel.Update_buildings
    cases h : W.GetUniverse.Object_Building id with
    | none => simp [List.filterMap_cons, h, ih]
    | some building => simp [List.filterMap_cons, h, ih]

theorem BuildingsPanel.Update_queue_eq (plt_ID : Int) (indicator_size : Int)
    (queue : List (ProductionQueueElement Dbl)) :
    ∀ queue_index : Nat,
      BuildingsPanel.Update_queue plt_ID indicator_size queue queue_index
        = ((queue.enumFrom queue_index).filter fun entry =>
            decide (entry.2.build_type = .BT_BUILDING ∧ entry.2.location = plt_ID)).map
            fun entry => new_BuildingIndicator indicator_size entry.2.name (some entry.1) := by
  induction queue with
  | nil => intro queue_index; rfl
  | cons elem rest ih =>
    intro queue_index
    unfold BuildingsPanel.Update_queue
    by_cases h1 : elem.build_type = .BT_BUILDING
    · by_cases h2 : elem.location = plt_ID
      · simp [List.enumFrom_cons, List.filter_cons, h1, h2, ih]
      · simp [List.enumFrom_cons, List.filter_cons, h1, h2, ih]
    · simp [List.enumFrom_cons, List.filter_cons, h1, ih]

theorem BuildingsPanel.Update_owners_eq (W : World Dbl) (plt_ID : Int) (indicator_size : Int)
    (owners : List Int) :
    BuildingsPanel.Update_owners W plt_ID indicator_size owners
      = owners.flatMap fun owner =>
          match W.Empires_Lookup owner with
          | none => []
          | some empire =>
            (empire.GetProductionQueue.enum.filter fun entry =>
              decide (entry.2.build_type = .BT_BUILDING ∧ entry.2.location = plt_ID)).map
              fun entry => new_BuildingIndicator indicator_size entry.2.name (some entry.1) := by
  induction owners with
  | nil => rfl
  | cons owner rest ih =>
    unfold BuildingsPanel.Update_owners
    rw [List.flatMap_cons, ← ih]
    cases h : W.Empires_Lookup owner with
    | none => simp
    | some empire => simp [BuildingsPanel.Update_queue_eq, List.enum]

/-- C19. `BuildingsPanel::Update` on a panel whose planet id resolves to a planet returns, and
the indicator list after it does not depend on the list before it: it holds one indicator per
building id of the planet that resolves to a `Building`, in the order of the ids, followed, for
each owner of the planet that is a known empire, in the order of the owners, by one in-progress
indicator per element of that empire's production queue whose build type is `BT_BUILDING` and
whose location is the id of the planet. The progress of such an indicator is looked up with the
index of the element in the whole queue. The new indicators are squares of side
`Width / m_columns`. -/
theorem buildingsPanel_update_rebuilds_indicators (W : World Dbl) (self : BuildingsPanel)
    (plt : UniverseObject Dbl)
    (hplt : W.GetUniverse.Object_Planet self.m_planet_id = some plt) :
    ∃ panel, self.Update W = .ok panel ∧
      panel.m_building_indicators =
        (plt.Buildings.filterMap fun id =>
          (W.GetUniverse.Object_Building id).map fun building =>
            new_BuildingIndicator (Int.tdiv self.Width self.m_columns)
              building.BuildingTypeName none)
        ++ plt.Owners.flatMap fun owner =>
          match W.Empires_Lookup owner with
          | none => []
          | some empire =>
            (empire.GetProductionQueue.enum.filter fun entry =>
              decide (entry.2.build_type = .BT_BUILDING ∧ entry.2.location = plt.ID)).map
              fun entry =>
                new_BuildingIndicator (Int.tdiv self.Width self.m_columns) entry.2.name
                  (some entry.1) := by
  have hupd : self.Update W = .ok { self with
      m_building_indicators :=
        BuildingsPanel.Update_buildings W (Int.tdiv self.Width self.m_columns) plt.Buildings ++
          BuildingsPanel.Update_owners W plt.ID (Int.tdiv self.Width self.m_columns)
            plt.Owners } := by
    simp only [BuildingsPanel.Update, hplt]
  refine ⟨_, hupd, ?_⟩
  simp only
  rw [BuildingsPanel.Update_buildings_eq, BuildingsPanel.Update_owners_eq]

/-- Witness of C19: `Update` of `sampleBuildingsPanel` in `sampleWorld`. The planet 1 has the
building 2, a shipyard, and its owner, the empire 1, has a ship at index 0 and a building for
the planet at index 1 of its queue; the queue of the empire 2, which does not own the planet,
is not read. -/
theorem buildingsPanel_update_rebuilds_indicators_witness :
    ∃ panel, sampleBuildingsPanel.Update sampleWorld = .ok panel ∧
      panel.m_building_indicators =
        [new_BuildingIndicator 66 "BLD_SHIPYARD" none,
         new_BuildingIndicator 66 "BLD_LAB" (some 1)] := by
  obtain ⟨panel, h, hl⟩ :=
    buildingsPanel_update_rebuilds_indicators sampleWorld sampleBuildingsPanel samplePlanet rfl
  exact ⟨panel, h, hl.trans (by rfl)⟩

/-! ### The vectors of MultiMeterStatusBar -/

theorem MultiMeterStatusBar.Update_meters_length (m_obj : UniverseObject Dbl) :
    ∀ (meter_types : List MeterType) (meters : List (Meter Dbl)),
      MultiMeterStatusBar.Update_meters m_obj meter_types = .ok meters →
      meters.length = meter_types.length := by
  intro meter_types
  induction meter_types with
  | nil =>
    intro meters h
    simp only [MultiMeterStatusBar.Update_meters, Result.ok.injEq] at h
    subst h
    rfl
  | cons t ts ih =>
    intro meters h
    unfold MultiMeterStatusBar.Update_meters at h
    split at h
    · cases h
    · obtain ⟨ms, hms, hok⟩ := Result.bind_eq_ok _ _ _ h
      simp only [Result.ok.injEq] at hok
      subst hok
      simp [ih ms hms]

theorem MultiMeterStatusBar.Update_bars_length (meters : List (Meter Dbl)) :
    ∀ (meter_types : List MeterType) (self : MultiMeterStatusBar Dbl),
      meters.length = meter_types.length →
      (MultiMeterStatusBar.Update_bars meters meter_types self).m_initial_maxes.length
        = self.m_initial_maxes.length + meters.length ∧
      (MultiMeterStatusBar.Update_bars meters meter_types self).m_initial_currents.length
        = self.m_initial_currents.length + meters.length ∧
      (MultiMeterStatusBar.Update_bars meters meter_types self).m_projected_maxes.length
        = self.m_projected_maxes.length + meters.length ∧
      (MultiMeterStatusBar.Update_bars meters meter_types self).m_projected_currents.length
        = self.m_projected_currents.length + meters.length ∧
      (MultiMeterStatusBar.Update_bars meters meter_types self).m_bar_colours.length
        = self.m_bar_colours.length + meters.length := by
  induction meters with
  | nil => intro meter_types self _; simp [MultiMeterStatusBar.Update_bars]
  | cons m ms ih =>
    intro meter_types self hlen
    cases meter_types with
    | nil => simp at hlen
    | cons t ts =>
      simp only [MultiMeterStatusBar.Update_bars]
      obtain ⟨h1, h2, h3, h4, h5⟩ := ih ts
        { self with
          m_initial_maxes := self.m_initial_maxes ++ [m.InitialMax]
          m_initial_currents := self.m_initial_currents ++ [m.InitialCurrent]
          m_projected_maxes := self.m_projected_maxes ++ [m.Max]
          m_projected_currents :=
            self.m_projected_currents ++ [self.m_obj.ProjectedCurrentMeter t]
          m_bar_colours := self.m_bar_colours ++ [MeterColor t] }
        (by simpa using hlen)
      rw [h1, h2, h3, h4, h5]
      simp only [List.length_append, List.length_cons, List.length_nil]
      omega

/-- The lengths of the vectors after a call of `MultiMeterStatusBar::Update` that returns: the
four value vectors have one element per meter type, and `m_bar_colours` has as many more
elements than before. -/
theorem MultiMeterStatusBar.Update_lengths (self bar : MultiMeterStatusBar Dbl)
    (h : self.Update = .ok bar) :
    bar.m_meter_types = self.m_meter_types ∧
    bar.m_initial_maxes.length = self.m_meter_types.length ∧
    bar.m_initial_currents.length = self.m_meter_types.length ∧
    bar.m_projected_maxes.length = self.m_meter_types.length ∧
    bar.m_projected_currents.length = self.m_meter_types.length ∧
    bar.m_bar_colours.length = self.m_bar_colours.length + self.m_meter_types.length := by
  unfold MultiMeterStatusBar.Update at h
  obtain ⟨meters, hm, hb⟩ := Result.bind_eq_ok _ _ _ h
  simp only [Result.ok.injEq] at hb
  have hlen := MultiMeterStatusBar.Update_meters_length _ _ _ hm
  obtain ⟨h1, h2, h3, h4, h5⟩ := MultiMeterStatusBar.Update_bars_length meters
    self.m_meter_types
    { self with
      m_initial_maxes := []
      m_initial_currents := []
      m_projected_maxes := []
      m_projected_currents := [] } hlen
  have htypes := (MultiMeterStatusBar.Update_bars_m_obj meters self.m_meter_types
    { self with
      m_initial_maxes := []
      m_initial_currents := []
      m_projected_maxes := []
      m_projected_currents := [] }).2
  subst hb
  simp only at h1 h2 h3 h4 h5 htypes ⊢
  rw [h1, h2, h3, h4, h5, hlen]
  simp [htypes]

/-- C20, the code on a concrete input. The status bar the constructor makes for
`samplePlanet` with two meter types has two elements in each of its five vectors; after one
more `Update` the four value vectors have two elements again and `m_bar_colours` has four. -/
theorem multiMeterStatusBar_second_update_grows_bar_colours :
    ∃ bar bar2 : MultiMeterStatusBar Int,
      new_MultiMeterStatusBar samplePlanet [.METER_POPULATION, .METER_HEALTH] = .ok bar ∧
      bar.m_bar_colours.length = 2 ∧
      bar.Update = .ok bar2 ∧
      bar2.m_meter_types.length = 2 ∧
      bar2.m_initial_maxes.length = 2 ∧
      bar2.m_initial_currents.length = 2 ∧
      bar2.m_projected_maxes.length = 2 ∧
      bar2.m_projected_currents.length = 2 ∧
      bar2.m_bar_colours.length = 4 :=
  ⟨_, _, rfl, rfl, rfl, rfl, rfl, rfl, rfl, rfl, rfl⟩

end layout_theorems

section status_bar_theorems

variable {Dbl : Type}

/-! ### The colours and the exception of MultiMeterStatusBar::Update -/

theorem MultiMeterStatusBar.Update_bars_colours (meters : List (Meter Dbl)) :
    ∀ (meter_types : List MeterType) (self : MultiMeterStatusBar Dbl),
      meters.length = meter_types.length →
      (MultiMeterStatusBar.Update_bars meters meter_types self).m_bar_colours
        = self.m_bar_colours ++ meter_types.map MeterColor := by
  induction meters with
  | nil =>
    intro meter_types self hlen
    cases meter_types with
    | nil => simp [MultiMeterStatusBar.Update_bars]
    | cons t ts => simp at hlen
  | cons m ms ih =>
    intro meter_types self hlen
    cases meter_types with
    | nil => simp at hlen
    | cons t ts =>
      simp only [MultiMeterStatusBar.Update_bars]
      rw [ih ts _ (by simpa using hlen)]
      simp

theorem MultiMeterStatusBar.Update_colours (self bar : MultiMeterStatusBar Dbl)
    (h : self.Update = .ok bar) :
    bar.m_bar_colours = self.m_bar_colours ++ self.m_meter_types.map MeterColor := by
  unfold MultiMeterStatusBar.Update at h
  obtain ⟨meters, hm, hb⟩ := Result.bind_eq_ok _ _ _ h
  simp only [Result.ok.injEq] at hb
  have hlen := MultiMeterStatusBar.Update_meters_length _ _ _ hm
  subst hb
  simp only
  rw [MultiMeterStatusBar.Update_bars_colours meters self.m_meter_types _ hlen]

theorem MultiMeterStatusBar.Update_calls_colours (meter_types : List MeterType) :
    ∀ (objs : List (UniverseObject Dbl)) (self bar : MultiMeterStatusBar Dbl),
      self.m_meter_types = meter_types →
      self.m_initial_maxes.length = meter_types.length →
      (∃ tail, self.m_bar_colours = meter_types.map MeterColor ++ tail) →
      MultiMeterStatusBar.Update_calls objs self = .ok bar →
      bar.m_meter_types = meter_types ∧
      bar.m_initial_maxes.length = meter_types.length ∧
      ∃ tail, bar.m_bar_colours = meter_types.map MeterColor ++ tail := by
  intro objs
  induction objs with
  | nil =>
    intro self bar ht hl hc h
    simp only [MultiMeterStatusBar.Update_calls, Result.ok.injEq] at h
    subst h
    exact ⟨ht, hl, hc⟩
  | cons obj rest ih =>
    intro self bar ht hl hc h
    simp only [MultiMeterStatusBar.Update_calls] at h
    obtain ⟨next, hnext, hrest⟩ := Result.bind_eq_ok _ _ _ h
    obtain ⟨htypes, hmax, _, _, _, _⟩ := MultiMeterStatusBar.Update_lengths _ next hnext
    have hcol := MultiMeterStatusBar.Update_colours _ next hnext
    simp only at htypes hmax hcol
    obtain ⟨tail, htail⟩ := hc
    refine ih next bar (htypes.trans ht) (by rw [hmax, ht]) ?_ hrest
    exact ⟨tail ++ self.m_meter_types.map MeterColor, by rw [hcol, htail, List.append_assoc]⟩

/-- C21. A `MultiMeterStatusBar` is made by its constructor, which calls `Update` once; any
number of later calls of `Update` may follow, the object being in any state at each. If all the
calls return, then the bar has one initial maximum per meter type, so `Render` draws one bar
per meter type, and for every index `i` below the number of meter types the colour
`m_bar_colours[i]` exists and is `MeterColor` of the `i`-th meter type. -/
theorem multiMeterStatusBar_render_reads_meter_colour (obj : UniverseObject Dbl)
    (meter_types : List MeterType) (objs : List (UniverseObject Dbl))
    (bar0 bar : MultiMeterStatusBar Dbl)
    (h0 : new_MultiMeterStatusBar obj meter_types = .ok bar0)
    (h : MultiMeterStatusBar.Update_calls objs bar0 = .ok bar) :
    bar.m_meter_types = meter_types ∧
    bar.m_initial_maxes.length = meter_types.length ∧
    ∀ (i : Nat) (meter_type : MeterType), meter_types[i]? = some meter_type →
      bar.m_bar_colours[i]? = some (MeterColor meter_type) := by
  unfold new_MultiMeterStatusBar at h0
  obtain ⟨htypes, hmax, _, _, _, _⟩ := MultiMeterStatusBar.Update_lengths _ bar0 h0
  have hcol := MultiMeterStatusBar.Update_colours _ bar0 h0
  simp only [List.nil_append] at htypes hmax hcol
  obtain ⟨ht, hl, tail, htail⟩ := MultiMeterStatusBar.Update_calls_colours meter_types objs
    bar0 bar htypes hmax ⟨[], by rw [hcol, List.append_nil]⟩ h
  refine ⟨ht, hl, ?_⟩
  intro i meter_type hi
  have hlt : i < (meter_types.map MeterColor).length := by
    rw [List.length_map]
    exact (List.getElem?_eq_some_iff.1 hi).1
  rw [htail, List.getElem?_append_left hlt, List.getElem?_map, hi]
  rfl

/-- Witness of C21: the bar of `samplePlanet` for population and health, constructed and
updated twice more, the second time with the object in the state of `busyPlanet`. Its colour
vector has six elements; the first two are white and red. -/
theorem multiMeterStatusBar_render_reads_meter_colour_witness :
    ∃ bar0 bar : MultiMeterStatusBar Int,
      new_MultiMeterStatusBar samplePlanet [.METER_POPULATION, .METER_HEALTH] = .ok bar0 ∧
      MultiMeterStatusBar.Update_calls [samplePlanet, busyPlanet] bar0 = .ok bar ∧
      bar.m_bar_colours.length = 6 ∧
      bar.m_bar_colours[0]? = some .CLR_WHITE ∧
      bar.m_bar_colours[1]? = some .CLR_RED :=
  ⟨_, _, rfl, rfl, rfl,
   (multiMeterStatusBar_render_reads_meter_colour samplePlanet
      [.METER_POPULATION, .METER_HEALTH] [samplePlanet, busyPlanet] _ _ rfl rfl).2.2 0
      .METER_POPULATION rfl,
   (multiMeterStatusBar_render_reads_meter_colour samplePlanet
      [.METER_POPULATION, .METER_HEALTH] [samplePlanet, busyPlanet] _ _ rfl rfl).2.2 1
      .METER_HEALTH rfl⟩

theorem MultiMeterStatusBar.Update_meters_ok_iff (m_obj : UniverseObject Dbl) :
    ∀ meter_types : List MeterType,
      (∃ meters, MultiMeterStatusBar.Update_meters m_obj meter_types = .ok meters) ↔
        ∀ meter_type ∈ meter_types, m_obj.GetMeter meter_type ≠ none := by
  intro meter_types
  induction meter_types with
  | nil => simp [MultiMeterStatusBar.Update_meters]
  | cons t ts ih =>
    unfold MultiMeterStatusBar.Update_meters
    cases hg : m_obj.GetMeter t with
    | none => simp [hg]
    | some meter =>
      simp only [List.mem_cons, forall_eq_or_imp, hg, ne_eq, reduceCtorEq, not_false_eq_true,
        true_and]
      rw [← ih]
      constructor
      · rintro ⟨meters, h⟩
        obtain ⟨ms, hms, _⟩ := Result.bind_eq_ok _ _ _ h
        exact ⟨ms, hms⟩
      · rintro ⟨ms, hms⟩
        exact ⟨meter :: ms, by rw [hms]; rfl⟩

theorem MultiMeterStatusBar.Update_meters_ok_or_threw (m_obj : UniverseObject Dbl) :
    ∀ meter_types : List MeterType,
      (∃ meters, MultiMeterStatusBar.Update_meters m_obj meter_types = .ok meters) ∨
      ∃ what, MultiMeterStatusBar.Update_meters m_obj meter_types
        = .threw (.runtime_error what) := by
  intro meter_types
  induction meter_types with
  | nil => exact Or.inl ⟨[], rfl⟩
  | cons t ts ih =>
    unfold MultiMeterStatusBar.Update_meters
    cases hg : m_obj.GetMeter t with
    | none => exact Or.inr ⟨_, rfl⟩
    | some meter =>
      rcases ih with ⟨ms, hms⟩ | ⟨what, hw⟩
      · exact Or.inl ⟨meter :: ms, by simp only [hms]; rfl⟩
      · exact Or.inr ⟨what, by simp only [hw]; rfl⟩

theorem MultiMeterStatusBar.Update_step_eq (self : MultiMeterStatusBar Dbl) :
    self.Update = self.Update_step.1.bind fun _ => .ok self.Update_step.2 := by
  unfold MultiMeterStatusBar.Update MultiMeterStatusBar.Update_step
  cases MultiMeterStatusBar.Update_meters self.m_obj self.m_meter_types <;> rfl

/-- C22. `MultiMeterStatusBar::Update` throws, and then a `std::runtime_error`, if and only if
the object has no meter of at least one of the meter types of the bar; otherwise it returns.
When it throws, the members of the bar (the four value vectors, the colours, the height of the
window) are what they were before the call. -/
theorem multiMeterStatusBar_update_throws_iff_meter_missing (self : MultiMeterStatusBar Dbl) :
    ((∃ e, self.Update_step.1 = .threw e) ↔
      ∃ meter_type ∈ self.m_meter_types, self.m_obj.GetMeter meter_type = none) ∧
    (∀ e, self.Update_step.1 = .threw e → ∃ what, e = .runtime_error what) ∧
    (self.Update_step.1 = .ok () ↔
      ∀ meter_type ∈ self.m_meter_types, self.m_obj.GetMeter meter_type ≠ none) ∧
    (∀ e, self.Update_step.1 = .threw e → self.Update_step.2 = self) ∧
    (∀ e, self.Update_step.1 = .threw e ↔ self.Update = .threw e) := by
  have hiff := MultiMeterStatusBar.Update_meters_ok_iff self.m_obj self.m_meter_types
  have hor := MultiMeterStatusBar.Update_meters_ok_or_threw self.m_obj self.m_meter_types
  have hstep := MultiMeterStatusBar.Update_step_eq self
  have hok : self.Update_step.1 = .ok () ↔
      ∀ meter_type ∈ self.m_meter_types, self.m_obj.GetMeter meter_type ≠ none := by
    rw [← hiff]
    unfold MultiMeterStatusBar.Update_step
    cases hm : MultiMeterStatusBar.Update_meters self.m_obj self.m_meter_types <;> simp
  have hthrew : (∃ e, self.Update_step.1 = .threw e) ↔ ¬ self.Update_step.1 = .ok () := by
    unfold MultiMeterStatusBar.Update_step
    rcases hor with ⟨ms, hms⟩ | ⟨what, hw⟩
    · simp [hms]
    · simp [hw]
  refine ⟨?_, ?_, hok, ?_, ?_⟩
  · rw [hthrew, hok]
    push_neg
    rfl
  · intro e he
    unfold MultiMeterStatusBar.Update_step at he
    rcases hor with ⟨ms, hms⟩ | ⟨what, hw⟩
    · simp [hms] at he
    · simp only [hw, Result.threw.injEq] at he
      exact ⟨what, he.symm⟩
  · intro e he
    unfold MultiMeterStatusBar.Update_step at he ⊢
    cases hm : MultiMeterStatusBar.Update_meters self.m_obj self.m_meter_types with
    | ok ms => simp [hm] at he
    | threw e' => rfl
    | null_dereference => rfl
    | assertion_failed => rfl
  · intro e
    rw [hstep]
    cases hs : self.Update_step.1 <;> simp [Result.bind]

/-- Witness of C22: `strayBar`, a bar for the population meter over a building without meters.
`Update` throws and leaves the bar as it was. -/
theorem multiMeterStatusBar_update_throws_iff_meter_missing_witness :
    (∃ e, strayBar.Update_step.1 = .threw e) ∧
    strayBar.Update_step.2 = strayBar ∧
    (sampleBar [.METER_POPULATION]).Update_step.1 = .ok () :=
  ⟨(multiMeterStatusBar_update_throws_iff_meter_missing strayBar).1.2
      ⟨.METER_POPULATION, by decide, rfl⟩,
   (multiMeterStatusBar_update_throws_iff_meter_missing strayBar).2.2.2.1 _ rfl,
   (multiMeterStatusBar_update_throws_iff_meter_missing (sampleBar [.METER_POPULATION])).2.2.1.2
      (by
        intro meter_type _ h
        cases h)⟩

end status_bar_theorems

section focus_theorems

variable {Dbl : Type}

/-! ### The focus drop-down lists -/

/-- C23. The focus drop-down index mapping round-trips. For each of the six focus types, the
row `ResourcePanel::Update` selects for the focus makes
`PrimaryFocusDropListSelectionChanged` emit `PrimaryFocusChangedSignal` with that focus and
`SecondaryFocusDropListSelectionChanged` emit `SecondaryFocusChangedSignal` with that focus,
once each. Every index outside 0..5 makes both handlers throw `std::invalid_argument` with no
signal emitted. The two handlers map every index to the same focus. The rows in question are
the ones `Update` selects: after an `Update` that returns, the selected row of the primary
drop-down is the row of the primary focus of the resource center, and likewise for the
secondary. -/
theorem focus_drop_index_round_trips [Zero Dbl] [Add Dbl] :
    (∀ focus : FocusType, focus ≠ .FOCUS_UNKNOWN →
      ResourcePanel.PrimaryFocusDropListSelectionChanged (ResourcePanel.focus_row focus)
        = (.ok (), [.PrimaryFocusChangedSignal focus]) ∧
      ResourcePanel.SecondaryFocusDropListSelectionChanged (ResourcePanel.focus_row focus)
        = (.ok (), [.SecondaryFocusChangedSignal focus])) ∧
    (∀ index : Int, index < 0 ∨ 5 < index →
      (∃ what, ResourcePanel.PrimaryFocusDropListSelectionChanged index
        = (.threw (.invalid_argument what), [])) ∧
      (∃ what, ResourcePanel.SecondaryFocusDropListSelectionChanged index
        = (.threw (.invalid_argument what), []))) ∧
    (∀ (index : Int) (focus : FocusType),
      ResourcePanel.PrimaryFocusDropListSelectionChanged index
        = (.ok (), [.PrimaryFocusChangedSignal focus]) ↔
      ResourcePanel.SecondaryFocusDropListSelectionChanged index
        = (.ok (), [.SecondaryFocusChangedSignal focus])) ∧
    (∀ (W : World Dbl) (self updated : ResourcePanel Dbl),
      ResourcePanel.Update W self = .ok updated →
      ∃ res, self.GetResourceCenter W = .ok res ∧
        updated.m_primary_focus_drop.selected = ResourcePanel.focus_row res.PrimaryFocus ∧
        updated.m_secondary_focus_drop.selected
          = ResourcePanel.focus_row res.SecondaryFocus) := by
  refine ⟨?_, ?_, ?_, ?_⟩
  · intro focus hf
    cases focus <;> first | exact absurd rfl hf | exact ⟨rfl, rfl⟩
  · intro index hidx
    have h0 : index ≠ 0 := by omega
    have h1 : index ≠ 1 := by omega
    have h2 : index ≠ 2 := by omega
    have h3 : index ≠ 3 := by omega
    have h4 : index ≠ 4 := by omega
    have h5 : index ≠ 5 := by omega
    refine ⟨⟨"PrimaryFocusDropListSelectionChanged called with invalid cell/focus selection.",
      ?_⟩,
      ⟨"SecondaryFocusDropListSelectionChanged called with invalid cell/focus selection.",
      ?_⟩⟩
    · simp only [ResourcePanel.PrimaryFocusDropListSelectionChanged, h0, h1, h2, h3, h4, h5,
        if_false]
    · simp only [ResourcePanel.SecondaryFocusDropListSelectionChanged, h0, h1, h2, h3, h4, h5,
        if_false]
  · intro index focus
    unfold ResourcePanel.PrimaryFocusDropListSelectionChanged
      ResourcePanel.SecondaryFocusDropListSelectionChanged
    split_ifs <;> simp
  · intro W self updated h
    unfold ResourcePanel.Update at h
    obtain ⟨res, hres, h1⟩ := Result.bind_eq_ok _ _ _ h
    refine ⟨res, hres, ?_⟩
    cases hobj : W.GetUniverse.Object self.m_rescenter_id with
    | none => simp [hobj] at h1
    | some obj =>
      simp only [hobj] at h1
      obtain ⟨bar, _, h2⟩ := Result.bind_eq_ok _ _ _ h1
      obtain ⟨indicator, _, h3⟩ := Result.bind_eq_ok _ _ _ h2
      simp only [Result.ok.injEq] at h3
      subst h3
      exact ⟨rfl, rfl⟩

/-- Witness of C23: farming, the primary focus of `samplePlanet`, is selected as the row 1 by
`Update` of `sampleResourcePanel`, and the row 1 is mapped back to farming by both handlers;
the index 6 makes both throw. -/
theorem focus_drop_index_round_trips_witness :
    (∃ updated, ResourcePanel.Update sampleWorld sampleResourcePanel = .ok updated ∧
      updated.m_primary_focus_drop.selected = 1 ∧
      ResourcePanel.PrimaryFocusDropListSelectionChanged updated.m_primary_focus_drop.selected
        = (.ok (), [.PrimaryFocusChangedSignal .FOCUS_FARMING]) ∧
      ResourcePanel.SecondaryFocusDropListSelectionChanged
          updated.m_primary_focus_drop.selected
        = (.ok (), [.SecondaryFocusChangedSignal .FOCUS_FARMING])) ∧
    (∃ what, ResourcePanel.PrimaryFocusDropListSelectionChanged 6
      = (.threw (.invalid_argument what), [])) ∧
    (∃ what, ResourcePanel.SecondaryFocusDropListSelectionChanged 6
      = (.threw (.invalid_argument what), [])) := by
  have h := @focus_drop_index_round_trips Int _ _
  obtain ⟨res, hres, hprim, _⟩ := h.2.2.2 sampleWorld sampleResourcePanel _ rfl
  have e : Result.ok samplePlanet = Result.ok res := hres
  cases e
  refine ⟨⟨_, rfl, hprim, ?_, ?_⟩, (h.2.1 6 (by decide)).1, (h.2.1 6 (by decide)).2⟩
  · exact (h.1 .FOCUS_FARMING (by decide)).1
  · exact (h.1 .FOCUS_FARMING (by decide)).2

end focus_theorems

section expand_collapse_theorems

variable {Dbl : Type}

/-! ### The expand/collapse state machine -/

theorem ExpandedMap.getD_assign_self (m : ExpandedMap) (id : Int) (b : Bool) :
    ((m.assign id b) id).getD false = b := by
  simp [ExpandedMap.assign]

theorem ExpandedMap.index_index (m : ExpandedMap) (id : Int) :
    ((m.index id).2.index id) = ((m id).getD false, (m.index id).2) := by
  cases h : m id with
  | none => simp [ExpandedMap.index, h, ExpandedMap.assign]
  | some b => simp [ExpandedMap.index, h]

theorem ExpandedMap.index_assign (m : ExpandedMap) (id : Int) (b : Bool) :
    (m.assign id b).index id = (b, m.assign id b) := by
  simp [ExpandedMap.index, ExpandedMap.assign]

theorem ExpandedMap.index_of_some (m : ExpandedMap) (id : Int) (b : Bool) (h : m id = some b) :
    m.index id = (b, m) := by
  simp [ExpandedMap.index, h]

/-- The counterexample to C24 as stated: the resource panel of the id 7, which is the id of no
object, with the flag `true`; `ExpandCollapse(false)` stores `false` and then leaves
`DoExpandCollapseLayout` by the `std::runtime_error` of `GetResourceCenter`, before the
statement that emits `ExpandCollapseSignal`. -/
theorem stray_resource_panel_collapse_throws :
    strayExpanded.ResourcePanel_s_expanded_map strayResourcePanel.m_rescenter_id = some true ∧
    (strayResourcePanel.ExpandCollapse sampleWorld false strayExpanded).1
      = .threw (.runtime_error
          "ResourcePanel tried to get an object with an invalid m_rescenter_id") ∧
    (strayResourcePanel.ExpandCollapse sampleWorld false
        strayExpanded).2.ResourcePanel_s_expanded_map strayResourcePanel.m_rescenter_id
      = some false :=
  ⟨rfl, rfl, rfl⟩

theorem PopulationPanel_ExpandCollapse_spec (S : Statics) (e : Bool)
    (self : PopulationPanel Dbl) :
    (self.ExpandCollapse e S).2.PopulationPanel_s_expanded_map self.m_popcenter_id = some e ∧
    (self.ExpandCollapse e S).1.m_popcenter_id = self.m_popcenter_id ∧
    ((S.PopulationPanel_s_expanded_map self.m_popcenter_id).getD false ≠ e →
      (self.ExpandCollapse e S).1.layouts = self.layouts + 1 ∧
      (self.ExpandCollapse e S).1.ExpandCollapseSignal = self.ExpandCollapseSignal + 1 ∧
      (self.ExpandCollapse e S).1.expanded_layout = e) ∧
    ((S.PopulationPanel_s_expanded_map self.m_popcenter_id).getD false = e →
      (self.ExpandCollapse e S).1 = self) := by
  unfold PopulationPanel.ExpandCollapse
  simp only [ExpandedMap.index_fst]
  by_cases h : e = (S.PopulationPanel_s_expanded_map self.m_popcenter_id).getD false
  · rw [if_pos h]
    refine ⟨?_, rfl, fun hne => absurd h.symm hne, fun _ => rfl⟩
    simp only [ExpandedMap.index_snd_self, h]
  · rw [if_neg h]
    refine ⟨?_, ?_, fun _ => ⟨?_, ?_, ?_⟩, fun heq => absurd heq.symm h⟩ <;>
      simp [PopulationPanel.DoExpandCollapseLayout, ExpandedMap.index_assign,
        ExpandedMap.assign_self]

theorem MilitaryPanel_ExpandCollapse_spec (W : World Dbl) (S : Statics) (e : Bool)
    (self : MilitaryPanel Dbl) :
    (self.ExpandCollapse W e S).2.MilitaryPanel_s_expanded_map self.m_planet_id = some e ∧
    (self.ExpandCollapse W e S).1.m_planet_id = self.m_planet_id ∧
    ((S.MilitaryPanel_s_expanded_map self.m_planet_id).getD false ≠ e →
      (self.ExpandCollapse W e S).1.layouts = self.layouts + 1 ∧
      (self.ExpandCollapse W e S).1.ExpandCollapseSignal = self.ExpandCollapseSignal + 1 ∧
      (self.ExpandCollapse W e S).1.expanded_layout = e) ∧
    ((S.MilitaryPanel_s_expanded_map self.m_planet_id).getD false = e →
      (self.ExpandCollapse W e S).1 = self) := by
  unfold MilitaryPanel.ExpandCollapse
  simp only [ExpandedMap.index_fst]
  by_cases h : e = (S.MilitaryPanel_s_expanded_map self.m_planet_id).getD false
  · rw [if_pos h]
    refine ⟨?_, rfl, fun hne => absurd h.symm hne, fun _ => rfl⟩
    simp only [ExpandedMap.index_snd_self, h]
  · rw [if_neg h]
    refine ⟨?_, ?_, fun _ => ⟨?_, ?_, ?_⟩, fun heq => absurd heq.symm h⟩ <;>
      simp [MilitaryPanel.DoExpandCollapseLayout, ExpandedMap.index_assign, ExpandedMap.assign_self]

theorem BuildingsPanel_ExpandCollapse_spec (W : World Dbl) (S : Statics) (e : Bool)
    (self : BuildingsPanel) :
    (self.ExpandCollapse W e S).2.BuildingsPanel_s_expanded_map self.m_planet_id = some e ∧
    (self.ExpandCollapse W e S).1.m_planet_id = self.m_planet_id ∧
    ((S.BuildingsPanel_s_expanded_map self.m_planet_id).getD false ≠ e →
      (self.ExpandCollapse W e S).1.layouts = self.layouts + 1 ∧
      (self.ExpandCollapse W e S).1.ExpandCollapseSignal = self.ExpandCollapseSignal + 1 ∧
      (self.ExpandCollapse W e S).1.expanded_layout = e) ∧
    ((S.BuildingsPanel_s_expanded_map self.m_planet_id).getD false = e →
      (self.ExpandCollapse W e S).1 = self) := by
  unfold BuildingsPanel.ExpandCollapse
  simp only [ExpandedMap.index_fst]
  by_cases h : e = (S.BuildingsPanel_s_expanded_map self.m_planet_id).getD false
  · rw [if_pos h]
    refine ⟨?_, rfl, fun hne => absurd h.symm hne, fun _ => rfl⟩
    simp only [ExpandedMap.index_snd_self, h]
  · rw [if_neg h]
    refine ⟨?_, ?_, fun _ => ⟨?_, ?_, ?_⟩, fun heq => absurd heq.symm h⟩ <;>
      simp [BuildingsPanel.DoExpandCollapseLayout, ExpandedMap.index_assign,
        ExpandedMap.assign_self]

theorem ResourcePanel_ExpandCollapse_spec [LT Dbl] [DecidableRel ((· < ·) : Dbl → Dbl → Prop)]
    (W : World Dbl) (S : Statics) (e : Bool) (self : ResourcePanel Dbl) :
    (self.ExpandCollapse W e S).2.ResourcePanel_s_expanded_map self.m_rescenter_id = some e ∧
    ((S.ResourcePanel_s_expanded_map self.m_rescenter_id).getD false ≠ e →
      (∀ panel, (self.ExpandCollapse W e S).1 = .ok panel →
        panel.m_rescenter_id = self.m_rescenter_id ∧
        panel.layouts = self.layouts + 1 ∧
        panel.ExpandCollapseSignal = self.ExpandCollapseSignal + 1 ∧
        panel.expanded_layout = e) ∧
      (e = true ∨ (self.GetResourceCenter W).isOk = true →
        (self.ExpandCollapse W e S).1.isOk = true)) ∧
    ((S.ResourcePanel_s_expanded_map self.m_rescenter_id).getD false = e →
      (self.ExpandCollapse W e S).1 = .ok self) := by
  unfold ResourcePanel.ExpandCollapse
  simp only [ExpandedMap.index_fst]
  by_cases h : e = (S.ResourcePanel_s_expanded_map self.m_rescenter_id).getD false
  · rw [if_pos h]
    refine ⟨?_, fun hne => absurd h.symm hne, fun _ => rfl⟩
    simp only [ExpandedMap.index_snd_self, h]
  · rw [if_neg h]
    refine ⟨?_, fun _ => ⟨?_, ?_⟩, fun heq => absurd heq.symm h⟩
    · rw [ResourcePanel.DoExpandCollapseLayout_statics]
      simp only [ExpandedMap.index_assign]
      exact ExpandedMap.assign_self _ _ _
    · intro panel hp
      unfold ResourcePanel.DoExpandCollapseLayout at hp
      simp only [ExpandedMap.index_assign] at hp
      split at hp
      · cases hres : ResourcePanel.GetResourceCenter W self with
        | ok res =>
          simp only [hres, Result.bind_statics, Result.ok.injEq] at hp
          subst hp
          exact ⟨rfl, rfl, rfl, rfl⟩
        | threw e' => simp [hres, Result.bind_statics] at hp
        | null_dereference => simp [hres, Result.bind_statics] at hp
        | assertion_failed => simp [hres, Result.bind_statics] at hp
      · simp only [Result.ok.injEq] at hp
        subst hp
        exact ⟨rfl, rfl, rfl, rfl⟩
    · intro hret
      unfold ResourcePanel.DoExpandCollapseLayout
      simp only [ExpandedMap.index_assign]
      cases e with
      | true => rfl
      | false =>
        rcases hret with hfalse | hok
        · cases hfalse
        · simp only [Bool.not_false, if_true]
          cases hres : ResourcePanel.GetResourceCenter W self with
          | ok res => rfl
          | threw e' => simp [hres, Result.isOk] at hok
          | null_dereference => simp [hres, Result.isOk] at hok
          | assertion_failed => simp [hres, Result.isOk] at hok

theorem PopulationPanel_ExpandCollapseButtonPressed_flag (S : Statics)
    (self : PopulationPanel Dbl) :
    (self.ExpandCollapseButtonPressed S).2.PopulationPanel_s_expanded_map self.m_popcenter_id
      = some (!(S.PopulationPanel_s_expanded_map self.m_popcenter_id).getD false) := by
  unfold PopulationPanel.ExpandCollapseButtonPressed
  simp only [ExpandedMap.index_fst]
  exact (PopulationPanel_ExpandCollapse_spec _ _ self).1

theorem ResourcePanel_ExpandCollapseButtonPressed_flag [LT Dbl]
    [DecidableRel ((· < ·) : Dbl → Dbl → Prop)] (W : World Dbl) (S : Statics)
    (self : ResourcePanel Dbl) :
    (self.ExpandCollapseButtonPressed W S).2.ResourcePanel_s_expanded_map self.m_rescenter_id
      = some (!(S.ResourcePanel_s_expanded_map self.m_rescenter_id).getD false) := by
  unfold ResourcePanel.ExpandCollapseButtonPressed
  simp only [ExpandedMap.index_fst]
  exact (ResourcePanel_ExpandCollapse_spec W _ _ self).1

theorem MilitaryPanel_ExpandCollapseButtonPressed_flag (W : World Dbl) (S : Statics)
    (self : MilitaryPanel Dbl) :
    (self.ExpandCollapseButtonPressed W S).2.MilitaryPanel_s_expanded_map self.m_planet_id
      = some (!(S.MilitaryPanel_s_expanded_map self.m_planet_id).getD false) := by
  unfold MilitaryPanel.ExpandCollapseButtonPressed
  simp only [ExpandedMap.index_fst]
  exact (MilitaryPanel_ExpandCollapse_spec W _ _ self).1

theorem BuildingsPanel_ExpandCollapseButtonPressed_flag (W : World Dbl) (S : Statics)
    (self : BuildingsPanel) :
    (self.ExpandCollapseButtonPressed W S).2.BuildingsPanel_s_expanded_map self.m_planet_id
      = some (!(S.BuildingsPanel_s_expanded_map self.m_planet_id).getD false) := by
  unfold BuildingsPanel.ExpandCollapseButtonPressed
  simp only [ExpandedMap.index_fst]
  exact (BuildingsPanel_ExpandCollapse_spec W _ _ self).1

/-- C24, as amended. The expand/collapse state machine, for every object id and boolean `e`.
For `PopulationPanel`, `MilitaryPanel` and `BuildingsPanel`: after `ExpandCollapse(e)` the
stored flag is `e`; if the flag read before the call (`false` when the id had no entry)
differed from `e`, the layout has been redone once and `ExpandCollapseSignal` emitted once;
if it was `e` already, the panel is as before, with no layout and no signal;
`ExpandCollapseButtonPressed` stores the negation of the flag, and a second press stores the
flag of the beginning. For `ResourcePanel` the flag is stored in the same way, also when the
call throws; when the call returns, the layout has been redone once and the signal emitted
once if the flag differed, and nothing is done if it did not; the call returns whenever the
flag did not differ, or `e` is `true`, or the id of the panel resolves to a resource center;
a press stores the negation of the flag and a second press, of a panel of the same id, stores
the flag of the beginning. -/
theorem expand_collapse_state_machine [LT Dbl] [DecidableRel ((· < ·) : Dbl → Dbl → Prop)]
    (W : World Dbl) (S : Statics) (e : Bool) (pop : PopulationPanel Dbl)
    (res : ResourcePanel Dbl) (mil : MilitaryPanel Dbl) (bld : BuildingsPanel) :
    (((pop.ExpandCollapse e S).2.PopulationPanel_s_expanded_map pop.m_popcenter_id = some e ∧
      ((S.PopulationPanel_s_expanded_map pop.m_popcenter_id).getD false ≠ e →
        (pop.ExpandCollapse e S).1.layouts = pop.layouts + 1 ∧
        (pop.ExpandCollapse e S).1.ExpandCollapseSignal = pop.ExpandCollapseSignal + 1 ∧
        (pop.ExpandCollapse e S).1.expanded_layout = e) ∧
      ((S.PopulationPanel_s_expanded_map pop.m_popcenter_id).getD false = e →
        (pop.ExpandCollapse e S).1 = pop)) ∧
      (pop.ExpandCollapseButtonPressed S).2.PopulationPanel_s_expanded_map pop.m_popcenter_id
        = some (!(S.PopulationPanel_s_expanded_map pop.m_popcenter_id).getD false) ∧
      ((pop.ExpandCollapseButtonPressed S).1.ExpandCollapseButtonPressed
          (pop.ExpandCollapseButtonPressed S).2).2.PopulationPanel_s_expanded_map pop.m_popcenter_id
        = some ((S.PopulationPanel_s_expanded_map pop.m_popcenter_id).getD false)) ∧
    (((res.ExpandCollapse W e S).2.ResourcePanel_s_expanded_map res.m_rescenter_id = some e ∧
      ((S.ResourcePanel_s_expanded_map res.m_rescenter_id).getD false ≠ e →
        (∀ panel, (res.ExpandCollapse W e S).1 = .ok panel →
          panel.m_rescenter_id = res.m_rescenter_id ∧
          panel.layouts = res.layouts + 1 ∧
          panel.ExpandCollapseSignal = res.ExpandCollapseSignal + 1 ∧
          panel.expanded_layout = e) ∧
        (e = true ∨ (res.GetResourceCenter W).isOk = true →
          (res.ExpandCollapse W e S).1.isOk = true)) ∧
      ((S.ResourcePanel_s_expanded_map res.m_rescenter_id).getD false = e →
        (res.ExpandCollapse W e S).1 = .ok res)) ∧
      (res.ExpandCollapseButtonPressed W S).2.ResourcePanel_s_expanded_map res.m_rescenter_id
        = some (!(S.ResourcePanel_s_expanded_map res.m_rescenter_id).getD false) ∧
      (∀ again : ResourcePanel Dbl, again.m_rescenter_id = res.m_rescenter_id →
        (again.ExpandCollapseButtonPressed W
          (res.ExpandCollapseButtonPressed W S).2).2.ResourcePanel_s_expanded_map
            res.m_rescenter_id
          = some ((S.ResourcePanel_s_expanded_map res.m_rescenter_id).getD false))) ∧
    (((mil.ExpandCollapse W e S).2.MilitaryPanel_s_expanded_map mil.m_planet_id = some e ∧
      ((S.MilitaryPanel_s_expanded_map mil.m_planet_id).getD false ≠ e →
        (mil.ExpandCollapse W e S).1.layouts = mil.layouts + 1 ∧
        (mil.ExpandCollapse W e S).1.ExpandCollapseSignal = mil.ExpandCollapseSignal + 1 ∧
        (mil.ExpandCollapse W e S).1.expanded_layout = e) ∧
      ((S.MilitaryPanel_s_expanded_map mil.m_planet_id).getD false = e →
        (mil.ExpandCollapse W e S).1 = mil)) ∧
      (mil.ExpandCollapseButtonPressed W S).2.MilitaryPanel_s_expanded_map mil.m_planet_id
        = some (!(S.MilitaryPanel_s_expanded_map mil.m_planet_id).getD false) ∧
      ((mil.ExpandCollapseButtonPressed W S).1.ExpandCollapseButtonPressed W 
          (mil.ExpandCollapseButtonPressed W S).2).2.MilitaryPanel_s_expanded_map mil.m_planet_id
        = some ((S.MilitaryPanel_s_expanded_map mil.m_planet_id).getD false)) ∧
    (((bld.ExpandCollapse W e S).2.BuildingsPanel_s_expanded_map bld.m_planet_id = some e ∧
      ((S.BuildingsPanel_s_expanded_map bld.m_planet_id).getD false ≠ e →
        (bld.ExpandCollapse W e S).1.layouts = bld.layouts + 1 ∧
        (bld.ExpandCollapse W e S).1.ExpandCollapseSignal = bld.ExpandCollapseSignal + 1 ∧
        (bld.ExpandCollapse W e S).1.expanded_layout = e) ∧
      ((S.BuildingsPanel_s_expanded_map bld.m_planet_id).getD false = e →
        (bld.ExpandCollapse W e S).1 = bld)) ∧
      (bld.ExpandCollapseButtonPressed W S).2.BuildingsPanel_s_expanded_map bld.m_planet_id
        = some (!(S.BuildingsPanel_s_expanded_map bld.m_planet_id).getD false) ∧
      ((bld.ExpandCollapseButtonPressed W S).1.ExpandCollapseButtonPressed W 
          (bld.ExpandCollapseButtonPressed W S).2).2.BuildingsPanel_s_expanded_map bld.m_planet_id
        = some ((S.BuildingsPanel_s_expanded_map bld.m_planet_id).getD false)) := by
  have hpop := PopulationPanel_ExpandCollapse_spec S e pop
  have hres := ResourcePanel_ExpandCollapse_spec W S e res
  have hmil := MilitaryPanel_ExpandCollapse_spec W S e mil
  have hbld := BuildingsPanel_ExpandCollapse_spec W S e bld
  refine ⟨⟨⟨hpop.1, hpop.2.2.1, hpop.2.2.2⟩,
      PopulationPanel_ExpandCollapseButtonPressed_flag S pop, ?_⟩,
    ⟨hres, ResourcePanel_ExpandCollapseButtonPressed_flag W S res, ?_⟩,
    ⟨⟨hmil.1, hmil.2.2.1, hmil.2.2.2⟩, MilitaryPanel_ExpandCollapseButtonPressed_flag W S mil,
      ?_⟩,
    ⟨⟨hbld.1, hbld.2.2.1, hbld.2.2.2⟩,
      BuildingsPanel_ExpandCollapseButtonPressed_flag W S bld, ?_⟩⟩
  · have hid : (pop.ExpandCollapseButtonPressed S).1.m_popcenter_id = pop.m_popcenter_id := by
      unfold PopulationPanel.ExpandCollapseButtonPressed
      exact (PopulationPanel_ExpandCollapse_spec _ _ pop).2.1
    have h2 := PopulationPanel_ExpandCollapseButtonPressed_flag
      (pop.ExpandCollapseButtonPressed S).2 (pop.ExpandCollapseButtonPressed S).1
    rw [hid, PopulationPanel_ExpandCollapseButtonPressed_flag S pop] at h2
    simpa using h2
  · intro again hid
    have h2 := ResourcePanel_ExpandCollapseButtonPressed_flag W
      (res.ExpandCollapseButtonPressed W S).2 again
    rw [hid, ResourcePanel_ExpandCollapseButtonPressed_flag W S res] at h2
    simpa using h2
  · have hid : (mil.ExpandCollapseButtonPressed W S).1.m_planet_id = mil.m_planet_id := by
      unfold MilitaryPanel.ExpandCollapseButtonPressed
      exact (MilitaryPanel_ExpandCollapse_spec W _ _ mil).2.1
    have h2 := MilitaryPanel_ExpandCollapseButtonPressed_flag W
      (mil.ExpandCollapseButtonPressed W S).2 (mil.ExpandCollapseButtonPressed W S).1
    rw [hid, MilitaryPanel_ExpandCollapseButtonPressed_flag W S mil] at h2
    simpa using h2
  · have hid : (bld.ExpandCollapseButtonPressed W S).1.m_planet_id = bld.m_planet_id := by
      unfold BuildingsPanel.ExpandCollapseButtonPressed
      exact (BuildingsPanel_ExpandCollapse_spec W _ _ bld).2.1
    have h2 := BuildingsPanel_ExpandCollapseButtonPressed_flag W
      (bld.ExpandCollapseButtonPressed W S).2 (bld.ExpandCollapseButtonPressed W S).1
    rw [hid, BuildingsPanel_ExpandCollapseButtonPressed_flag W S bld] at h2
    simpa using h2

/-- Witness of C24: in the statics `panelsExpanded` the panels of the object 1 are collapsed:
the population panel redoes its layout and emits the signal once, the call on the resource
panel returns; and expanding the military panel, which is expanded already, changes
nothing. -/
theorem expand_collapse_state_machine_witness :
    ((samplePopulationPanel.ExpandCollapse false panelsExpanded).1.layouts
        = samplePopulationPanel.layouts + 1 ∧
      (samplePopulationPanel.ExpandCollapse false panelsExpanded).1.ExpandCollapseSignal
        = samplePopulationPanel.ExpandCollapseSignal + 1 ∧
      (samplePopulationPanel.ExpandCollapse false panelsExpanded).1.expanded_layout = false) ∧
    (sampleResourcePanel.ExpandCollapse sampleWorld false panelsExpanded).1.isOk = true ∧
    (sampleMilitaryPanel.ExpandCollapse sampleWorld true panelsExpanded).1
      = sampleMilitaryPanel :=
  ⟨(expand_collapse_state_machine sampleWorld panelsExpanded false samplePopulationPanel
      sampleResourcePanel sampleMilitaryPanel sampleBuildingsPanel).1.1.2.1 (by decide),
   ((expand_collapse_state_machine sampleWorld panelsExpanded false samplePopulationPanel
      sampleResourcePanel sampleMilitaryPanel sampleBuildingsPanel).2.1.1.2.1 (by decide)).2
      (Or.inr rfl),
   (expand_collapse_state_machine sampleWorld panelsExpanded true samplePopulationPanel
      sampleResourcePanel sampleMilitaryPanel sampleBuildingsPanel).2.2.1.1.2.2 rfl⟩

end expand_collapse_theorems

section summary_theorems

variable {Dbl : Type}

/-! ### SystemResourceSummaryBrowseWnd::UpdateAllocation -/

theorem SystemResourceSummaryBrowseWnd.UpdateAllocation_loop_spec [Zero Dbl] [Add Dbl]
    [LinearOrder Dbl] (W : World Dbl) (resource_type : ResourceType) (empire_id : Int)
    (row_height : Int) :
    ∀ (objs : List (UniverseObject Dbl)) (self : SystemResourceSummaryBrowseWnd Dbl)
      (top : Int),
      self.m_resource_type = resource_type → self.m_empire_id = empire_id →
      self.row_height = row_height →
      ∃ rows : List (LabelAndAmount Dbl),
        SystemResourceSummaryBrowseWnd.UpdateAllocation_loop W objs self top
          = ({ self with
                m_allocation :=
                  ((objs.filter fun obj =>
                      decide ((empire_id = ALL_EMPIRES ∨ obj.OwnedBy empire_id = true) ∧
                        0 < (ObjectResourceConsumption W (some obj) resource_type
                          empire_id).1)).map fun obj =>
                      (ObjectResourceConsumption W (some obj) resource_type empire_id).1).foldl
                    (· + ·) self.m_allocation
                m_allocation_labels_and_amounts :=
                  self.m_allocation_labels_and_amounts ++ rows },
             top + ((objs.filter fun obj =>
                      decide ((empire_id = ALL_EMPIRES ∨ obj.OwnedBy empire_id = true) ∧
                        0 < (ObjectResourceConsumption W (some obj) resource_type
                          empire_id).1)).length : Int) * row_height) ∧
        rows.length
          = (objs.filter fun obj =>
              decide ((empire_id = ALL_EMPIRES ∨ obj.OwnedBy empire_id = true) ∧
                0 < (ObjectResourceConsumption W (some obj) resource_type
                  empire_id).1)).length ∧
        ∀ (i : Nat) (obj : UniverseObject Dbl),
          (objs.filter fun obj =>
              decide ((empire_id = ALL_EMPIRES ∨ obj.OwnedBy empire_id = true) ∧
                0 < (ObjectResourceConsumption W (some obj) resource_type
                  empire_id).1))[i]? = some obj →
          rows[i]? = some
            { top := top + (i : Int) * row_height,
              label := .string obj.Name,
              value := .DoubleToString
                (ObjectResourceConsumption W (some obj) resource_type empire_id).1 } := by
  intro objs
  induction objs with
  | nil =>
    intro self top _ _ _
    exact ⟨[], by simp [SystemResourceSummaryBrowseWnd.UpdateAllocation_loop], rfl,
      fun i obj h => by simp at h⟩
  | cons obj rest ih =>
    intro self top hrt hid hrh
    unfold SystemResourceSummaryBrowseWnd.UpdateAllocation_loop
    by_cases hown : empire_id = ALL_EMPIRES ∨ obj.OwnedBy empire_id = true
    · have hskip : (decide (self.m_empire_id ≠ ALL_EMPIRES) && !obj.OwnedBy self.m_empire_id)
          = false := by
        rw [hid]
        rcases hown with h | h
        · simp [h]
        · simp [h]
      by_cases hpos : 0 < (ObjectResourceConsumption W (some obj) resource_type empire_id).1
      · have hle : ¬ (ObjectResourceConsumption W (some obj) self.m_resource_type
            self.m_empire_id).1 ≤ 0 := by
          rw [hrt, hid]; exact not_le.2 hpos
        simp only [hskip, Bool.false_eq_true, if_false, hle]
        obtain ⟨rows, heq, hlen, hget⟩ := ih
          { self with
            m_allocation := self.m_allocation +
              (ObjectResourceConsumption W (some obj) self.m_resource_type
                self.m_empire_id).1
            m_allocation_labels_and_amounts :=
              self.m_allocation_labels_and_amounts ++
                [{ top := top, label := .string obj.Name,
                   value := .DoubleToString
                    (ObjectResourceConsumption W (some obj) self.m_resource_type
                      self.m_empire_id).1 }] }
          (top + self.row_height) hrt hid hrh
        refine ⟨{ top := top, label := .string obj.Name,
                  value := .DoubleToString
                    (ObjectResourceConsumption W (some obj) resource_type empire_id).1 } ::
                rows, ?_, ?_, ?_⟩
        · rw [heq]
          simp only [List.filter_cons, hown, hpos, and_self, decide_True, if_true,
            List.map_cons, List.foldl_cons, List.length_cons, hrt, hid, hrh,
            List.append_assoc, List.singleton_append]
          refine Prod.ext rfl ?_
          simp only
          push_cast
          ring
        · simp [List.filter_cons, hown, hpos, hlen]
        · intro i x hx
          simp only [List.filter_cons, hown, hpos, and_self, decide_True, if_true] at hx
          cases i with
          | zero =>
            simp only [List.getElem?_cons_zero, Option.some.injEq] at hx
            subst hx
            simp
          | succ j =>
            simp only [List.getElem?_cons_succ] at hx ⊢
            rw [hget j x hx, hrh]
            congr 2
            push_cast
            ring
      · have hle : (ObjectResourceConsumption W (some obj) self.m_resource_type
            self.m_empire_id).1 ≤ 0 := by
          rw [hrt, hid]; exact not_lt.1 hpos
        simp only [hskip, Bool.false_eq_true, if_false, hle, if_true]
        obtain ⟨rows, heq, hlen, hget⟩ := ih self top hrt hid hrh
        refine ⟨rows, ?_, ?_, ?_⟩
        · rw [heq]; simp [List.filter_cons, hown, hpos]
        · simp [List.filter_cons, hown, hpos, hlen]
        · intro i x hx
          simp only [List.filter_cons, hown, hpos, and_false, decide_False,
            Bool.false_eq_true, if_false] at hx
          exact hget i x hx
    · have hskip : (decide (self.m_empire_id ≠ ALL_EMPIRES) && !obj.OwnedBy self.m_empire_id)
          = true := by
        rw [hid]
        push_neg at hown
        have h2 : obj.OwnedBy empire_id = false := by
          cases h : obj.OwnedBy empire_id
          · rfl
          · exact absurd h hown.2
        simp [hown.1, h2]
      simp only [hskip, if_true]
      obtain ⟨rows, heq, hlen, hget⟩ := ih self top hrt hid hrh
      refine ⟨rows, ?_, ?_, ?_⟩
      · rw [heq]; simp [List.filter_cons, hown]
      · simp [List.filter_cons, hown, hlen]
      · intro i x hx
        simp only [List.filter_cons, hown, false_and, decide_False, Bool.false_eq_true,
          if_false] at hx
        exact hget i x hx

/-- C25. `UpdateAllocation` of a `SystemResourceSummaryBrowseWnd` with a non-null system and a
resource type other than `INVALID_RESOURCE_TYPE`, the amounts being linearly ordered. Let
`listed` be the objects of the system, in order, that pass the empire filter (the empire is
`ALL_EMPIRES` or owns the object) and whose `ObjectResourceConsumption` is greater than `0.0`.
Then `m_allocation` is the sum of the consumptions of the listed objects. If an object is
listed, the rows are one per listed object, in order, each with the name of the object, its
consumption and the position `top + i*row_height`, and nothing else. If none is listed there
is exactly one row, with the label `NOT_APPLICABLE` and an empty value. The rows are never
none at all, and the rows held before the call are gone. -/
theorem updateAllocation_lists_positive_consumers [Zero Dbl] [Add Dbl] [LinearOrder Dbl]
    (W : World Dbl) (self : SystemResourceSummaryBrowseWnd Dbl) (top : Int)
    (m_system : System Dbl) (hsys : self.m_system = some m_system)
    (hrt : self.m_resource_type ≠ .INVALID_RESOURCE_TYPE) :
    ∃ listed : List (UniverseObject Dbl),
      listed = (m_system.FindObjects.filter fun obj =>
        decide ((self.m_empire_id = ALL_EMPIRES ∨ obj.OwnedBy self.m_empire_id = true) ∧
          0 < (ObjectResourceConsumption W (some obj) self.m_resource_type
            self.m_empire_id).1)) ∧
      (self.UpdateAllocation W top).1.m_allocation
        = (listed.map fun obj =>
            (ObjectResourceConsumption W (some obj) self.m_resource_type
              self.m_empire_id).1).foldl (· + ·) 0 ∧
      (listed ≠ [] →
        (self.UpdateAllocation W top).1.m_allocation_labels_and_amounts.length
          = listed.length ∧
        (∀ (i : Nat) (obj : UniverseObject Dbl), listed[i]? = some obj →
          (self.UpdateAllocation W top).1.m_allocation_labels_and_amounts[i]? = some
            { top := top + (i : Int) * self.row_height,
              label := .string obj.Name,
              value := .DoubleToString
                (ObjectResourceConsumption W (some obj) self.m_resource_type
                  self.m_empire_id).1 }) ∧
        (self.UpdateAllocation W top).2 = top + (listed.length : Int) * self.row_height) ∧
      (listed = [] →
        (self.UpdateAllocation W top).1.m_allocation_labels_and_amounts
          = [{ top := top, label := .UserString "NOT_APPLICABLE", value := .string "" }] ∧
        (self.UpdateAllocation W top).2 = top + self.row_height) ∧
      (self.UpdateAllocation W top).1.m_allocation_labels_and_amounts ≠ [] := by
  obtain ⟨rows, heq, hlen, hget⟩ :=
    SystemResourceSummaryBrowseWnd.UpdateAllocation_loop_spec W self.m_resource_type
      self.m_empire_id self.row_height m_system.FindObjects
      { self with m_allocation_labels_and_amounts := [], m_allocation := 0 } top rfl rfl rfl
  refine ⟨_, rfl, ?_⟩
  simp only [List.nil_append] at heq
  have hrun : self.UpdateAllocation W top
      = if (SystemResourceSummaryBrowseWnd.UpdateAllocation_loop W m_system.FindObjects
            { self with m_allocation_labels_and_amounts := [], m_allocation := 0 }
            top).1.m_allocation_labels_and_amounts.isEmpty then
          ({ (SystemResourceSummaryBrowseWnd.UpdateAllocation_loop W m_system.FindObjects
                { self with m_allocation_labels_and_amounts := [], m_allocation := 0 }
                top).1 with
              m_allocation_labels_and_amounts :=
                (SystemResourceSummaryBrowseWnd.UpdateAllocation_loop W m_system.FindObjects
                  { self with m_allocation_labels_and_amounts := [], m_allocation := 0 }
                  top).1.m_allocation_labels_and_amounts ++
                  [{ top :=
                      (SystemResourceSummaryBrowseWnd.UpdateAllocation_loop W
                        m_system.FindObjects
                        { self with m_allocation_labels_and_amounts := [], m_allocation := 0 }
                        top).2,
                     label := .UserString "NOT_APPLICABLE", value := .string "" }] },
           (SystemResourceSummaryBrowseWnd.UpdateAllocation_loop W m_system.FindObjects
              { self with m_allocation_labels_and_amounts := [], m_allocation := 0 }
              top).2 +
            (SystemResourceSummaryBrowseWnd.UpdateAllocation_loop W m_system.FindObjects
              { self with m_allocation_labels_and_amounts := [], m_allocation := 0 }
              top).1.row_height)
        else
          SystemResourceSummaryBrowseWnd.UpdateAllocation_loop W m_system.FindObjects
            { self with m_allocation_labels_and_amounts := [], m_allocation := 0 } top := by
    unfold SystemResourceSummaryBrowseWnd.UpdateAllocation
    simp only [hsys, hrt, if_false]
  rw [hrun, heq]
  simp only
  generalize hl : (m_system.FindObjects.filter fun obj =>
    decide ((self.m_empire_id = ALL_EMPIRES ∨ obj.OwnedBy self.m_empire_id = true) ∧
      0 < (ObjectResourceConsumption W (some obj) self.m_resource_type
        self.m_empire_id).1)) = listed at hlen hget ⊢
  cases listed with
  | nil =>
    have hrows : rows = [] := List.eq_nil_of_length_eq_zero hlen
    subst hrows
    simp
  | cons first others =>
    have hne : rows.isEmpty = false := by
      cases rows with
      | nil => simp at hlen
      | cons a l => rfl
    have hne2 : rows ≠ [] := by
      intro h
      rw [h] at hne
      simp at hne
    simp only [hne, Bool.false_eq_true, if_false]
    refine ⟨trivial, fun _ => ⟨hlen, hget, ?_⟩, fun h => by simp at h, hne2⟩
    simp

/-- Witness of C25: the browse window over `sampleSystem` in `sampleWorld`, for the empire 1.
For food only the planet 1 is listed, with its allocation of 4: the building is no PopCenter
and the planet 3 belongs to the empire 2. For research nothing is listed and the
`NOT_APPLICABLE` row is added. -/
theorem updateAllocation_lists_positive_consumers_witness :
    (((sampleSummary .RE_FOOD 1).UpdateAllocation sampleWorld 36).1.m_allocation = 4 ∧
      ((sampleSummary .RE_FOOD 1).UpdateAllocation sampleWorld
          36).1.m_allocation_labels_and_amounts[0]?
        = some { top := 36, label := .string "Terra", value := .DoubleToString 4 } ∧
      ((sampleSummary .RE_FOOD 1).UpdateAllocation sampleWorld
          36).1.m_allocation_labels_and_amounts.length = 1 ∧
      ((sampleSummary .RE_FOOD 1).UpdateAllocation sampleWorld 36).2 = 54) ∧
    (((sampleSummary .RE_RESEARCH 1).UpdateAllocation sampleWorld
          36).1.m_allocation_labels_and_amounts
        = [{ top := 36, label := .UserString "NOT_APPLICABLE", value := .string "" }] ∧
      ((sampleSummary .RE_RESEARCH 1).UpdateAllocation sampleWorld 36).2 = 54) := by
  constructor
  · obtain ⟨listed, hl, halloc, hrows, _, _⟩ :=
      updateAllocation_lists_positive_consumers sampleWorld (sampleSummary .RE_FOOD 1) 36
        sampleSystem rfl (by decide)
    have hlisted : listed = [samplePlanet] := hl.trans (by rfl)
    subst hlisted
    obtain ⟨hlen, hget, htop⟩ := hrows (by simp)
    exact ⟨halloc, hget 0 samplePlanet rfl, hlen, htop⟩
  · obtain ⟨listed, hl, _, _, hnone, _⟩ :=
      updateAllocation_lists_positive_consumers sampleWorld (sampleSummary .RE_RESEARCH 1) 36
        sampleSystem rfl (by decide)
    have hlisted : listed = [] := hl.trans (by rfl)
    exact hnone hlisted

end summary_theorems
